import Mathlib

/-! The client scripts of the student tracking system: the polling agent
`RealtimeSync` of `static/js/realtime_sync.js`, `SafeDOM.sanitizeText` of
`static/js/safe_dom_utils.js`, the table search of `static/js/utils.js` and
`renderSuggestionGrid` of `static/js/admin_handlers.js`.

A shallow embedding of the `RealtimeSync` class.  The agent's own fields form
the structure `RealtimeSync`; everything of the browser the class touches (the
timers, the requests sent with `fetch`, the sync indicator element, the
notifications in the document, `localStorage`, the clock) forms the structure
`Browser`; a `Page` is a browser together with the agent living in it.

Every method is a function on `Page`.  The single asynchronous method,
`checkForUpdates`, is split at its suspension: `checkForUpdates` is the part
that runs synchronously up to `await fetch(...)` and `checkForUpdatesSettled`
is the part that runs once the request has settled.  Between `await fetch`
and `await response.json()` the method touches nothing of the agent or the
document, so both suspensions are one settlement carrying a `FetchResult`.
-/

namespace StudentTracking

/-- The fields of a `RealtimeSync` instance (constructor, lines 7-16). Times are
milliseconds, `none` is JavaScript `null`. -/
structure RealtimeSync where
  isActive : Bool
  pollInterval : Nat
  intervalId : Option Nat
  lastUpdateCheck : Option Nat
  currentUser : Option String
  currentPage : Option String
deriving DecidableEq, Repr

/-- The body of an update response as the code reads it. Each flag is the
truthiness of the field of that name (an absent field is `undefined`, which is
falsy); `stats` is `none` when the field is absent or `null`, and otherwise the
entries (key, value) of the object in the order `Object.keys` lists them. A key
is any string: what line 219 makes of it is `statSelector`. -/
structure UpdatePayload where
  has_updates : Bool
  timetable_changed : Bool
  teachers_changed : Bool
  students_changed : Bool
  stats_changed : Bool
  announcements_changed : Bool
  stats : Option (List (String × String))
deriving DecidableEq, Repr

/-- One entry of the `announcements` array of `/api/announcements/recent/`. -/
structure Announcement where
  id : Nat
  title : String
  content_preview : String
  created_at : String
  is_urgent : Bool
deriving DecidableEq, Repr

/-- How a `fetch` of the updates endpoint settles: the promise rejects
(transport failure), or it resolves to a response with a status and a body;
`body = none` is a body on which `response.json()` rejects. -/
inductive FetchResult where
  | rejected
  | response (status : Nat) (body : Option UpdatePayload)
deriving DecidableEq, Repr

/-- How the `fetch` of `/api/health/db/` settles. The body is `none` when
`res.json()` rejects or the parsed value is `null` (reading `data.ready` then
throws); `some ready` is the truthiness of `data.ready`. -/
inductive HealthResult where
  | rejected
  | response (status : Nat) (body : Option Bool)
deriving DecidableEq, Repr

/-- How the `fetch` of `/api/announcements/recent/` settles. The body is `none`
when `response.json()` rejects; the inner option is `none` when the parsed
object has no `announcements` array. -/
inductive AnnouncementsResult where
  | rejected
  | response (status : Nat) (body : Option (Option (List Announcement)))
deriving DecidableEq, Repr

/-- The value of `response.ok`: the status is in the range 200-299. -/
def responseOk (status : Nat) : Bool := decide (200 ≤ status) && decide (status ≤ 299)

/-- A call of `fetch` as it leaves the page. -/
structure Request where
  url : String
  method : String
  csrfToken : String
  contentType : Option String
deriving DecidableEq, Repr

/-- The action callbacks the class passes to `showUpdateNotification`; the only
one it ever passes is `() => window.location.reload()`. -/
inductive ActionCallback where
  | reload
deriving DecidableEq, Repr

/-- A notification element appended to the document body by
`showUpdateNotification`. The Dismiss button is always present; the Refresh
button is present exactly when `action` is not `none` (line 327). -/
structure UpdateNotification where
  id : Nat
  title : String
  message : String
  action : Option ActionCallback
deriving DecidableEq, Repr

/-- An entry of `statusConfig` (lines 285-291). -/
structure IndicatorConfig where
  color : String
  text : String
  title : String
deriving DecidableEq, Repr

/-- The `#syncIndicator` element: what it shows and whether its opacity has
been lowered to 0.3 by the timeout of line 301. -/
structure SyncIndicator where
  color : String
  text : String
  title : String
  dimmed : Bool
deriving DecidableEq, Repr

/-- An element carrying a `data-stat` attribute. -/
structure StatElement where
  key : String
  textContent : String
  animation : String
deriving DecidableEq, Repr

/-- The callbacks registered with `setTimeout`. -/
inductive TimeoutTask where
  | dimIndicator
  | removeNotification (id : Nat)
  | clearHighlight (key : String)
  | pollDb
deriving DecidableEq, Repr

/-- A call of `checkForUpdates` suspended at its request. `thenStartPolling`
records that `resumeSync` chained `.then(() => this.startPolling())` on it. -/
structure PendingCheck where
  id : Nat
  thenStartPolling : Bool
deriving DecidableEq, Repr

/-- The part of the browser the class reads and writes. `handlerCalls` is a
trace of the page handlers entered, kept for stating dispatch properties; it has
no counterpart in the source. -/
structure Browser where
  pathname : String
  now : Nat
  csrfToken : Option String
  localStorage : List (String × String)
  nextTimerId : Nat
  liveIntervals : List Nat
  timeouts : List (Nat × TimeoutTask)
  nextRequestId : Nat
  requests : List Request
  inflight : List PendingCheck
  announcementFetches : List Nat
  indicator : Option SyncIndicator
  indicatorCalls : List String
  nextNotificationId : Nat
  notifications : List UpdateNotification
  statElements : List StatElement
  announcementsList : Option (List Announcement)
  reloads : Nat
  handlerCalls : List String
  healthProbes : List Nat
deriving DecidableEq, Repr

/-- A page: the browser and the agent constructed in it. -/
structure Page extends Browser where
  sync : RealtimeSync
deriving DecidableEq, Repr

/-! ## localStorage -/

/-- `localStorage.getItem(key)`. -/
def getItem (store : List (String × String)) (key : String) : Option String :=
  (store.find? (fun kv => kv.1 == key)).map (fun kv => kv.2)

/-- `localStorage.removeItem(key)`. -/
def removeItem (store : List (String × String)) (key : String) : List (String × String) :=
  store.filter (fun kv => !(kv.1 == key))

/-- `localStorage.setItem(key, value)`. -/
def setItem (store : List (String × String)) (key value : String) : List (String × String) :=
  (key, value) :: removeItem store key

/-! ## Timers -/

/-- `setInterval(...)`: a fresh positive handle, added to the live intervals. -/
def setInterval (p : Page) : Page × Nat :=
  ({ p with nextTimerId := p.nextTimerId + 1,
            liveIntervals := p.liveIntervals ++ [p.nextTimerId + 1] },
   p.nextTimerId + 1)

/-- `clearInterval(id)`. -/
def clearInterval (p : Page) (id : Nat) : Page :=
  { p with liveIntervals := p.liveIntervals.filter (fun i => !(i == id)) }

/-- `setTimeout(task, delay)`. -/
def setTimeout (p : Page) (delay : Nat) (task : TimeoutTask) : Page :=
  { p with timeouts := p.timeouts ++ [(delay, task)] }

/-! ## The sync indicator and the notifications -/

/-- The table `statusConfig` of `showSyncIndicator` (lines 285-291); `none` for a
status that is no key of the table. -/
def statusConfig (status : String) : Option IndicatorConfig :=
  if status = "active" then some ⟨"#28a745", "●", "Real-time sync active"⟩
  else if status = "paused" then some ⟨"#ffc107", "⏸", "Real-time sync paused"⟩
  else if status = "error" then some ⟨"#dc3545", "●", "Sync error - retrying..."⟩
  else if status = "offline" then some ⟨"#6c757d", "●", "Offline - sync unavailable"⟩
  else if status = "db_warming" then some ⟨"#fd7e14", "●", "Database warming up"⟩
  else none

/-- The entry `statusConfig.offline`, the fallback of line 293. -/
def statusConfigOffline : IndicatorConfig := ⟨"#6c757d", "●", "Offline - sync unavailable"⟩

/-- The indicator element as it looks right after `showSyncIndicator(status)`
when it was `old` before (`none`: the element did not exist and is created). -/
def indicatorAfter (old : Option SyncIndicator) (status : String) : SyncIndicator :=
  let config := (statusConfig status).getD statusConfigOffline
  { color := config.color, text := config.text, title := config.title,
    dimmed := match old with
      | some i => i.dimmed
      | none => false }

/-- `showSyncIndicator(status)` (lines 275-307). -/
def showSyncIndicator (p : Page) (status : String) : Page :=
  let p1 : Page := { p with indicator := some (indicatorAfter p.indicator status),
                            indicatorCalls := p.indicatorCalls ++ [status] }
  if status ≠ "error" then setTimeout p1 3000 TimeoutTask.dimIndicator else p1

/-- `showUpdateNotification(title, message, actionCallback)` (lines 309-363). -/
def showUpdateNotification (p : Page) (title message : String)
    (actionCallback : Option ActionCallback) : Page :=
  if getItem p.localStorage "disableUpdateNotifications" = some "true" then p
  else
    let p1 : Page :=
      { p with notifications := p.notifications ++
                 [{ id := p.nextNotificationId, title := title, message := message,
                    action := actionCallback }],
               nextNotificationId := p.nextNotificationId + 1 }
    setTimeout p1 10000 (TimeoutTask.removeNotification p.nextNotificationId)

/-- `getCSRFToken()` (lines 365-368). -/
def getCSRFToken (p : Page) : String :=
  match p.csrfToken with
  | some v => v
  | none => ""

/-! ## Context detection and the polling timer -/

/-- The pieces of `cs` between occurrences of `sep`; `acc` holds the current
piece reversed. -/
def splitAux (sep : Char) : List Char → List Char → List String
  | [], acc => [String.mk acc.reverse]
  | c :: cs, acc =>
    if c = sep then String.mk acc.reverse :: splitAux sep cs []
    else splitAux sep cs (c :: acc)

/-- `s.split(sep)` for a separator of one character. -/
def split (s : String) (sep : Char) : List String := splitAux sep s.data []

/-- `detectCurrentContext()` (lines 41-67). -/
def detectCurrentContext (p : Page) : Page :=
  let pathParts := split p.pathname '/'
  let user :=
    if pathParts.contains "admin" then some "admin"
    else if pathParts.contains "teacher" then some "teacher"
    else if pathParts.contains "student" then some "student"
    else p.sync.currentUser
  let page :=
    if pathParts.contains "timetable" then some "timetable"
    else if pathParts.contains "teachers" then some "teachers"
    else if pathParts.contains "students" then some "students"
    else if pathParts.contains "dashboard" then some "dashboard"
    else if pathParts.contains "announcements" then some "announcements"
    else p.sync.currentPage
  { p with sync := { p.sync with currentUser := user, currentPage := page } }

/-- `shouldStartPolling()` (lines 69-73). -/
def shouldStartPolling (p : Page) : Bool :=
  p.sync.currentUser == some "admin" || p.sync.currentUser == some "teacher"

/-- `startPolling()` (lines 75-87). -/
def startPolling (p : Page) : Page :=
  if p.sync.isActive then p
  else
    let p1 : Page := { p with sync := { p.sync with isActive := true } }
    let p2 : Page := (setInterval p1).1
    let p3 : Page := { p2 with sync := { p2.sync with intervalId := some (setInterval p1).2 } }
    showSyncIndicator p3 "active"

/-- `pauseSync()` (lines 89-100). The test `if (this.intervalId)` is the
truthiness of the handle: it is not `null` and not `0`. -/
def pauseSync (p : Page) : Page :=
  if !p.sync.isActive then p
  else
    let p1 : Page := { p with sync := { p.sync with isActive := false } }
    let p2 : Page :=
      match p1.sync.intervalId with
      | some id =>
        if id ≠ 0 then
          let q : Page := clearInterval p1 id
          { q with sync := { q.sync with intervalId := none } }
        else p1
      | none => p1
    showSyncIndicator p2 "paused"

/-! ## Page handlers

A handler that can throw returns `Except (String × Page) Page`: `.error (e, q)`
is the exception `e` thrown when the page was in state `q`. -/

/-- Enter a page handler: append its name to the trace. -/
def enterHandler (p : Page) (name : String) : Page :=
  { p with handlerCalls := p.handlerCalls ++ [name] }

/-- `handleTimetableUpdates(updates)` (lines 165-173). -/
def handleTimetableUpdates (p : Page) (updates : UpdatePayload) : Page :=
  let p1 := enterHandler p "handleTimetableUpdates"
  if updates.timetable_changed then
    showUpdateNotification p1 "Timetable Updated"
      "The timetable has been modified. Refresh to see changes." (some ActionCallback.reload)
  else p1

/-- `handleTeacherUpdates(updates)` (lines 175-183). -/
def handleTeacherUpdates (p : Page) (updates : UpdatePayload) : Page :=
  let p1 := enterHandler p "handleTeacherUpdates"
  if updates.teachers_changed then
    showUpdateNotification p1 "Teacher Data Updated"
      "Teacher information has been modified. Refresh to see changes." (some ActionCallback.reload)
  else p1

/-- `handleStudentUpdates(updates)` (lines 185-193). -/
def handleStudentUpdates (p : Page) (updates : UpdatePayload) : Page :=
  let p1 := enterHandler p "handleStudentUpdates"
  if updates.students_changed then
    showUpdateNotification p1 "Student Data Updated"
      "Student information has been modified. Refresh to see changes." (some ActionCallback.reload)
  else p1

/-- `handleAnnouncementUpdates(updates)` (lines 206-214). -/
def handleAnnouncementUpdates (p : Page) (updates : UpdatePayload) : Page :=
  let p1 := enterHandler p "handleAnnouncementUpdates"
  if updates.announcements_changed then
    showUpdateNotification p1 "New Announcements"
      "New announcements have been posted." (some ActionCallback.reload)
  else p1

/-- Apply `f` to the first element of the list that satisfies `c`: what
`document.querySelector` followed by an assignment does. -/
def updateFirst {α : Type} (c : α → Bool) (f : α → α) : List α → List α
  | [] => []
  | x :: xs => if c x then f x :: xs else x :: updateFirst c f xs

/-! ### The selector of line 219

Line 219 splices the key between the double quotes of the selector text
`[data-stat="..."]` and hands the text to `document.querySelector`, which reads
it as CSS.  The definitions below follow CSS Syntax Level 3: the preprocessing
of the input (section 3.3) and the consumption of a string token and of an
escaped code point (sections 4.3.5 and 4.3.7).  Code points are written as
numbers: 34 is the double quote, 92 the backslash, 93 the closing bracket, 47
the slash, 10, 13 and 12 are line feed, carriage return and form feed, 9 and 32
tab and space, 65533 is U+FFFD. -/

/-- CSS input preprocessing: CR, FF and the pair CR LF become one LF, and NUL
becomes U+FFFD. `afterCR` says that the code point before was a CR. -/
def preprocessAux (afterCR : Bool) : List Char → List Char
  | [] => []
  | c :: cs =>
    if c.toNat = 13 then Char.ofNat 10 :: preprocessAux true cs
    else if c.toNat = 10 then
      if afterCR then preprocessAux false cs else c :: preprocessAux false cs
    else if c.toNat = 12 then Char.ofNat 10 :: preprocessAux false cs
    else if c.toNat = 0 then Char.ofNat 65533 :: preprocessAux false cs
    else c :: preprocessAux false cs

/-- The input stream the CSS tokenizer reads for the text `cs`. -/
def preprocess (cs : List Char) : List Char := preprocessAux false cs

/-- The value of a hex digit, `none` for any other code point. -/
def hexValue (c : Char) : Option Nat :=
  if 48 ≤ c.toNat ∧ c.toNat ≤ 57 then some (c.toNat - 48)
  else if 97 ≤ c.toNat ∧ c.toNat ≤ 102 then some (c.toNat - 87)
  else if 65 ≤ c.toNat ∧ c.toNat ≤ 70 then some (c.toNat - 55)
  else none

/-- The code point a hex escape of value `n` stands for: U+FFFD when `n` is
zero, a surrogate or beyond U+10FFFF. -/
def escapedChar (n : Nat) : Char :=
  if n = 0 ∨ (55296 ≤ n ∧ n ≤ 57343) ∨ 1114111 < n then Char.ofNat 65533 else Char.ofNat n

/-- Where the tokenizer stands inside a string: in plain text, right after a
backslash, or inside a hex escape of `digits` digits read so far. -/
inductive Scan where
  | text
  | escape
  | hex (value digits : Nat)
deriving DecidableEq, Repr

/-- What consuming a string token yields: a bad string (an unescaped line
break), the string closed by its quote together with the input left after the
quote, or the string ended by the end of the input. -/
inductive StringToken where
  | bad
  | closed (value rest : List Char)
  | unclosed (value : List Char)
deriving DecidableEq, Repr

/-- Consume a string token delimited by the double quote, the opening quote
being read already; `acc` is the value so far, reversed. A backslash before a
line break continues the line, before a hex digit it starts an escape of up to
six digits that swallows one following white space, and before anything else it
makes that code point part of the value. -/
def consumeString : Scan → List Char → List Char → StringToken
  | Scan.text, acc, [] => StringToken.unclosed acc.reverse
  | Scan.escape, acc, [] => StringToken.unclosed acc.reverse
  | Scan.hex v _, acc, [] => StringToken.unclosed (escapedChar v :: acc).reverse
  | Scan.text, acc, c :: cs =>
    if c.toNat = 34 then StringToken.closed acc.reverse cs
    else if c.toNat = 10 then StringToken.bad
    else if c.toNat = 92 then consumeString Scan.escape acc cs
    else consumeString Scan.text (c :: acc) cs
  | Scan.escape, acc, c :: cs =>
    if c.toNat = 10 then consumeString Scan.text acc cs
    else
      match hexValue c with
      | some d => consumeString (Scan.hex d 1) acc cs
      | none => consumeString Scan.text (c :: acc) cs
  | Scan.hex v n, acc, c :: cs =>
    if (hexValue c).isSome ∧ n < 6 then
      consumeString (Scan.hex (16 * v + (hexValue c).getD 0) (n + 1)) acc cs
    else if c.toNat = 32 ∨ c.toNat = 9 ∨ c.toNat = 10 then
      consumeString Scan.text (escapedChar v :: acc) cs
    else if c.toNat = 34 then StringToken.closed (escapedChar v :: acc).reverse cs
    else if c.toNat = 92 then consumeString Scan.escape (escapedChar v :: acc) cs
    else consumeString Scan.text (c :: escapedChar v :: acc) cs

/-- What the selector text of line 219 is for a key.

* `attr value`: the quote written after the key closes the string, so the text
  is the attribute selector `[data-stat="value"]`, which selects the first
  element in document order whose `data-stat` attribute is exactly `value`.
* `malformed`: the text is no selector and `querySelector` throws a
  `SyntaxError`. Either the string holds an unescaped line break, or a quote of
  the key closes the string and the rest of the key holds neither a closing
  bracket nor a slash: the quote written after the key is then one more token
  inside the brackets, behind the attribute value, where only a modifier may
  stand.
* `foreign`: the key ends the string itself in another way (a quote followed
  by text with a closing bracket or a slash, or a final backslash that escapes
  the quote written after the key). Whether the text is a selector, and which
  elements of the document it selects, depends on the rest of the key. -/
inductive StatSelector where
  | attr (value : String)
  | malformed
  | foreign
deriving DecidableEq, Repr

/-- The selector text built on line 219 from `statKey`, read as CSS. -/
def statSelector (statKey : String) : StatSelector :=
  match consumeString Scan.text []
      (preprocess (statKey.data ++ [Char.ofNat 34, Char.ofNat 93])) with
  | StringToken.bad => StatSelector.malformed
  | StringToken.unclosed _ => StatSelector.foreign
  | StringToken.closed value rest =>
    if rest = [Char.ofNat 93] then StatSelector.attr (String.mk value)
    else if rest.dropLast.any (fun c => decide (c.toNat = 93 ∨ c.toNat = 47)) then
      StatSelector.foreign
    else StatSelector.malformed

/-- The key holds no double quote, backslash, line feed, carriage return, form
feed or NUL: the characters that do not stand for themselves inside the quotes
of the selector. -/
def selectorSafe (statKey : String) : Bool :=
  statKey.data.all (fun c => !decide (c.toNat = 34 ∨ c.toNat = 92 ∨ c.toNat = 10
    ∨ c.toNat = 13 ∨ c.toNat = 12 ∨ c.toNat = 0))

/-- Lines 220-228 for the element `document.querySelector` returned for the
selector `[data-stat="bound"]`: the first stat element bound to `bound`, if
there is one, gets the text `value`, the highlight animation and a timeout that
clears the animation. -/
def patchStat (p : Page) (bound value : String) : Page :=
  if p.statElements.any (fun e => e.key == bound) then
    let p1 : Page :=
      { p with statElements :=
                 updateFirst (fun e => e.key == bound)
                   (fun e => { e with textContent := value,
                                      animation := "highlight 1s ease-in-out" })
                   p.statElements }
    setTimeout p1 1000 (TimeoutTask.clearHighlight bound)
  else p

/-- The body of the `forEach` of `updateDashboardStats` for one key (lines
219-228). `querySelector` throws a `SyntaxError` on a text that is no selector;
a `foreign` selector text, about which the model knows no more, is taken to be
none either. -/
def updateStat (p : Page) (statKey value : String) : Except (String × Page) Page :=
  match statSelector statKey with
  | StatSelector.attr bound => .ok (patchStat p bound value)
  | StatSelector.malformed => .error ("SyntaxError", p)
  | StatSelector.foreign => .error ("SyntaxError", p)

/-- The `forEach` of line 218 over the entries of `stats`: an exception thrown
for one key ends the loop, the keys before it being patched already. -/
def forEachStat (p : Page) : List (String × String) → Except (String × Page) Page
  | [] => .ok p
  | kv :: kvs =>
    match updateStat p kv.1 kv.2 with
    | .error e => .error e
    | .ok q => forEachStat q kvs

/-- `updateDashboardStats(stats)` (lines 216-230). `Object.keys(stats)` throws a
`TypeError` when `stats` is `undefined` or `null`. -/
def updateDashboardStats (p : Page) (stats : Option (List (String × String))) :
    Except (String × Page) Page :=
  match stats with
  | none => .error ("TypeError", p)
  | some kvs => forEachStat p kvs

/-- `refreshAnnouncementsList()` up to its `await fetch(...)` (lines 232-238). -/
def refreshAnnouncementsList (p : Page) : Page :=
  { p with requests := p.requests ++
             [{ url := "/api/announcements/recent/", method := "GET",
                csrfToken := getCSRFToken p, contentType := none }],
           announcementFetches := p.announcementFetches ++ [p.nextRequestId],
           nextRequestId := p.nextRequestId + 1 }

/-- `updateAnnouncementsList(announcements)` (lines 249-273); `announcements` is
`none` when `data.announcements` is `undefined`, on which `forEach` throws. -/
def updateAnnouncementsList (p : Page) (announcements : Option (List Announcement)) :
    Except (String × Page) Page :=
  match p.announcementsList with
  | none => .ok p
  | some _ =>
    match announcements with
    | none => .error ("TypeError", p)
    | some as =>
      .ok (showUpdateNotification { p with announcementsList := some as }
            "New Announcements" "Fresh announcements have been added." none)

/-- `refreshAnnouncementsList()` after its request has settled (lines 240-246):
every exception is caught and logged. -/
def refreshAnnouncementsListSettled (p : Page) (r : AnnouncementsResult) : Page :=
  match r with
  | .rejected => p
  | .response status body =>
    if responseOk status then
      match body with
      | none => p
      | some announcements =>
        match updateAnnouncementsList p announcements with
        | .ok q => q
        | .error e => e.2
    else p

/-- `handleDashboardUpdates(updates)` (lines 195-204). -/
def handleDashboardUpdates (p : Page) (updates : UpdatePayload) : Except (String × Page) Page :=
  let p1 := enterHandler p "handleDashboardUpdates"
  let afterStats : Except (String × Page) Page :=
    if updates.stats_changed then updateDashboardStats p1 updates.stats else .ok p1
  match afterStats with
  | .error e => .error e
  | .ok p2 => if updates.announcements_changed then .ok (refreshAnnouncementsList p2) else .ok p2

/-- `processUpdates(updates)` (lines 142-163). -/
def processUpdates (p : Page) (updates : UpdatePayload) : Except (String × Page) Page :=
  if !updates.has_updates then .ok p
  else if p.sync.currentPage = some "timetable" then .ok (handleTimetableUpdates p updates)
  else if p.sync.currentPage = some "teachers" then .ok (handleTeacherUpdates p updates)
  else if p.sync.currentPage = some "students" then .ok (handleStudentUpdates p updates)
  else if p.sync.currentPage = some "dashboard" then handleDashboardUpdates p updates
  else if p.sync.currentPage = some "announcements" then .ok (handleAnnouncementUpdates p updates)
  else .ok p

/-! ## checkForUpdates -/

/-- `checkForUpdates()` up to its `await fetch(...)` (lines 113-124). The second
component is `none` when the method has returned without a request (its promise
is already resolved) and `some id` when it is suspended at request `id`. -/
def checkForUpdates (p : Page) : Page × Option Nat :=
  if p.sync.currentUser = none ∨ p.sync.currentUser = some ""
      ∨ p.sync.currentUser = some "student" then (p, none)
  else
    let endpoint :=
      if p.sync.currentUser = some "teacher" then "/api/teacher/updates/"
      else "/api/admin/updates/"
    ({ p with requests := p.requests ++
                [{ url := endpoint, method := "GET", csrfToken := getCSRFToken p,
                   contentType := some "application/json" }],
              inflight := p.inflight ++ [{ id := p.nextRequestId, thenStartPolling := false }],
              nextRequestId := p.nextRequestId + 1 },
     some p.nextRequestId)

/-- The `try` block of `checkForUpdates` from the settlement of the request on
(lines 126-134). -/
def checkForUpdatesTry (p : Page) (r : FetchResult) : Except (String × Page) Page :=
  match r with
  | .rejected => .error ("TypeError: Failed to fetch", p)
  | .response status body =>
    if !responseOk status then .error ("HTTP " ++ toString status, p)
    else
      match body with
      | none => .error ("SyntaxError", p)
      | some data =>
        match processUpdates p data with
        | .error e => .error e
        | .ok p1 =>
          let p2 : Page := { p1 with sync := { p1.sync with lastUpdateCheck := some p1.now } }
          .ok (showSyncIndicator p2 "active")

/-- `checkForUpdates()` from the settlement of the request to its end (lines
126-139): the `try` block and its `catch`. `.ok q` is the promise fulfilled in
state `q`, `.error` would be the promise rejected. -/
def checkForUpdatesSettled (p : Page) (r : FetchResult) : Except (String × Page) Page :=
  match checkForUpdatesTry p r with
  | .ok q => .ok q
  | .error e => .ok (showSyncIndicator e.2 "error")

/-- Mark the suspended check `id` as followed by `startPolling`. -/
def chainStartPolling (p : Page) (id : Nat) : Page :=
  { p with inflight :=
             p.inflight.map
               (fun c => if c.id == id then { c with thenStartPolling := true } else c) }

/-- `resumeSync()` (lines 102-111). When `checkForUpdates` has returned without
suspending, its promise is already resolved and the callback of `.then` runs as
a microtask at the end of the same turn; otherwise the callback waits for the
settlement of the check. -/
def resumeSync (p : Page) : Page :=
  if p.sync.isActive then p
  else
    match (checkForUpdates p).2 with
    | none => startPolling (checkForUpdates p).1
    | some id => chainStartPolling (checkForUpdates p).1 id

/-- The settlement of the suspended check `id` with result `r`: the rest of
`checkForUpdates` runs, then the chained callback if there is one and the
promise was fulfilled. -/
def settleCheck (p : Page) (id : Nat) (r : FetchResult) : Page :=
  match p.inflight.find? (fun c => c.id == id) with
  | none => p
  | some c =>
    let p1 : Page := { p with inflight := p.inflight.filter (fun d => !(d.id == id)) }
    match checkForUpdatesSettled p1 r with
    | .ok q => if c.thenStartPolling then startPolling q else q
    | .error e => e.2

/-- The settlement of the announcements request `id`. -/
def settleAnnouncements (p : Page) (id : Nat) (r : AnnouncementsResult) : Page :=
  if p.announcementFetches.contains id then
    refreshAnnouncementsListSettled
      { p with announcementFetches := p.announcementFetches.filter (fun i => !(i == id)) } r
  else p

/-! ## Manual control -/

/-- `disable()` (lines 371-375). -/
def disable (p : Page) : Page :=
  let p1 := pauseSync p
  { p1 with localStorage := setItem p1.localStorage "disableRealtimeSync" "true" }

/-- `enable()` (lines 377-383). -/
def enable (p : Page) : Page :=
  let p1 : Page := { p with localStorage := removeItem p.localStorage "disableRealtimeSync" }
  if shouldStartPolling p1 then startPolling p1 else p1

/-- `forceUpdate()` (lines 385-387). -/
def forceUpdate (p : Page) : Page := (checkForUpdates p).1

/-- `initializeSync()` (lines 18-39); the listeners it registers are the events
`visibilitychange`, `focus` and `blur` of `Event`. -/
def initializeSync (p : Page) : Page :=
  let p1 := detectCurrentContext p
  if shouldStartPolling p1 then startPolling p1 else p1

/-- The constructor: `new RealtimeSync()` in browser `b` (lines 7-16). -/
def construct (b : Browser) : Page :=
  initializeSync
    { toBrowser := b,
      sync := { isActive := false, pollInterval := 10000, intervalId := none,
                lastUpdateCheck := none, currentUser := none, currentPage := none } }

/-! ## Database health probe -/

/-- `checkDbHealth()` up to its `await fetch(...)` (line 392). -/
def checkDbHealth (p : Page) : Page :=
  { p with requests := p.requests ++
             [{ url := "/api/health/db/", method := "GET", csrfToken := getCSRFToken p,
                contentType := none }],
           healthProbes := p.healthProbes ++ [p.nextRequestId],
           nextRequestId := p.nextRequestId + 1 }

/-- `checkDbHealth()` from the settlement of its request on (lines 393-402): the
page it ends in and the value its promise resolves to, `none` being
`undefined` (the `try` block is left without a `return`). -/
def checkDbHealthSettled (p : Page) (r : HealthResult) : Page × Option Bool :=
  match r with
  | .rejected => (showSyncIndicator p "db_warming", some false)
  | .response status body =>
    if !responseOk status then (showSyncIndicator p "db_warming", some false)
    else
      match body with
      | none => (showSyncIndicator p "db_warming", some false)
      | some ready =>
        if ready then (showSyncIndicator p "active", some true)
        else (p, none)

/-- `pollDb()` up to its `await` (lines 417-418). -/
def pollDb (p : Page) : Page := checkDbHealth p

/-- `pollDb()` once the probe has settled (lines 419-421): `!ok` holds unless the
probe returned `true`. -/
def pollDbSettled (p : Page) (r : HealthResult) : Page :=
  if (checkDbHealthSettled p r).2 = some true then (checkDbHealthSettled p r).1
  else setTimeout (checkDbHealthSettled p r).1 15000 TimeoutTask.pollDb

/-- The settlement of the health probe `id`. -/
def settleHealth (p : Page) (id : Nat) (r : HealthResult) : Page :=
  if p.healthProbes.contains id then
    pollDbSettled { p with healthProbes := p.healthProbes.filter (fun i => !(i == id)) } r
  else p

/-- The `DOMContentLoaded` listener (lines 407-433): `none` when it returns
without constructing an agent, so that `window.realtimeSync` stays undefined.
The shortcut it registers is the event `forceUpdate` of `Event`. -/
def bootstrap (b : Browser) : Option Page :=
  if getItem b.localStorage "disableRealtimeSync" = some "true" then none
  else some (pollDb (construct b))

/-! ## Events of the page -/

/-- `notification.remove()` for the notification `id`. -/
def removeNotification (p : Page) (id : Nat) : Page :=
  { p with notifications := p.notifications.filter (fun n => !(n.id == id)) }

/-- A click on the Dismiss button of notification `id` (lines 353-355). -/
def dismissClick (p : Page) (id : Nat) : Page := removeNotification p id

/-- A click on the Refresh button of notification `id` (lines 346-351): the
action callback runs, then the notification is removed. Nothing happens when
the notification is not in the document or has no Refresh button. -/
def refreshClick (p : Page) (id : Nat) : Page :=
  match p.notifications.find? (fun n => n.id == id) with
  | none => p
  | some n =>
    match n.action with
    | none => p
    | some ActionCallback.reload => removeNotification { p with reloads := p.reloads + 1 } id

/-- The callback of the `i`-th pending `setTimeout` runs. -/
def fireTimeout (p : Page) (i : Nat) : Page :=
  match p.timeouts.get? i with
  | none => p
  | some dt =>
    let p1 : Page := { p with timeouts := p.timeouts.eraseIdx i }
    match dt.2 with
    | TimeoutTask.dimIndicator =>
      { p1 with indicator := p1.indicator.map (fun ind => { ind with dimmed := true }) }
    | TimeoutTask.removeNotification id => removeNotification p1 id
    | TimeoutTask.clearHighlight key =>
      { p1 with statElements :=
                  updateFirst (fun e => e.key == key) (fun e => { e with animation := "" })
                    p1.statElements }
    | TimeoutTask.pollDb => pollDb p1

/-- The interval `id` fires (lines 79-81): a check starts if the interval is
still live. -/
def intervalFires (p : Page) (id : Nat) : Page :=
  if p.liveIntervals.contains id then (checkForUpdates p).1 else p

/-- Everything that can happen to a page once the agent is constructed: the
three listeners of `initializeSync`, calls of the public methods, timers
firing, requests settling, clicks on a notification, and time passing. -/
inductive Event where
  | visibilitychange (hidden : Bool)
  | focus
  | blur
  | enable
  | disable
  | forceUpdate
  | startPolling
  | pauseSync
  | resumeSync
  | checkForUpdates
  | intervalFires (id : Nat)
  | checkSettles (id : Nat) (r : FetchResult)
  | announcementsSettle (id : Nat) (r : AnnouncementsResult)
  | dismissClick (id : Nat)
  | refreshClick (id : Nat)
  | timeoutFires (i : Nat)
  | elapse (ms : Nat)
  | healthSettles (id : Nat) (r : HealthResult)
deriving DecidableEq, Repr

/-- One turn of the event loop. -/
def step (p : Page) : Event → Page
  | .visibilitychange hidden => if hidden then pauseSync p else resumeSync p
  | .focus => resumeSync p
  | .blur => pauseSync p
  | .enable => enable p
  | .disable => disable p
  | .forceUpdate => forceUpdate p
  | .startPolling => startPolling p
  | .pauseSync => pauseSync p
  | .resumeSync => resumeSync p
  | .checkForUpdates => (checkForUpdates p).1
  | .intervalFires id => intervalFires p id
  | .checkSettles id r => settleCheck p id r
  | .announcementsSettle id r => settleAnnouncements p id r
  | .dismissClick id => dismissClick p id
  | .refreshClick id => refreshClick p id
  | .timeoutFires i => fireTimeout p i
  | .elapse ms => { p with now := p.now + ms }
  | .healthSettles id r => settleHealth p id r

/-- The page after a sequence of events. -/
def run (p : Page) (events : List Event) : Page := events.foldl step p

/-- A browser in which nothing has happened yet, showing the path `pathname`. -/
def freshBrowser (pathname : String) : Browser :=
  { pathname := pathname, now := 0, csrfToken := none, localStorage := [],
    nextTimerId := 0, liveIntervals := [], timeouts := [], nextRequestId := 0,
    requests := [], inflight := [], announcementFetches := [], indicator := none,
    indicatorCalls := [], nextNotificationId := 0, notifications := [],
    statElements := [], announcementsList := none, reloads := 0, handlerCalls := [],
    healthProbes := [] }

/-- The browser after a reload of the page: a new document at the same
address, with the storage, the clock and the token field of the old one. -/
def reloadBrowser (b : Browser) : Browser :=
  { freshBrowser b.pathname with now := b.now, csrfToken := b.csrfToken,
                                 localStorage := b.localStorage }

/-- The indicator element shows the entry of `statusConfig` for `status`. -/
def showsStatus (p : Page) (status : String) : Bool :=
  match p.indicator with
  | some i => statusConfig status == some ⟨i.color, i.text, i.title⟩
  | none => false

/-- The page state a possibly throwing step ends in. -/
def resultPage : Except (String × Page) Page → Page
  | .ok q => q
  | .error e => e.2

/-- The handler the `switch` of `processUpdates` selects for a page (lines
146-162), `none` when no case matches. -/
def pageHandler (page : Option String) : Option String :=
  if page = some "timetable" then some "handleTimetableUpdates"
  else if page = some "teachers" then some "handleTeacherUpdates"
  else if page = some "students" then some "handleStudentUpdates"
  else if page = some "dashboard" then some "handleDashboardUpdates"
  else if page = some "announcements" then some "handleAnnouncementUpdates"
  else none

/-- Every key of the entries yields an attribute selector on line 219. -/
def keysSelect (kvs : List (String × String)) : Bool :=
  kvs.all (fun kv => match statSelector kv.1 with
    | StatSelector.attr _ => true
    | _ => false)

/-- No key of the entries yields a `foreign` selector text. -/
def keysModelled (kvs : List (String × String)) : Bool :=
  kvs.all (fun kv => !decide (statSelector kv.1 = StatSelector.foreign))

/-- The `stats` object throws in `updateDashboardStats`: it is absent or `null`
(line 218), or one of its keys yields no attribute selector (line 219). -/
def statsThrow (stats : Option (List (String × String))) : Bool :=
  match stats with
  | none => true
  | some kvs => !keysSelect kvs

/-- The dispatch of `updates` on the page throws: the dashboard handler is
reached with `stats_changed` set and a `stats` object that throws. -/
def dispatchThrows (p : Page) (updates : UpdatePayload) : Bool :=
  updates.has_updates && p.sync.currentPage == some "dashboard" && updates.stats_changed
    && statsThrow updates.stats

/-- The payload is one the model follows exactly: no key of its `stats` object
yields a `foreign` selector text. -/
def statsModelled (updates : UpdatePayload) : Bool :=
  match updates.stats with
  | none => true
  | some kvs => keysModelled kvs

/-- The request failed: the fetch rejected, the status is not in 200-299, or the
body could not be parsed. -/
def isFailure : FetchResult → Bool
  | .rejected => true
  | .response status body => !responseOk status || body.isNone

/-- A whole call of `checkForUpdates()` (lines 113-140) whose request settles
with `r` before any other event: the synchronous part, then the rest. `.ok q`
is the returned promise fulfilled in state `q`. -/
def checkForUpdatesCall (p : Page) (r : FetchResult) : Except (String × Page) Page :=
  match (checkForUpdates p).2 with
  | none => .ok (checkForUpdates p).1
  | some id =>
    let p1 : Page := (checkForUpdates p).1
    checkForUpdatesSettled { p1 with inflight := p1.inflight.filter (fun d => !(d.id == id)) } r

/-- The change flag a page's handler reads: `timetable_changed` on the timetable
page, `teachers_changed` on teachers, `students_changed` on students and
`announcements_changed` on announcements (lines 166, 176, 186, 207). -/
def pageFlag (page : String) (u : UpdatePayload) : Bool :=
  if page = "timetable" then u.timetable_changed
  else if page = "teachers" then u.teachers_changed
  else if page = "students" then u.students_changed
  else if page = "announcements" then u.announcements_changed
  else false

/-- A browser showing `pathname` in which the user has switched update
notifications off. -/
def mutedBrowser (pathname : String) : Browser :=
  { freshBrowser pathname with localStorage := [("disableUpdateNotifications", "true")] }

/-- What the four notifying handlers have in common: the handler named `name`
is entered, and if `flag` is set the notification `title`/`message` with the
reload action is shown. -/
def notifyIf (p : Page) (name title message : String) (flag : Bool) : Page :=
  if flag then showUpdateNotification (enterHandler p name) title message (some ActionCallback.reload)
  else enterHandler p name

/-- The endpoint `checkForUpdates` selects from the role (line 117). -/
def updatesEndpoint (p : Page) : String :=
  if p.sync.currentUser = some "teacher" then "/api/teacher/updates/" else "/api/admin/updates/"

/-- The request `checkForUpdates` sends (lines 118-124). -/
def updatesRequest (p : Page) : Request :=
  { url := updatesEndpoint p, method := "GET", csrfToken := getCSRFToken p,
    contentType := some "application/json" }

/-- The timer invariant of the agent: the handle is set exactly when `isActive`
is true, and a handle that is set is a real one (positive). -/
def TimerInv (s : RealtimeSync) : Prop :=
  (s.isActive = true ↔ s.intervalId ≠ none) ∧ s.intervalId ≠ some 0

/-- The timers of a page are in order: the agent satisfies the timer invariant
and the only live interval is the one whose handle the agent holds. -/
def LiveInv (p : Page) : Prop :=
  TimerInv p.sync ∧ p.liveIntervals = p.sync.intervalId.toList

/-- The events that do not ask for the timer to be armed: all but the return of
visibility, `focus`, and calls of `resumeSync`, `enable` and `startPolling`. -/
def quietEvent : Event → Bool
  | .visibilitychange hidden => hidden
  | .focus => false
  | .enable => false
  | .startPolling => false
  | .resumeSync => false
  | _ => true

/-- The page is paused with no interval live and no suspended check that would
call `startPolling` on completion. -/
def PausedQuiet (p : Page) : Prop :=
  p.sync.isActive = false ∧ p.liveIntervals = []
    ∧ ∀ c ∈ p.inflight, c.thenStartPolling = false

/-- The list with its first element, if there is one, showing `value` and
highlighted: what lines 221-224 do to the element `querySelector` returns. -/
def patchHead (value : String) : List StatElement → List StatElement
  | [] => []
  | e :: rest => { e with textContent := value, animation := "highlight 1s ease-in-out" } :: rest

/-- The stat elements bound to `key`: those whose `data-stat` attribute is
`key`, in document order. -/
def boundTo (key : String) (els : List StatElement) : List StatElement :=
  els.filter (fun e => e.key == key)

/-- An admin's dashboard showing two statistics. -/
def dashboardBrowser : Browser :=
  { freshBrowser "/admin/dashboard/" with
    statElements := [{ key := "totalStudents", textContent := "41", animation := "" },
                     { key := "totalTeachers", textContent := "7", animation := "" }] }

/-! ## SafeDOM.sanitizeText (`static/js/safe_dom_utils.js`) -/

/-- The double quote character. -/
def doubleQuote : Char := Char.ofNat 34

/-- The apostrophe character. -/
def apostrophe : Char := Char.ofNat 39

/-- The replacement callback of `sanitizeText` (lines 228-236), applied to every
character: the five characters the pattern matches give their entity, any other
character is left as it is. -/
def escapeChar (c : Char) : List Char :=
  if c = '<' then ['&', 'l', 't', ';']
  else if c = '>' then ['&', 'g', 't', ';']
  else if c = '&' then ['&', 'a', 'm', 'p', ';']
  else if c = doubleQuote then ['&', 'q', 'u', 'o', 't', ';']
  else if c = apostrophe then ['&', '#', 'x', '2', '7', ';']
  else [c]

/-- `text.replace(pattern, callback)` with the global pattern of line 227: every
character is replaced by what the callback gives for it. -/
def replaceAll : List Char → List Char
  | [] => []
  | c :: cs => escapeChar c ++ replaceAll cs

/-- `SafeDOM.sanitizeText(text)` (lines 226-238); `none` is `null` or
`undefined`. -/
def sanitizeText (text : Option String) : String :=
  match text with
  | none => ""
  | some s => if s = "" then "" else String.mk (replaceAll s.data)

/-- One of the five characters `sanitizeText` escapes. -/
def isEscaped (c : Char) : Bool :=
  c == '<' || c == '>' || c == '&' || c == doubleQuote || c == apostrophe

/-- The five entities without their leading '&'. -/
def entityTails : List (List Char) :=
  [['l', 't', ';'], ['g', 't', ';'], ['a', 'm', 'p', ';'], ['q', 'u', 'o', 't', ';'],
   ['#', 'x', '2', '7', ';']]

/-- The rest of `l` after the prefix `pre`, `none` when `l` does not start with
`pre`. -/
def dropPrefix? : List Char → List Char → Option (List Char)
  | [], l => some l
  | _ :: _, [] => none
  | p :: ps, c :: cs => if p = c then dropPrefix? ps cs else none

/-- What follows an '&': the character of the entity that starts here and the
text after it, `none` when none of the five entities starts here. -/
def matchEntity (rest : List Char) : Option (Char × List Char) :=
  match dropPrefix? ['l', 't', ';'] rest with
  | some r => some ('<', r)
  | none =>
    match dropPrefix? ['g', 't', ';'] rest with
    | some r => some ('>', r)
    | none =>
      match dropPrefix? ['a', 'm', 'p', ';'] rest with
      | some r => some ('&', r)
      | none =>
        match dropPrefix? ['q', 'u', 'o', 't', ';'] rest with
        | some r => some (doubleQuote, r)
        | none =>
          match dropPrefix? ['#', 'x', '2', '7', ';'] rest with
          | some r => some (apostrophe, r)
          | none => none

/-- Decoding with `fuel` steps: each step consumes one character or one
entity. -/
def decodeFuel : Nat → List Char → List Char
  | 0, _ => []
  | _ + 1, [] => []
  | n + 1, c :: rest =>
    if c = '&' then
      match matchEntity rest with
      | some dr => dr.1 :: decodeFuel n dr.2
      | none => c :: decodeFuel n rest
    else c :: decodeFuel n rest

/-- Decoding of the five entities `&lt;`, `&gt;`, `&amp;`, `&quot;`, `&#x27;`,
read from left to right; any other character is kept. One step per character
of the text is always enough. -/
def decodeEntities (l : List Char) : List Char := decodeFuel l.length l

/-! ## TimetableUtils.initializeTableSearch (`static/js/utils.js`) -/

/-- `text.toLowerCase()`, on the letters A-Z. -/
def toLowerCase (s : String) : String := String.mk (s.data.map Char.toLower)

/-- `needle` is a prefix of `hay`. -/
def startsWithChars : List Char → List Char → Bool
  | _, [] => true
  | [], _ :: _ => false
  | h :: hs, n :: ns => h == n && startsWithChars hs ns

/-- `needle` occurs in `hay`. -/
def includesChars : List Char → List Char → Bool
  | [], needle => needle.isEmpty
  | h :: hs, needle => startsWithChars (h :: hs) needle || includesChars hs needle

/-- `text.includes(term)`. -/
def includes (text term : String) : Bool := includesChars text.data term.data

/-- A row of the table body: its text, whether its `style.display` is 'none',
and whether it carries the class `no-results-row`. -/
structure TableRow where
  textContent : String
  hidden : Bool
  noResults : Bool
deriving DecidableEq, Repr

/-- The search callback installed by `initializeTableSearch` (lines 331-356), run
with `query` on a table whose body has the rows `rows`; the result is the rows
of the body afterwards. -/
def tableSearch (rows : List TableRow) (query : String) : List TableRow :=
  let searchTerm := toLowerCase query
  let rows1 := rows.map
    (fun row => { row with hidden := !(includes (toLowerCase row.textContent) searchTerm) })
  let visibleRows := rows1.filter (fun row => !row.hidden)
  if visibleRows.length = 0 ∧ searchTerm ≠ "" then
    if rows1.any (fun row => row.noResults) then
      updateFirst (fun row => row.noResults) (fun row => { row with hidden := false }) rows1
    else
      rows1 ++ [{ textContent := "No results found", hidden := false, noResults := true }]
  else
    updateFirst (fun row => row.noResults) (fun row => { row with hidden := true }) rows1

/-- The 'No results found' row is in the table and shown. -/
def noResultsVisible (rows : List TableRow) : Bool :=
  rows.any (fun row => row.noResults && !row.hidden)

/-- Some data row of the table matches the query: its lower-cased text contains
the lower-cased query. -/
def someDataRowMatches (rows : List TableRow) (query : String) : Bool :=
  rows.any (fun row => !row.noResults && includes (toLowerCase row.textContent) (toLowerCase query))

/-! ## renderSuggestionGrid (`static/js/admin_handlers.js`) -/

/-- A slot of the suggested grid. `teacher_name` is the empty string when the
field is absent or empty (both are falsy on line 1056). -/
structure Slot where
  period_number : Nat
  subject_code : String
  subject_name : String
  teacher_name : String
deriving DecidableEq, Repr

/-- A cell of the rendered table: '-' or the markup of a slot. -/
inductive GridCell where
  | dash
  | slot (s : Slot)
deriving DecidableEq, Repr

/-- The label of a body row, the value of `dayMap[day] || day` (line 1058):
a text, or the value of the property `property` that the object literal
`dayMap` inherits from `Object.prototype` (a function, for `__proto__` the
prototype object itself), which the template literal converts to a string. -/
inductive DayLabel where
  | text (s : String)
  | inherited (property : String)
deriving DecidableEq, Repr

/-- A row of the rendered table body: the day label and the period cells. -/
structure GridRow where
  label : DayLabel
  cells : List GridCell
deriving DecidableEq, Repr

/-- What `renderSuggestionGrid` renders: the alert, or the table with the
period numbers of its header and its body rows. -/
inductive Rendered where
  | alert
  | table (header : List Nat) (rows : List GridRow)
deriving DecidableEq, Repr

/-- `periods.add(n)` on a `Set` kept in insertion order. -/
def addPeriod (periods : List Nat) (n : Nat) : List Nat :=
  if periods.contains n then periods else periods ++ [n]

/-- The set `periods` after line 1047; `grid` is the list of the entries (day
key, slots) of the object. -/
def collectPeriods (grid : List (String × List Slot)) : List Nat :=
  grid.foldl (fun acc day => day.2.foldl (fun acc2 r => addPeriod acc2 r.period_number) acc) []

/-- `sortedPeriods` (line 1048): the period numbers in ascending order. -/
def sortedPeriods (grid : List (String × List Slot)) : List Nat :=
  (collectPeriods grid).insertionSort (fun a b => a ≤ b)

/-- The UTF-16 code units of a character: the code point itself below
U+10000, and the pair of a high and a low surrogate from U+10000 on. -/
def utf16Units (c : Char) : List Nat :=
  if c.toNat < 65536 then [c.toNat]
  else [55296 + (c.toNat - 65536) / 1024, 56320 + (c.toNat - 65536) % 1024]

/-- The sequence of UTF-16 code units a JavaScript string consists of. -/
def toUTF16 (s : String) : List Nat := s.data.flatMap utf16Units

/-- `Object.keys(grid).sort()` (line 1050): without a comparator `sort` orders
strings by their sequences of UTF-16 code units, a proper prefix first. -/
def sortedDays (grid : List (String × List Slot)) : List String :=
  (grid.map (fun day => day.1)).insertionSort (fun a b => toUTF16 a ≤ toUTF16 b)

/-- `grid[day]`. -/
def gridSlots (grid : List (String × List Slot)) (day : String) : List Slot :=
  match grid.find? (fun d => d.1 == day) with
  | some d => d.2
  | none => []

/-- `rowMap[p]` after line 1053: the last slot of the row with period number
`p`. -/
def rowMapLookup (rowSlots : List Slot) (p : Nat) : Option Slot :=
  rowSlots.reverse.find? (fun s => s.period_number == p)

/-- The names of the properties of `Object.prototype`, which every object
literal inherits. The value of each is truthy: a function, and for `__proto__`
the prototype object. -/
def objectPrototypeProperties : List String :=
  ["constructor", "__defineGetter__", "__defineSetter__", "hasOwnProperty",
   "__lookupGetter__", "__lookupSetter__", "isPrototypeOf", "propertyIsEnumerable",
   "toString", "valueOf", "__proto__", "toLocaleString"]

/-- The table `dayMap` (line 1045), with the fallback `dayMap[day] || day` (line
1058). `dayMap[day]` is the own property for the keys '1' to '5', the inherited
property for a name of `Object.prototype`, and `undefined` otherwise. -/
def dayLabel (day : String) : DayLabel :=
  if day = "1" then DayLabel.text "Monday"
  else if day = "2" then DayLabel.text "Tuesday"
  else if day = "3" then DayLabel.text "Wednesday"
  else if day = "4" then DayLabel.text "Thursday"
  else if day = "5" then DayLabel.text "Friday"
  else if objectPrototypeProperties.contains day then DayLabel.inherited day
  else DayLabel.text day

/-- The cell of period `p` in a row with the slots `rowSlots` (lines 1055-1056). -/
def gridCell (rowSlots : List Slot) (p : Nat) : GridCell :=
  match rowMapLookup rowSlots p with
  | some s => GridCell.slot s
  | none => GridCell.dash

/-- The body rows (lines 1050-1059). -/
def gridRows (grid : List (String × List Slot)) : List GridRow :=
  (sortedDays grid).map
    (fun day => { label := dayLabel day,
                  cells := (sortedPeriods grid).map (gridCell (gridSlots grid day)) })

/-- `renderSuggestionGrid(grid)` (lines 1041-1062); `none` is `null` or
`undefined`. -/
def renderSuggestionGrid (grid : Option (List (String × List Slot))) : Rendered :=
  match grid with
  | none => Rendered.alert
  | some g =>
    if g.length = 0 then Rendered.alert
    else Rendered.table (sortedPeriods g) (gridRows g)

/-- The markup of a cell (line 1056). -/
def GridCell.html : GridCell → String
  | GridCell.dash => "<td class=\"text-center\">-</td>"
  | GridCell.slot s =>
    "<td class=\"text-center\"><strong>" ++ s.subject_code ++ "</strong><br><small>"
      ++ s.subject_name
      ++ (if s.teacher_name ≠ "" then "<br><em class='text-muted'>" ++ s.teacher_name ++ "</em>"
          else "")
      ++ "</small></td>"

/-- The text of a day label; `inheritedText` is the string the engine converts
an inherited property of `Object.prototype` to, which the language leaves to
the implementation. -/
def DayLabel.html (inheritedText : String → String) : DayLabel → String
  | DayLabel.text s => s
  | DayLabel.inherited property => inheritedText property

/-- The string `renderSuggestionGrid` returns (lines 1043, 1049-1060). -/
def Rendered.html (inheritedText : String → String) : Rendered → String
  | Rendered.alert => "<div class=\"alert alert-secondary\">No suggested grid available.</div>"
  | Rendered.table header rows =>
    "<div class=\"table-responsive\"><table class=\"table table-sm table-bordered\">"
      ++ "<thead><tr><th>Day</th>"
      ++ String.join (header.map (fun p => "<th>Period " ++ toString p ++ "</th>"))
      ++ "</tr></thead><tbody>"
      ++ String.join (rows.map (fun row =>
          "<tr><td><strong>" ++ row.label.html inheritedText ++ "</strong></td>"
            ++ String.join (row.cells.map GridCell.html) ++ "</tr>"))
      ++ "</tbody></table></div>"

/-- A grid with five day keys, given in the order '2', '1', U+FF5E, U+1F600,
'constructor'. In UTF-16 the key U+1F600 is the surrogate pair D83D DE00, which
sorts before FF5E. -/
def sampleGrid : List (String × List Slot) :=
  [("2", [{ period_number := 3, subject_code := "PH", subject_name := "Physics",
            teacher_name := "" }]),
   ("1", [{ period_number := 2, subject_code := "MA", subject_name := "Maths",
            teacher_name := "Rao" },
          { period_number := 1, subject_code := "EN", subject_name := "English",
            teacher_name := "" }]),
   ("～", []),
   ("😀", [{ period_number := 2, subject_code := "CH", subject_name := "Chemistry",
            teacher_name := "" }]),
   ("constructor", [])]

/-- `segments.join(sep)`: the segments with `sep` between them. -/
def joinSegments (sep : Char) : List String → List Char
  | [] => []
  | [s] => s.data
  | s :: t :: rest => s.data ++ sep :: joinSegments sep (t :: rest)

/-- The page of the constructor before `initializeSync` runs (lines 8-13). -/
def unconstructed (b : Browser) : Page :=
  { toBrowser := b,
    sync := { isActive := false, pollInterval := 10000, intervalId := none,
              lastUpdateCheck := none, currentUser := none, currentPage := none } }

/-- The notification shows a Refresh button: the template of line 327 emits the
button exactly when an action callback was passed. -/
def hasRefreshButton (n : UpdateNotification) : Bool := n.action.isSome

/-! ## Frame lemmas: what each method leaves alone -/

@[simp] theorem setTimeout_sync (p : Page) (d : Nat) (t : TimeoutTask) :
    (setTimeout p d t).sync = p.sync := rfl

@[simp] theorem setTimeout_liveIntervals (p : Page) (d : Nat) (t : TimeoutTask) :
    (setTimeout p d t).liveIntervals = p.liveIntervals := rfl

@[simp] theorem showSyncIndicator_sync (p : Page) (status : String) :
    (showSyncIndicator p status).sync = p.sync := by
  unfold showSyncIndicator
  split <;> simp

@[simp] theorem showSyncIndicator_liveIntervals (p : Page) (status : String) :
    (showSyncIndicator p status).liveIntervals = p.liveIntervals := by
  unfold showSyncIndicator
  split <;> simp

@[simp] theorem showSyncIndicator_handlerCalls (p : Page) (status : String) :
    (showSyncIndicator p status).handlerCalls = p.handlerCalls := by
  unfold showSyncIndicator setTimeout
  split <;> simp

@[simp] theorem showSyncIndicator_notifications (p : Page) (status : String) :
    (showSyncIndicator p status).notifications = p.notifications := by
  unfold showSyncIndicator setTimeout
  split <;> simp

@[simp] theorem showSyncIndicator_requests (p : Page) (status : String) :
    (showSyncIndicator p status).requests = p.requests := by
  unfold showSyncIndicator setTimeout
  split <;> simp

@[simp] theorem showSyncIndicator_indicator (p : Page) (status : String) :
    (showSyncIndicator p status).indicator = some (indicatorAfter p.indicator status) := by
  unfold showSyncIndicator setTimeout
  split <;> simp

@[simp] theorem showSyncIndicator_indicatorCalls (p : Page) (status : String) :
    (showSyncIndicator p status).indicatorCalls = p.indicatorCalls ++ [status] := by
  unfold showSyncIndicator setTimeout
  split <;> simp

theorem showsStatus_showSyncIndicator_error (p : Page) :
    showsStatus (showSyncIndicator p "error") "error" = true := by
  simp [showsStatus, indicatorAfter, statusConfig]

theorem showsStatus_showSyncIndicator_active (p : Page) :
    showsStatus (showSyncIndicator p "active") "active" = true := by
  simp [showsStatus, indicatorAfter, statusConfig]

@[simp] theorem showUpdateNotification_sync (p : Page) (t m : String) (a : Option ActionCallback) :
    (showUpdateNotification p t m a).sync = p.sync := by
  unfold showUpdateNotification
  split <;> simp

@[simp] theorem showUpdateNotification_now (p : Page) (t m : String) (a : Option ActionCallback) :
    (showUpdateNotification p t m a).now = p.now := by
  unfold showUpdateNotification setTimeout
  split <;> simp

@[simp] theorem showUpdateNotification_handlerCalls (p : Page) (t m : String)
    (a : Option ActionCallback) :
    (showUpdateNotification p t m a).handlerCalls = p.handlerCalls := by
  unfold showUpdateNotification setTimeout
  split <;> simp

@[simp] theorem showUpdateNotification_liveIntervals (p : Page) (t m : String)
    (a : Option ActionCallback) :
    (showUpdateNotification p t m a).liveIntervals = p.liveIntervals := by
  unfold showUpdateNotification setTimeout
  split <;> simp

@[simp] theorem showUpdateNotification_reloads (p : Page) (t m : String)
    (a : Option ActionCallback) :
    (showUpdateNotification p t m a).reloads = p.reloads := by
  unfold showUpdateNotification setTimeout
  split <;> simp

@[simp] theorem enterHandler_sync (p : Page) (n : String) : (enterHandler p n).sync = p.sync := rfl

@[simp] theorem enterHandler_now (p : Page) (n : String) : (enterHandler p n).now = p.now := rfl

@[simp] theorem enterHandler_handlerCalls (p : Page) (n : String) :
    (enterHandler p n).handlerCalls = p.handlerCalls ++ [n] := rfl

theorem patchStat_frame (p : Page) (k v : String) :
    (patchStat p k v).sync = p.sync ∧ (patchStat p k v).now = p.now
      ∧ (patchStat p k v).handlerCalls = p.handlerCalls := by
  unfold patchStat setTimeout
  split <;> simp

/-- An observation of the page that `patchStat` does not change is the same in
the state `updateStat` ends in, thrown or not. -/
theorem updateStat_invariant {α : Type} (f : Page → α)
    (h3 : ∀ p k v, f (patchStat p k v) = f p) (p : Page) (k v : String) :
    f (resultPage (updateStat p k v)) = f p := by
  unfold updateStat
  cases statSelector k with
  | attr bound => exact h3 p bound v
  | malformed => rfl
  | foreign => rfl

theorem forEachStat_invariant {α : Type} (f : Page → α)
    (h3 : ∀ p k v, f (patchStat p k v) = f p) (kvs : List (String × String)) (p : Page) :
    f (resultPage (forEachStat p kvs)) = f p := by
  induction kvs generalizing p with
  | nil => rfl
  | cons kv rest ih =>
    have h := updateStat_invariant f h3 p kv.1 kv.2
    unfold forEachStat
    cases hres : updateStat p kv.1 kv.2 with
    | error e =>
      rw [hres] at h
      exact h
    | ok q =>
      rw [hres] at h
      simp only
      rw [ih q]
      exact h

theorem updateDashboardStats_invariant {α : Type} (f : Page → α)
    (h3 : ∀ p k v, f (patchStat p k v) = f p) (p : Page)
    (stats : Option (List (String × String))) :
    f (resultPage (updateDashboardStats p stats)) = f p := by
  cases stats with
  | none => rfl
  | some kvs => exact forEachStat_invariant f h3 kvs p

theorem updateDashboardStats_frame (p : Page) (stats : Option (List (String × String))) :
    (resultPage (updateDashboardStats p stats)).sync = p.sync
      ∧ (resultPage (updateDashboardStats p stats)).now = p.now
      ∧ (resultPage (updateDashboardStats p stats)).handlerCalls = p.handlerCalls :=
  ⟨updateDashboardStats_invariant (fun q : Page => q.sync)
      (fun q k v => (patchStat_frame q k v).1) p stats,
   updateDashboardStats_invariant (fun q : Page => q.now)
      (fun q k v => (patchStat_frame q k v).2.1) p stats,
   updateDashboardStats_invariant (fun q : Page => q.handlerCalls)
      (fun q k v => (patchStat_frame q k v).2.2) p stats⟩

theorem handleDashboardUpdates_frame (p : Page) (u : UpdatePayload) :
    (resultPage (handleDashboardUpdates p u)).sync = p.sync
      ∧ (resultPage (handleDashboardUpdates p u)).now = p.now
      ∧ (resultPage (handleDashboardUpdates p u)).handlerCalls
          = p.handlerCalls ++ ["handleDashboardUpdates"] := by
  unfold handleDashboardUpdates
  by_cases hs : u.stats_changed = true
  · have h := updateDashboardStats_frame (enterHandler p "handleDashboardUpdates") u.stats
    simp only [hs, if_true]
    cases hres : updateDashboardStats (enterHandler p "handleDashboardUpdates") u.stats with
    | error e => simpa [hres, resultPage] using h
    | ok q =>
      rw [hres] at h
      by_cases ha : u.announcements_changed = true <;>
        simpa [ha, resultPage, refreshAnnouncementsList] using h
  · by_cases ha : u.announcements_changed = true <;>
      simp [hs, ha, resultPage, refreshAnnouncementsList]

theorem processUpdates_frame (p : Page) (u : UpdatePayload) :
    (resultPage (processUpdates p u)).sync = p.sync
      ∧ (resultPage (processUpdates p u)).now = p.now := by
  unfold processUpdates
  have hd := handleDashboardUpdates_frame p u
  split
  · simp [resultPage]
  split
  · simp [resultPage, handleTimetableUpdates]; split <;> simp
  split
  · simp [resultPage, handleTeacherUpdates]; split <;> simp
  split
  · simp [resultPage, handleStudentUpdates]; split <;> simp
  split
  · exact ⟨hd.1, hd.2.1⟩
  split
  · simp [resultPage, handleAnnouncementUpdates]; split <;> simp
  · simp [resultPage]

@[simp] theorem checkForUpdates_sync (p : Page) : (checkForUpdates p).1.sync = p.sync := by
  unfold checkForUpdates
  split <;> rfl

@[simp] theorem checkForUpdates_liveIntervals (p : Page) :
    (checkForUpdates p).1.liveIntervals = p.liveIntervals := by
  unfold checkForUpdates
  split <;> rfl

theorem checkForUpdatesSettled_ok (p : Page) (r : FetchResult) :
    ∃ q, checkForUpdatesSettled p r = .ok q := by
  unfold checkForUpdatesSettled
  cases checkForUpdatesTry p r <;> simp

theorem checkForUpdatesTry_timer (p : Page) (r : FetchResult) :
    (resultPage (checkForUpdatesTry p r)).sync.isActive = p.sync.isActive
      ∧ (resultPage (checkForUpdatesTry p r)).sync.intervalId = p.sync.intervalId := by
  have hp := processUpdates_frame p
  cases r with
  | rejected => simp [checkForUpdatesTry, resultPage]
  | response status body =>
    unfold checkForUpdatesTry
    by_cases hok : responseOk status = true
    · cases body with
      | none => simp [hok, resultPage]
      | some data =>
        have h := (hp data).1
        cases hres : processUpdates p data with
        | error e =>
          rw [hres] at h
          simp only [resultPage] at h
          simp [hok, hres, resultPage, h]
        | ok q =>
          rw [hres] at h
          simp only [resultPage] at h
          simp [hok, hres, resultPage, h]
    · simp [hok, resultPage]

theorem checkForUpdatesSettled_timer (p : Page) (r : FetchResult) :
    (resultPage (checkForUpdatesSettled p r)).sync.isActive = p.sync.isActive
      ∧ (resultPage (checkForUpdatesSettled p r)).sync.intervalId = p.sync.intervalId := by
  have h := checkForUpdatesTry_timer p r
  unfold checkForUpdatesSettled
  cases hres : checkForUpdatesTry p r with
  | error e =>
    rw [hres] at h
    simpa [resultPage] using h
  | ok q =>
    rw [hres] at h
    simpa [resultPage] using h

theorem startPolling_timerInv (p : Page) (h : TimerInv p.sync) : TimerInv (startPolling p).sync := by
  unfold startPolling
  split
  · exact h
  · simp [TimerInv, setInterval]

theorem pauseSync_timerInv (p : Page) (h : TimerInv p.sync) : TimerInv (pauseSync p).sync := by
  unfold pauseSync
  by_cases ha : p.sync.isActive = true
  · cases hid : p.sync.intervalId with
    | none => exact absurd hid (h.1.mp ha)
    | some id =>
      have hne : id ≠ 0 := fun h0 => h.2 (by rw [hid, h0])
      simp [ha, hid, hne, TimerInv, clearInterval]
  · simpa [ha] using h

theorem timerInv_of_eq {s t : RealtimeSync} (ha : t.isActive = s.isActive)
    (hi : t.intervalId = s.intervalId) (h : TimerInv s) : TimerInv t := by
  unfold TimerInv at *
  rw [ha, hi]
  exact h

theorem chainStartPolling_sync (p : Page) (id : Nat) : (chainStartPolling p id).sync = p.sync := rfl

theorem resumeSync_timerInv (p : Page) (h : TimerInv p.sync) : TimerInv (resumeSync p).sync := by
  unfold resumeSync
  split
  · exact h
  · split
    · exact startPolling_timerInv _ (by simpa using h)
    · simpa [chainStartPolling_sync] using h

theorem settleCheck_timerInv (p : Page) (id : Nat) (r : FetchResult) (h : TimerInv p.sync) :
    TimerInv (settleCheck p id r).sync := by
  unfold settleCheck
  split
  · exact h
  · rename_i c _
    have ht := checkForUpdatesSettled_timer
      { p with inflight := p.inflight.filter (fun d => !(d.id == id)) } r
    obtain ⟨q, hq⟩ := checkForUpdatesSettled_ok
      { p with inflight := p.inflight.filter (fun d => !(d.id == id)) } r
    rw [hq] at ht
    simp only [resultPage] at ht
    have hqi : TimerInv q.sync := timerInv_of_eq ht.1 ht.2 h
    simp only [hq]
    split
    · exact startPolling_timerInv q hqi
    · exact hqi

theorem updateAnnouncementsList_sync (p : Page) (a : Option (List Announcement)) :
    (resultPage (updateAnnouncementsList p a)).sync = p.sync := by
  unfold updateAnnouncementsList
  cases p.announcementsList with
  | none => simp [resultPage]
  | some old =>
    cases a with
    | none => simp [resultPage]
    | some as => simp [resultPage]

theorem refreshAnnouncementsListSettled_sync (p : Page) (r : AnnouncementsResult) :
    (refreshAnnouncementsListSettled p r).sync = p.sync := by
  cases r with
  | rejected => rfl
  | response status body =>
    unfold refreshAnnouncementsListSettled
    cases body with
    | none => simp
    | some a =>
      have h := updateAnnouncementsList_sync p a
      simp only
      split
      · cases hres : updateAnnouncementsList p a with
        | error e =>
          rw [hres] at h
          exact h
        | ok q =>
          rw [hres] at h
          exact h
      · rfl

theorem settleAnnouncements_sync (p : Page) (id : Nat) (r : AnnouncementsResult) :
    (settleAnnouncements p id r).sync = p.sync := by
  unfold settleAnnouncements
  split
  · rw [refreshAnnouncementsListSettled_sync]
  · rfl

theorem removeNotification_sync (p : Page) (id : Nat) : (removeNotification p id).sync = p.sync :=
  rfl

theorem dismissClick_sync (p : Page) (id : Nat) : (dismissClick p id).sync = p.sync := rfl

theorem refreshClick_sync (p : Page) (id : Nat) : (refreshClick p id).sync = p.sync := by
  unfold refreshClick
  split
  · rfl
  · split <;> rfl

theorem fireTimeout_sync (p : Page) (i : Nat) : (fireTimeout p i).sync = p.sync := by
  unfold fireTimeout
  split
  · rfl
  · simp only
    split <;> rfl

theorem checkDbHealthSettled_sync (p : Page) (r : HealthResult) :
    (checkDbHealthSettled p r).1.sync = p.sync := by
  cases r with
  | rejected => simp [checkDbHealthSettled]
  | response status body =>
    unfold checkDbHealthSettled
    simp only
    split
    · simp
    · cases body with
      | none => simp
      | some ready => cases ready <;> simp

theorem settleHealth_sync (p : Page) (id : Nat) (r : HealthResult) :
    (settleHealth p id r).sync = p.sync := by
  unfold settleHealth pollDbSettled
  split
  · split
    · rw [checkDbHealthSettled_sync]
    · rw [setTimeout_sync, checkDbHealthSettled_sync]
  · rfl

theorem intervalFires_sync (p : Page) (id : Nat) : (intervalFires p id).sync = p.sync := by
  unfold intervalFires
  split
  · simp
  · rfl

theorem enable_timerInv (p : Page) (h : TimerInv p.sync) : TimerInv (enable p).sync := by
  unfold enable
  simp only
  split
  · exact startPolling_timerInv _ h
  · exact h

theorem disable_timerInv (p : Page) (h : TimerInv p.sync) : TimerInv (disable p).sync :=
  pauseSync_timerInv p h

theorem step_timerInv (p : Page) (e : Event) (h : TimerInv p.sync) : TimerInv (step p e).sync := by
  cases e with
  | visibilitychange hidden =>
    cases hidden
    · exact resumeSync_timerInv p h
    · exact pauseSync_timerInv p h
  | focus => exact resumeSync_timerInv p h
  | blur => exact pauseSync_timerInv p h
  | enable => exact enable_timerInv p h
  | disable => exact disable_timerInv p h
  | forceUpdate => simpa [step, forceUpdate] using h
  | startPolling => exact startPolling_timerInv p h
  | pauseSync => exact pauseSync_timerInv p h
  | resumeSync => exact resumeSync_timerInv p h
  | checkForUpdates => simpa [step] using h
  | intervalFires id => simpa [step, intervalFires_sync] using h
  | checkSettles id r => exact settleCheck_timerInv p id r h
  | announcementsSettle id r => simpa [step, settleAnnouncements_sync] using h
  | dismissClick id => exact h
  | refreshClick id => simpa [step, refreshClick_sync] using h
  | timeoutFires i => simpa [step, fireTimeout_sync] using h
  | elapse ms => exact h
  | healthSettles id r => simpa [step, settleHealth_sync] using h

theorem run_timerInv (events : List Event) (p : Page) (h : TimerInv p.sync) :
    TimerInv (run p events).sync := by
  induction events generalizing p with
  | nil => exact h
  | cons e rest ih => exact ih (step p e) (step_timerInv p e h)

theorem construct_timerInv (b : Browser) : TimerInv (construct b).sync := by
  unfold construct initializeSync
  simp only
  split
  · exact startPolling_timerInv _ (by simp [TimerInv, detectCurrentContext])
  · simp [TimerInv, detectCurrentContext]

/-- C2: in every state reached from construction by any sequence of events
(calls of startPolling, pauseSync, resumeSync, checkForUpdates, enable, disable,
settlements of checks, timers, clicks), the timer handle `intervalId` is set if
and only if `isActive` is true. -/
theorem timer_handle_set_iff_active (b : Browser) (events : List Event) :
    (run (construct b) events).sync.intervalId ≠ none
      ↔ (run (construct b) events).sync.isActive = true :=
  (run_timerInv events (construct b) (construct_timerInv b)).1.symm

/-! ## Dispatch lemmas -/

theorem handleTimetableUpdates_handlerCalls (p : Page) (u : UpdatePayload) :
    (handleTimetableUpdates p u).handlerCalls = p.handlerCalls ++ ["handleTimetableUpdates"] := by
  unfold handleTimetableUpdates
  simp only
  split <;> simp

theorem handleTeacherUpdates_handlerCalls (p : Page) (u : UpdatePayload) :
    (handleTeacherUpdates p u).handlerCalls = p.handlerCalls ++ ["handleTeacherUpdates"] := by
  unfold handleTeacherUpdates
  simp only
  split <;> simp

theorem handleStudentUpdates_handlerCalls (p : Page) (u : UpdatePayload) :
    (handleStudentUpdates p u).handlerCalls = p.handlerCalls ++ ["handleStudentUpdates"] := by
  unfold handleStudentUpdates
  simp only
  split <;> simp

theorem handleAnnouncementUpdates_handlerCalls (p : Page) (u : UpdatePayload) :
    (handleAnnouncementUpdates p u).handlerCalls
      = p.handlerCalls ++ ["handleAnnouncementUpdates"] := by
  unfold handleAnnouncementUpdates
  simp only
  split <;> simp

theorem processUpdates_handlerCalls (p : Page) (u : UpdatePayload) :
    (resultPage (processUpdates p u)).handlerCalls
      = p.handlerCalls ++
          (if u.has_updates then (pageHandler p.sync.currentPage).toList else []) := by
  have hd := (handleDashboardUpdates_frame p u).2.2
  by_cases hu : u.has_updates = true
  · by_cases h1 : p.sync.currentPage = some "timetable"
    · simp [processUpdates, pageHandler, hu, h1, resultPage, handleTimetableUpdates_handlerCalls]
    by_cases h2 : p.sync.currentPage = some "teachers"
    · simp [processUpdates, pageHandler, hu, h2, resultPage, handleTeacherUpdates_handlerCalls]
    by_cases h3 : p.sync.currentPage = some "students"
    · simp [processUpdates, pageHandler, hu, h3, resultPage, handleStudentUpdates_handlerCalls]
    by_cases h4 : p.sync.currentPage = some "dashboard"
    · simp only [processUpdates, pageHandler, hu, h1, h2, h3, h4, Bool.not_true, if_true, if_false,
        Bool.false_eq_true, Option.toList_some]
      exact hd
    by_cases h5 : p.sync.currentPage = some "announcements"
    · simp [processUpdates, pageHandler, hu, h5, resultPage,
        handleAnnouncementUpdates_handlerCalls]
    · simp [processUpdates, pageHandler, hu, h1, h2, h3, h4, h5, resultPage]
  · simp [processUpdates, hu, resultPage]

theorem updateStat_ok_iff (p : Page) (k v : String) :
    (∃ q, updateStat p k v = .ok q) ↔ ∃ bound, statSelector k = StatSelector.attr bound := by
  unfold updateStat
  cases statSelector k <;> simp

theorem forEachStat_ok (kvs : List (String × String)) (h : keysSelect kvs = true) (p : Page) :
    ∃ q, forEachStat p kvs = .ok q := by
  induction kvs generalizing p with
  | nil => exact ⟨p, rfl⟩
  | cons kv rest ih =>
    simp only [keysSelect, List.all_cons, Bool.and_eq_true] at h
    have hrest : keysSelect rest = true := h.2
    unfold forEachStat updateStat
    cases hsel : statSelector kv.1 with
    | attr bound => exact ih hrest _
    | malformed => simp [hsel] at h
    | foreign => simp [hsel] at h

theorem forEachStat_error (kvs : List (String × String)) (h : keysSelect kvs = false)
    (p : Page) : ∃ e, forEachStat p kvs = .error e := by
  induction kvs generalizing p with
  | nil => simp [keysSelect] at h
  | cons kv rest ih =>
    unfold forEachStat updateStat
    cases hsel : statSelector kv.1 with
    | attr bound =>
      have hrest : keysSelect rest = false := by
        simpa [keysSelect, hsel] using h
      exact ih hrest _
    | malformed => exact ⟨_, rfl⟩
    | foreign => exact ⟨_, rfl⟩

theorem updateDashboardStats_ok (p : Page) (stats : Option (List (String × String)))
    (h : statsThrow stats = false) : ∃ q, updateDashboardStats p stats = .ok q := by
  cases stats with
  | none => simp [statsThrow] at h
  | some kvs =>
    have hk : keysSelect kvs = true := by simpa [statsThrow] using h
    exact forEachStat_ok kvs hk p

theorem updateDashboardStats_error (p : Page) (stats : Option (List (String × String)))
    (h : statsThrow stats = true) : ∃ e, updateDashboardStats p stats = .error e := by
  cases stats with
  | none => exact ⟨_, rfl⟩
  | some kvs =>
    have hk : keysSelect kvs = false := by simpa [statsThrow] using h
    exact forEachStat_error kvs hk p

theorem handleDashboardUpdates_ok (p : Page) (u : UpdatePayload)
    (h : (u.stats_changed && statsThrow u.stats) = false) :
    ∃ q, handleDashboardUpdates p u = .ok q := by
  unfold handleDashboardUpdates
  by_cases hs : u.stats_changed = true
  · have ht : statsThrow u.stats = false := by simpa [hs] using h
    obtain ⟨q, hq⟩ := updateDashboardStats_ok (enterHandler p "handleDashboardUpdates") u.stats ht
    simp only [hs, if_true, hq]
    split <;> simp
  · by_cases ha : u.announcements_changed = true <;> simp [hs, ha]

theorem handleDashboardUpdates_error (p : Page) (u : UpdatePayload)
    (hs : u.stats_changed = true) (ht : statsThrow u.stats = true) :
    ∃ e, handleDashboardUpdates p u = .error e := by
  obtain ⟨e, he⟩ :=
    updateDashboardStats_error (enterHandler p "handleDashboardUpdates") u.stats ht
  exact ⟨e, by simp [handleDashboardUpdates, hs, he]⟩

theorem processUpdates_ok (p : Page) (u : UpdatePayload) (h : dispatchThrows p u = false) :
    ∃ q, processUpdates p u = .ok q := by
  by_cases hu : u.has_updates = true
  · by_cases h1 : p.sync.currentPage = some "timetable"
    · exact ⟨handleTimetableUpdates p u, by simp [processUpdates, hu, h1]⟩
    by_cases h2 : p.sync.currentPage = some "teachers"
    · exact ⟨handleTeacherUpdates p u, by simp [processUpdates, hu, h2]⟩
    by_cases h3 : p.sync.currentPage = some "students"
    · exact ⟨handleStudentUpdates p u, by simp [processUpdates, hu, h3]⟩
    by_cases h4 : p.sync.currentPage = some "dashboard"
    · have hd : (u.stats_changed && statsThrow u.stats) = false := by
        simpa [dispatchThrows, hu, h4] using h
      obtain ⟨q, hq⟩ := handleDashboardUpdates_ok p u hd
      exact ⟨q, by simp [processUpdates, hu, h4, hq]⟩
    by_cases h5 : p.sync.currentPage = some "announcements"
    · exact ⟨handleAnnouncementUpdates p u, by simp [processUpdates, hu, h5]⟩
    · exact ⟨p, by simp [processUpdates, hu, h1, h2, h3, h4, h5]⟩
  · exact ⟨p, by simp [processUpdates, hu]⟩

theorem processUpdates_error (p : Page) (u : UpdatePayload) (h : dispatchThrows p u = true) :
    ∃ e, processUpdates p u = .error e := by
  simp only [dispatchThrows, Bool.and_eq_true, beq_iff_eq] at h
  obtain ⟨⟨⟨hu, hpage⟩, hs⟩, ht⟩ := h
  obtain ⟨e, he⟩ := handleDashboardUpdates_error p u hs ht
  exact ⟨e, by simp [processUpdates, hu, hpage, he]⟩

/-! ## checkForUpdates: the claims -/

theorem checkForUpdates_qualified (p : Page)
    (hrole : p.sync.currentUser = some "admin" ∨ p.sync.currentUser = some "teacher") :
    checkForUpdates p =
      ({ p with requests := p.requests ++
                  [{ url := if p.sync.currentUser = some "teacher" then "/api/teacher/updates/"
                            else "/api/admin/updates/",
                     method := "GET", csrfToken := getCSRFToken p,
                     contentType := some "application/json" }],
                inflight := p.inflight ++ [{ id := p.nextRequestId, thenStartPolling := false }],
                nextRequestId := p.nextRequestId + 1 },
       some p.nextRequestId) := by
  unfold checkForUpdates
  rcases hrole with h | h <;> simp [h]

/-- The page in which a call of `checkForUpdates` resumes when its request
settles before any other event. -/
theorem checkForUpdatesCall_qualified (p : Page)
    (hrole : p.sync.currentUser = some "admin" ∨ p.sync.currentUser = some "teacher") :
    ∃ p1 : Page, (∀ r, checkForUpdatesCall p r = checkForUpdatesSettled p1 r)
      ∧ p1.sync = p.sync ∧ p1.now = p.now ∧ p1.handlerCalls = p.handlerCalls
      ∧ p1.liveIntervals = p.liveIntervals ∧ p1.notifications = p.notifications
      ∧ p1.indicator = p.indicator ∧ p1.indicatorCalls = p.indicatorCalls
      ∧ p1.requests.length = p.requests.length + 1 := by
  unfold checkForUpdatesCall
  rw [checkForUpdates_qualified p hrole]
  exact ⟨_, fun _ => rfl, rfl, rfl, rfl, rfl, rfl, rfl, rfl, by simp⟩

theorem checkForUpdatesSettled_failure (p : Page) (r : FetchResult) (h : isFailure r = true) :
    checkForUpdatesSettled p r = .ok (showSyncIndicator p "error") := by
  cases r with
  | rejected => rfl
  | response status body =>
    unfold checkForUpdatesSettled checkForUpdatesTry
    by_cases hok : responseOk status = true
    · cases body with
      | none => simp [hok]
      | some data => simp [isFailure, hok] at h
    · simp [hok]

/-- C4: for an agent whose role is student or unknown (`currentUser` null),
`checkForUpdates()` returns at once without suspending, sends no request, and
leaves the whole page - agent fields and indicator included - as it was. -/
theorem checkForUpdates_student_unknown_noop (p : Page)
    (hrole : p.sync.currentUser = none ∨ p.sync.currentUser = some "student") :
    checkForUpdates p = (p, none)
      ∧ (checkForUpdates p).1.requests = p.requests
      ∧ (checkForUpdates p).1.sync = p.sync
      ∧ (checkForUpdates p).1.indicator = p.indicator
      ∧ checkForUpdatesCall p FetchResult.rejected = .ok p := by
  have h : checkForUpdates p = (p, none) := by
    unfold checkForUpdates
    rcases hrole with h | h <;> simp [h]
  refine ⟨h, ?_, ?_, ?_, ?_⟩
  · rw [h]
  · rw [h]
  · rw [h]
  · unfold checkForUpdatesCall
    rw [h]

/-- Witness of C4 on a freshly constructed student page. -/
theorem checkForUpdates_student_unknown_noop_witness :
    (construct (freshBrowser "/student/dashboard/")).sync.currentUser = some "student"
      ∧ checkForUpdates (construct (freshBrowser "/student/dashboard/"))
          = (construct (freshBrowser "/student/dashboard/"), none) :=
  ⟨by decide,
   (checkForUpdates_student_unknown_noop (construct (freshBrowser "/student/dashboard/"))
      (Or.inr (by decide))).1⟩

/-- C5: for an admin or teacher agent, when the update request returns a status
outside 200-299, the call of `checkForUpdates` ends with the indicator showing
'error', with every agent field (`lastUpdateCheck`, `isActive`, `intervalId`)
as before, with no handler entered, no notification raised, and the live
intervals untouched: an armed timer stays armed. -/
theorem checkForUpdates_non_success_status (p : Page) (status : Nat) (body : Option UpdatePayload)
    (hrole : p.sync.currentUser = some "admin" ∨ p.sync.currentUser = some "teacher")
    (hstatus : responseOk status = false) :
    ∃ q, checkForUpdatesCall p (FetchResult.response status body) = .ok q
      ∧ showsStatus q "error" = true
      ∧ q.sync.lastUpdateCheck = p.sync.lastUpdateCheck
      ∧ q.handlerCalls = p.handlerCalls
      ∧ q.notifications = p.notifications
      ∧ q.sync.isActive = p.sync.isActive
      ∧ q.sync.intervalId = p.sync.intervalId
      ∧ q.liveIntervals = p.liveIntervals := by
  obtain ⟨p1, hcall, hsync, _, hh, hl, hn, _, _, _⟩ :=
    checkForUpdatesCall_qualified p hrole
  have hf : isFailure (FetchResult.response status body) = true := by simp [isFailure, hstatus]
  refine ⟨showSyncIndicator p1 "error", ?_, showsStatus_showSyncIndicator_error p1, ?_, ?_, ?_,
    ?_, ?_, ?_⟩
  · rw [hcall, checkForUpdatesSettled_failure p1 _ hf]
  · simp [hsync]
  · simpa using hh
  · simpa using hn
  · simp [hsync]
  · simp [hsync]
  · simpa using hl

/-- Witness of C5: an active admin agent receiving status 500. -/
theorem checkForUpdates_non_success_status_witness :
    ∃ q, checkForUpdatesCall (construct (freshBrowser "/admin/timetable/"))
          (FetchResult.response 500 none) = .ok q
      ∧ showsStatus q "error" = true
      ∧ q.sync.lastUpdateCheck = (construct (freshBrowser "/admin/timetable/")).sync.lastUpdateCheck
      ∧ q.handlerCalls = (construct (freshBrowser "/admin/timetable/")).handlerCalls
      ∧ q.notifications = (construct (freshBrowser "/admin/timetable/")).notifications
      ∧ q.sync.isActive = (construct (freshBrowser "/admin/timetable/")).sync.isActive
      ∧ q.sync.intervalId = (construct (freshBrowser "/admin/timetable/")).sync.intervalId
      ∧ q.liveIntervals = (construct (freshBrowser "/admin/timetable/")).liveIntervals :=
  checkForUpdates_non_success_status (construct (freshBrowser "/admin/timetable/")) 500 none
    (Or.inl (by decide)) (by decide)

/-- C6: for an admin or teacher agent and any two failures of the update request
(the fetch rejects, the status is outside 200-299, or the body does not parse),
the call of `checkForUpdates` completes normally (its promise is fulfilled, not
rejected), ends in the same state for both, with the indicator showing 'error'
and `lastUpdateCheck` unchanged. -/
theorem checkForUpdates_failures_collapse (p : Page) (r r' : FetchResult)
    (hrole : p.sync.currentUser = some "admin" ∨ p.sync.currentUser = some "teacher")
    (hr : isFailure r = true) (hr' : isFailure r' = true) :
    ∃ q, checkForUpdatesCall p r = .ok q
      ∧ checkForUpdatesCall p r' = .ok q
      ∧ showsStatus q "error" = true
      ∧ q.sync.lastUpdateCheck = p.sync.lastUpdateCheck := by
  obtain ⟨p1, hcall, hsync, _⟩ := checkForUpdatesCall_qualified p hrole
  refine ⟨showSyncIndicator p1 "error", ?_, ?_, showsStatus_showSyncIndicator_error p1, ?_⟩
  · rw [hcall, checkForUpdatesSettled_failure p1 r hr]
  · rw [hcall, checkForUpdatesSettled_failure p1 r' hr']
  · simp [hsync]

/-- Witness of C6: a transport failure and a malformed body on a teacher page. -/
theorem checkForUpdates_failures_collapse_witness :
    ∃ q, checkForUpdatesCall (construct (freshBrowser "/teacher/dashboard/")) FetchResult.rejected
          = .ok q
      ∧ checkForUpdatesCall (construct (freshBrowser "/teacher/dashboard/"))
          (FetchResult.response 200 none) = .ok q
      ∧ showsStatus q "error" = true
      ∧ q.sync.lastUpdateCheck
          = (construct (freshBrowser "/teacher/dashboard/")).sync.lastUpdateCheck :=
  checkForUpdates_failures_collapse (construct (freshBrowser "/teacher/dashboard/"))
    FetchResult.rejected (FetchResult.response 200 none) (Or.inr (by decide)) (by decide)
    (by decide)

/-! ## Resuming: the claims -/

theorem startPolling_arms (p : Page) (h : p.sync.isActive = false) :
    (startPolling p).sync.isActive = true
      ∧ (startPolling p).sync.intervalId = some (p.nextTimerId + 1) := by
  unfold startPolling
  simp [h, setInterval]

theorem pauseSync_isActive (p : Page) : (pauseSync p).sync.isActive = false := by
  unfold pauseSync
  by_cases ha : p.sync.isActive = true
  · simp only [ha, Bool.not_true, Bool.false_eq_true, if_false, showSyncIndicator_sync]
    split
    · split <;> rfl
    · rfl
  · simp [ha]

theorem pauseSync_inflight (p : Page) : (pauseSync p).inflight = p.inflight := by
  unfold pauseSync
  by_cases ha : p.sync.isActive = true
  · simp only [ha, Bool.not_true, Bool.false_eq_true, if_false]
    unfold showSyncIndicator setTimeout clearInterval
    simp only [if_true, ne_eq, not_false_eq_true, reduceCtorEq, String.reduceEq]
    split
    · split <;> rfl
    · rfl
  · simp [ha]

theorem settleCheck_chained_arms (p : Page) (id : Nat) (r : FetchResult) (c : PendingCheck)
    (hp : p.sync.isActive = false)
    (hc : p.inflight.find? (fun d => d.id == id) = some c) (hthen : c.thenStartPolling = true) :
    (settleCheck p id r).sync.isActive = true ∧ (settleCheck p id r).sync.intervalId ≠ none := by
  unfold settleCheck
  rw [hc]
  have ht := checkForUpdatesSettled_timer
    { p with inflight := p.inflight.filter (fun d => !(d.id == id)) } r
  obtain ⟨q, hq⟩ := checkForUpdatesSettled_ok
    { p with inflight := p.inflight.filter (fun d => !(d.id == id)) } r
  rw [hq] at ht
  simp only [resultPage] at ht
  have hqa : q.sync.isActive = false := ht.1.trans hp
  have harm := startPolling_arms q hqa
  simp only [hq, hthen, if_true]
  exact ⟨harm.1, by rw [harm.2]; simp⟩

/-- C1 (the code at the failing input): on a student page, and on a page whose
path names no role, one `focus` event after construction arms the polling
timer: `resumeSync` calls `startPolling` without asking `shouldStartPolling`. -/
theorem student_focus_arms_timer :
    (construct (freshBrowser "/student/dashboard/")).sync.currentUser = some "student"
      ∧ (run (construct (freshBrowser "/student/dashboard/")) [Event.focus]).sync.isActive = true
      ∧ (run (construct (freshBrowser "/student/dashboard/")) [Event.focus]).sync.intervalId
          = some 1
      ∧ (run (construct (freshBrowser "/student/dashboard/")) [Event.focus]).liveIntervals = [1]
      ∧ (construct (freshBrowser "/")).sync.currentUser = none
      ∧ (run (construct (freshBrowser "/")) [Event.visibilitychange false]).sync.isActive = true
      ∧ (run (construct (freshBrowser "/")) [Event.visibilitychange false]).sync.intervalId
          = some 1 := by
  decide

/-- C3 (counterexample): an admin agent is paused, resumed (the immediate check
is in flight), paused again by `blur`, and then the check completes: the timer
is armed although the page is still blurred. -/
theorem completion_after_pause_arms_timer :
    ¬ ((run (construct (freshBrowser "/admin/dashboard/"))
          [Event.blur, Event.focus, Event.blur,
           Event.checkSettles 0 (FetchResult.response 200 none)]).sync.isActive = false
        ∧ (run (construct (freshBrowser "/admin/dashboard/"))
          [Event.blur, Event.focus, Event.blur,
           Event.checkSettles 0 (FetchResult.response 200 none)]).sync.intervalId = none) := by
  decide

/-- C3 (amended): when the immediate check chained by `resumeSync` is in flight
and the agent is paused (`pauseSync`) or disabled (`disable()`), the completion
of that check arms the timer all the same, whatever the result of the request:
afterwards `isActive` is true and `intervalId` is set. -/
theorem completion_of_immediate_check_arms_timer (p : Page) (id : Nat) (r : FetchResult)
    (c : PendingCheck) (hc : p.inflight.find? (fun d => d.id == id) = some c)
    (hthen : c.thenStartPolling = true) :
    ((settleCheck (pauseSync p) id r).sync.isActive = true
        ∧ (settleCheck (pauseSync p) id r).sync.intervalId ≠ none)
      ∧ ((settleCheck (disable p) id r).sync.isActive = true
        ∧ (settleCheck (disable p) id r).sync.intervalId ≠ none) := by
  constructor
  · exact settleCheck_chained_arms (pauseSync p) id r c (pauseSync_isActive p)
      (by rw [pauseSync_inflight]; exact hc) hthen
  · exact settleCheck_chained_arms (disable p) id r c (pauseSync_isActive p)
      (by
        show (pauseSync p).inflight.find? _ = some c
        rw [pauseSync_inflight]; exact hc) hthen

/-- Witness of C3 (amended): the admin page after `blur` and `focus`, whose
immediate check 0 is in flight. -/
theorem completion_of_immediate_check_arms_timer_witness :
    (run (construct (freshBrowser "/admin/dashboard/")) [Event.blur, Event.focus]).inflight.find?
        (fun d => d.id == 0) = some { id := 0, thenStartPolling := true }
      ∧ (settleCheck (pauseSync (run (construct (freshBrowser "/admin/dashboard/"))
          [Event.blur, Event.focus])) 0 FetchResult.rejected).sync.isActive = true
      ∧ (settleCheck (disable (run (construct (freshBrowser "/admin/dashboard/"))
          [Event.blur, Event.focus])) 0 FetchResult.rejected).sync.intervalId ≠ none :=
  ⟨by decide,
   (completion_of_immediate_check_arms_timer
      (run (construct (freshBrowser "/admin/dashboard/")) [Event.blur, Event.focus]) 0
      FetchResult.rejected { id := 0, thenStartPolling := true } (by decide) rfl).1.1,
   (completion_of_immediate_check_arms_timer
      (run (construct (freshBrowser "/admin/dashboard/")) [Event.blur, Event.focus]) 0
      FetchResult.rejected { id := 0, thenStartPolling := true } (by decide) rfl).2.2⟩

/-! ## Dispatch: the claims -/

theorem checkForUpdatesSettled_success (p : Page) (status : Nat) (data : UpdatePayload)
    (hstatus : responseOk status = true) (hno : dispatchThrows p data = false) :
    ∃ p1, processUpdates p data = .ok p1
      ∧ checkForUpdatesSettled p (FetchResult.response status (some data))
          = .ok (showSyncIndicator
              { p1 with sync := { p1.sync with lastUpdateCheck := some p1.now } } "active") := by
  obtain ⟨p1, hp1⟩ := processUpdates_ok p data hno
  refine ⟨p1, hp1, ?_⟩
  unfold checkForUpdatesSettled checkForUpdatesTry
  simp [hstatus, hp1]

theorem checkForUpdatesSettled_thrown (p : Page) (status : Nat) (data : UpdatePayload)
    (e : String × Page) (hstatus : responseOk status = true)
    (he : processUpdates p data = .error e) :
    checkForUpdatesSettled p (FetchResult.response status (some data))
      = .ok (showSyncIndicator e.2 "error") := by
  unfold checkForUpdatesSettled checkForUpdatesTry
  simp [hstatus, he]

theorem processUpdates_error_iff (p : Page) (u : UpdatePayload) :
    dispatchThrows p u = true ↔ ∃ e, processUpdates p u = .error e := by
  constructor
  · exact processUpdates_error p u
  · rintro ⟨e, he⟩
    cases hd : dispatchThrows p u with
    | true => rfl
    | false =>
      obtain ⟨q, hq⟩ := processUpdates_ok p u hd
      rw [hq] at he
      cases he

/-- C7 (counterexample): on the dashboard page of an admin, a successfully
parsed payload with `has_updates` and `stats_changed` set makes
`updateDashboardStats` throw inside the `try` block when it has no `stats`
object (`Object.keys(undefined)`, line 218) and when a key of `stats` holds a
double quote (the key `a"b` gives the selector text `[data-stat="a"b"]`, on
which `querySelector` throws, line 219): the call ends with the indicator
showing 'error' and `lastUpdateCheck` still null. -/
theorem parsed_payload_without_stats_ends_in_error :
    (resultPage (checkForUpdatesCall (construct (freshBrowser "/admin/dashboard/"))
        (FetchResult.response 200
          (some { has_updates := true, timetable_changed := false, teachers_changed := false,
                  students_changed := false, stats_changed := true,
                  announcements_changed := false, stats := none })))).sync.lastUpdateCheck = none
      ∧ showsStatus (resultPage (checkForUpdatesCall (construct (freshBrowser "/admin/dashboard/"))
        (FetchResult.response 200
          (some { has_updates := true, timetable_changed := false, teachers_changed := false,
                  students_changed := false, stats_changed := true,
                  announcements_changed := false, stats := none })))) "active" = false
      ∧ showsStatus (resultPage (checkForUpdatesCall (construct (freshBrowser "/admin/dashboard/"))
        (FetchResult.response 200
          (some { has_updates := true, timetable_changed := false, teachers_changed := false,
                  students_changed := false, stats_changed := true,
                  announcements_changed := false, stats := none })))) "error" = true
      ∧ (resultPage (checkForUpdatesCall (construct (freshBrowser "/admin/dashboard/"))
        (FetchResult.response 200
          (some { has_updates := true, timetable_changed := false, teachers_changed := false,
                  students_changed := false, stats_changed := true,
                  announcements_changed := false,
                  stats := some [("a\"b", "1")] })))).sync.lastUpdateCheck = none
      ∧ showsStatus (resultPage (checkForUpdatesCall (construct (freshBrowser "/admin/dashboard/"))
        (FetchResult.response 200
          (some { has_updates := true, timetable_changed := false, teachers_changed := false,
                  students_changed := false, stats_changed := true,
                  announcements_changed := false,
                  stats := some [("a\"b", "1")] })))) "error" = true := by
  decide

/-- C7 (amended): for an admin or teacher agent and every successfully parsed
payload, the call of `checkForUpdates` ends with its promise fulfilled, and the
dispatch throws exactly when `dispatchThrows` holds: on the dashboard page,
with `has_updates` and `stats_changed` set, when `stats` is absent or null or
one of its keys yields no attribute selector on line 219. When the dispatch does
not throw, `lastUpdateCheck` is set to the current time and the indicator to
'active'; with `has_updates` true and the page one of the five recognised pages
exactly one handler is entered, the one of the agent's page, and with
`has_updates` false no handler is entered. When the dispatch throws, the
exception is caught by the same `try`: the indicator is set to 'error',
`lastUpdateCheck` is left as it was, and the one handler entered is the
dashboard handler. The hypothesis `hmodel` confines the statement to the
payloads the model follows exactly, those without a key whose selector text is
`foreign`; the proof has no use for it. -/
theorem checkForUpdates_success_dispatch (p : Page) (status : Nat) (data : UpdatePayload)
    (hrole : p.sync.currentUser = some "admin" ∨ p.sync.currentUser = some "teacher")
    (hstatus : responseOk status = true) (hmodel : statsModelled data = true) :
    ∃ q, checkForUpdatesCall p (FetchResult.response status (some data)) = .ok q
      ∧ (dispatchThrows p data = true ↔ ∃ e, processUpdates p data = .error e)
      ∧ (dispatchThrows p data = false →
          q.sync.lastUpdateCheck = some p.now
            ∧ showsStatus q "active" = true
            ∧ (data.has_updates = true → ∀ h, pageHandler p.sync.currentPage = some h →
                q.handlerCalls = p.handlerCalls ++ [h])
            ∧ (data.has_updates = false → q.handlerCalls = p.handlerCalls))
      ∧ (dispatchThrows p data = true →
          q.sync.lastUpdateCheck = p.sync.lastUpdateCheck
            ∧ showsStatus q "error" = true
            ∧ showsStatus q "active" = false
            ∧ q.handlerCalls = p.handlerCalls ++ ["handleDashboardUpdates"]) := by
  have _ := hmodel
  obtain ⟨p0, hcall, hsync, hnow, hh, _⟩ := checkForUpdatesCall_qualified p hrole
  have hd0 : dispatchThrows p0 data = dispatchThrows p data := by
    simp [dispatchThrows, hsync]
  have hframe := processUpdates_frame p0 data
  have hcalls := processUpdates_handlerCalls p0 data
  cases hd : dispatchThrows p data with
  | false =>
    rw [hd] at hd0
    obtain ⟨p1, hp1, hset⟩ := checkForUpdatesSettled_success p0 status data hstatus hd0
    rw [hp1] at hframe hcalls
    simp only [resultPage] at hframe hcalls
    refine ⟨_, (hcall _).trans hset, ?_, ?_, ?_⟩
    · rw [← processUpdates_error_iff, hd]
    · intro _
      refine ⟨?_, showsStatus_showSyncIndicator_active _, ?_, ?_⟩
      · simp [hframe.2, hnow]
      · intro hu h hh'
        simp [hcalls, hu, hsync, hh', hh]
      · intro hu
        simp [hcalls, hu, hh]
    · intro h
      cases h
  | true =>
    rw [hd] at hd0
    obtain ⟨e, he⟩ := processUpdates_error p0 data hd0
    have hset := checkForUpdatesSettled_thrown p0 status data e hstatus he
    rw [he] at hframe hcalls
    simp only [resultPage] at hframe hcalls
    have hdash : data.has_updates = true ∧ p.sync.currentPage = some "dashboard" := by
      simp only [dispatchThrows, Bool.and_eq_true, beq_iff_eq] at hd
      exact ⟨hd.1.1.1, hd.1.1.2⟩
    refine ⟨_, (hcall _).trans hset, ?_, ?_, ?_⟩
    · rw [← processUpdates_error_iff, hd]
    · intro h
      cases h
    · intro _
      refine ⟨?_, showsStatus_showSyncIndicator_error _, ?_, ?_⟩
      · simp [hframe.1, hsync]
      · simp [showsStatus, indicatorAfter, statusConfig]
      · simp [hcalls, hdash.1, hsync, hdash.2, hh, pageHandler]

/-- Witness of C7 (amended): two payloads with `has_updates` and `stats_changed`
set on the dashboard page of an admin. With the key `totalStudents` the dispatch
does not throw: the check is recorded at the current time, the indicator shows
'active' and the dashboard handler was entered. With the key `a"b` it throws:
the indicator shows 'error' and no check is recorded. -/
theorem checkForUpdates_success_dispatch_witness :
    (∃ q, checkForUpdatesCall (construct (freshBrowser "/admin/dashboard/"))
          (FetchResult.response 200
            (some { has_updates := true, timetable_changed := false, teachers_changed := false,
                    students_changed := false, stats_changed := true,
                    announcements_changed := false,
                    stats := some [("totalStudents", "42")] })) = .ok q
      ∧ q.sync.lastUpdateCheck = some (construct (freshBrowser "/admin/dashboard/")).now
      ∧ showsStatus q "active" = true
      ∧ q.handlerCalls = (construct (freshBrowser "/admin/dashboard/")).handlerCalls
          ++ ["handleDashboardUpdates"])
    ∧ (∃ q, checkForUpdatesCall (construct (freshBrowser "/admin/dashboard/"))
          (FetchResult.response 200
            (some { has_updates := true, timetable_changed := false, teachers_changed := false,
                    students_changed := false, stats_changed := true,
                    announcements_changed := false,
                    stats := some [("a\"b", "1")] })) = .ok q
      ∧ q.sync.lastUpdateCheck = (construct (freshBrowser "/admin/dashboard/")).sync.lastUpdateCheck
      ∧ showsStatus q "error" = true) := by
  constructor
  · obtain ⟨q, h1, _, h3, _⟩ :=
      checkForUpdates_success_dispatch (construct (freshBrowser "/admin/dashboard/")) 200
        { has_updates := true, timetable_changed := false, teachers_changed := false,
          students_changed := false, stats_changed := true, announcements_changed := false,
          stats := some [("totalStudents", "42")] }
        (Or.inl (by decide)) (by decide) (by decide)
    obtain ⟨h5, h6, h7, _⟩ := h3 (by decide)
    exact ⟨q, h1, h5, h6, h7 rfl "handleDashboardUpdates" (by decide)⟩
  · obtain ⟨q, h1, _, _, h4⟩ :=
      checkForUpdates_success_dispatch (construct (freshBrowser "/admin/dashboard/")) 200
        { has_updates := true, timetable_changed := false, teachers_changed := false,
          students_changed := false, stats_changed := true, announcements_changed := false,
          stats := some [("a\"b", "1")] }
        (Or.inl (by decide)) (by decide) (by decide)
    obtain ⟨h5, h6, _⟩ := h4 (by decide)
    exact ⟨q, h1, h5, h6⟩

/-- C8: when the agent's page is none of the five recognised pages,
`processUpdates` enters no handler and changes nothing, for every payload; and
this is no error: for an admin or teacher the enclosing `checkForUpdates` ends
with the indicator showing 'active' and `lastUpdateCheck` set to the current
time. -/
theorem unknown_page_dispatches_nothing (p : Page) (status : Nat) (data : UpdatePayload)
    (hrole : p.sync.currentUser = some "admin" ∨ p.sync.currentUser = some "teacher")
    (hpage : pageHandler p.sync.currentPage = none) (hstatus : responseOk status = true) :
    processUpdates p data = .ok p
      ∧ ∃ q, checkForUpdatesCall p (FetchResult.response status (some data)) = .ok q
          ∧ q.handlerCalls = p.handlerCalls
          ∧ q.notifications = p.notifications
          ∧ showsStatus q "active" = true
          ∧ q.sync.lastUpdateCheck = some p.now := by
  have hnot : ∀ p' : Page, p'.sync.currentPage = p.sync.currentPage →
      processUpdates p' data = .ok p' := by
    intro p' hp'
    unfold pageHandler at hpage
    rw [← hp'] at hpage
    by_cases h1 : p'.sync.currentPage = some "timetable"
    · simp [h1] at hpage
    by_cases h2 : p'.sync.currentPage = some "teachers"
    · simp [h2] at hpage
    by_cases h3 : p'.sync.currentPage = some "students"
    · simp [h3] at hpage
    by_cases h4 : p'.sync.currentPage = some "dashboard"
    · simp [h4] at hpage
    by_cases h5 : p'.sync.currentPage = some "announcements"
    · simp [h5] at hpage
    · unfold processUpdates
      simp [h1, h2, h3, h4, h5]
  refine ⟨hnot p rfl, ?_⟩
  obtain ⟨p0, hcall, hsync, hnow, hh, _, hn, _⟩ := checkForUpdatesCall_qualified p hrole
  have hp0 := hnot p0 (by rw [hsync])
  refine ⟨showSyncIndicator
      { p0 with sync := { p0.sync with lastUpdateCheck := some p0.now } } "active", ?_, ?_, ?_,
    showsStatus_showSyncIndicator_active _, ?_⟩
  · rw [hcall]
    unfold checkForUpdatesSettled checkForUpdatesTry
    simp [hstatus, hp0]
  · simpa using hh
  · simpa using hn
  · simp [hnow]

/-- Witness of C8: an admin on a path naming no page, every flag of the payload
set. -/
theorem unknown_page_dispatches_nothing_witness :
    processUpdates (construct (freshBrowser "/admin/settings/"))
        { has_updates := true, timetable_changed := true, teachers_changed := true,
          students_changed := true, stats_changed := true, announcements_changed := true,
          stats := none }
      = .ok (construct (freshBrowser "/admin/settings/")) :=
  (unknown_page_dispatches_nothing (construct (freshBrowser "/admin/settings/")) 200
    { has_updates := true, timetable_changed := true, teachers_changed := true,
      students_changed := true, stats_changed := true, announcements_changed := true,
      stats := none }
    (Or.inl (by decide)) (by decide) (by decide)).1

/-! ## Notifications: the claims -/

theorem showUpdateNotification_enabled (p : Page) (t m : String) (a : Option ActionCallback)
    (h : getItem p.localStorage "disableUpdateNotifications" ≠ some "true") :
    (showUpdateNotification p t m a).notifications
      = p.notifications ++ [{ id := p.nextNotificationId, title := t, message := m, action := a }] := by
  unfold showUpdateNotification setTimeout
  simp [h]

theorem showUpdateNotification_disabled (p : Page) (t m : String) (a : Option ActionCallback)
    (h : getItem p.localStorage "disableUpdateNotifications" = some "true") :
    showUpdateNotification p t m a = p := by
  unfold showUpdateNotification
  simp [h]

theorem notifyIf_spec (p : Page) (name title message : String) (flag : Bool) :
    (notifyIf p name title message flag).reloads = p.reloads
      ∧ (getItem p.localStorage "disableUpdateNotifications" ≠ some "true" →
          (flag = true → ∃ n, (notifyIf p name title message flag).notifications
              = p.notifications ++ [n]
            ∧ n.action = some ActionCallback.reload ∧ n.id = p.nextNotificationId)
          ∧ (flag = false → (notifyIf p name title message flag).notifications = p.notifications))
      ∧ (getItem p.localStorage "disableUpdateNotifications" = some "true" →
          (notifyIf p name title message flag).notifications = p.notifications) := by
  unfold notifyIf
  cases flag with
  | false => simp [enterHandler]
  | true =>
    refine ⟨by simp [enterHandler], ?_, ?_⟩
    · intro hpref
      refine ⟨fun _ => ⟨{ id := p.nextNotificationId, title := title, message := message,
                           action := some ActionCallback.reload }, ?_, rfl, rfl⟩,
        fun h => by simp at h⟩
      simpa [enterHandler] using
        showUpdateNotification_enabled (enterHandler p name) title message
          (some ActionCallback.reload) hpref
    · intro hpref
      simp only [if_true]
      rw [showUpdateNotification_disabled (enterHandler p name) title message _ hpref]
      rfl

theorem processUpdates_notifying_page (p : Page) (page : String)
    (hpage : page ∈ ["timetable", "teachers", "students", "announcements"])
    (hcur : p.sync.currentPage = some page) :
    ∃ name title message, ∀ u : UpdatePayload, u.has_updates = true →
      processUpdates p u = .ok (notifyIf p name title message (pageFlag page u)) := by
  simp only [List.mem_cons, List.mem_singleton, List.not_mem_nil, or_false] at hpage
  rcases hpage with h | h | h | h
  · subst h
    exact ⟨"handleTimetableUpdates", "Timetable Updated",
      "The timetable has been modified. Refresh to see changes.", fun u hu =>
      by simp [processUpdates, hu, hcur, pageFlag, handleTimetableUpdates, notifyIf]⟩
  · subst h
    exact ⟨"handleTeacherUpdates", "Teacher Data Updated",
      "Teacher information has been modified. Refresh to see changes.", fun u hu =>
      by simp [processUpdates, hu, hcur, pageFlag, handleTeacherUpdates, notifyIf]⟩
  · subst h
    exact ⟨"handleStudentUpdates", "Student Data Updated",
      "Student information has been modified. Refresh to see changes.", fun u hu =>
      by simp [processUpdates, hu, hcur, pageFlag, handleStudentUpdates, notifyIf]⟩
  · subst h
    exact ⟨"handleAnnouncementUpdates", "New Announcements",
      "New announcements have been posted.", fun u hu =>
      by simp [processUpdates, hu, hcur, pageFlag, handleAnnouncementUpdates, notifyIf]⟩

theorem notifyIf_frame (p : Page) (name title message : String) (flag : Bool) :
    (notifyIf p name title message flag).sync = p.sync
      ∧ (notifyIf p name title message flag).liveIntervals = p.liveIntervals := by
  unfold notifyIf
  cases flag <;> simp [enterHandler]

/-- C9 (counterexample): on the timetable page of a browser whose stored
preference `disableUpdateNotifications` is 'true', a payload with `has_updates`
and `timetable_changed` set is dispatched to the timetable handler and no
notification appears. -/
theorem muted_page_flag_set_no_notification :
    pageFlag "timetable"
        { has_updates := true, timetable_changed := true, teachers_changed := false,
          students_changed := false, stats_changed := false, announcements_changed := false,
          stats := none } = true
      ∧ (resultPage (processUpdates (construct (mutedBrowser "/admin/timetable/"))
          { has_updates := true, timetable_changed := true, teachers_changed := false,
            students_changed := false, stats_changed := false, announcements_changed := false,
            stats := none })).handlerCalls = ["handleTimetableUpdates"]
      ∧ (resultPage (processUpdates (construct (mutedBrowser "/admin/timetable/"))
          { has_updates := true, timetable_changed := true, teachers_changed := false,
            students_changed := false, stats_changed := false, announcements_changed := false,
            stats := none })).notifications = [] := by
  decide

/-- C9 (amended): on each of the pages timetable, teachers, students and
announcements, a payload dispatched with `has_updates` set produces, while the
stored preference `disableUpdateNotifications` is not 'true', a notification
offering reload if and only if the page's own flag is set (and no notification
when the preference is 'true'); a payload `u'` that agrees with `u` on that flag
gives the same page whatever its other flags, and the dispatch never executes
the reload. -/
theorem reload_notification_iff_page_flag (p : Page) (u u' : UpdatePayload) (page : String)
    (hpage : page ∈ ["timetable", "teachers", "students", "announcements"])
    (hcur : p.sync.currentPage = some page) (hu : u.has_updates = true)
    (hu' : u'.has_updates = true) (hsame : pageFlag page u' = pageFlag page u) :
    ∃ q, processUpdates p u = .ok q
      ∧ processUpdates p u' = .ok q
      ∧ q.reloads = p.reloads
      ∧ (getItem p.localStorage "disableUpdateNotifications" ≠ some "true" →
          (pageFlag page u = true → ∃ n, q.notifications = p.notifications ++ [n]
            ∧ n.action = some ActionCallback.reload ∧ n.id = p.nextNotificationId)
          ∧ (pageFlag page u = false → q.notifications = p.notifications))
      ∧ (getItem p.localStorage "disableUpdateNotifications" = some "true" →
          q.notifications = p.notifications) := by
  obtain ⟨name, title, message, h⟩ := processUpdates_notifying_page p page hpage hcur
  have hspec := notifyIf_spec p name title message (pageFlag page u)
  refine ⟨notifyIf p name title message (pageFlag page u), h u hu, ?_, hspec.1, hspec.2.1,
    hspec.2.2⟩
  rw [h u' hu', hsame]

/-- Witness of C9 (amended): the teachers page, a payload with
`teachers_changed` set and one that differs from it in every other flag. -/
theorem reload_notification_iff_page_flag_witness :
    ∃ q, processUpdates (construct (freshBrowser "/admin/teachers/"))
          { has_updates := true, timetable_changed := false, teachers_changed := true,
            students_changed := false, stats_changed := false, announcements_changed := false,
            stats := none } = .ok q
      ∧ processUpdates (construct (freshBrowser "/admin/teachers/"))
          { has_updates := true, timetable_changed := true, teachers_changed := true,
            students_changed := true, stats_changed := true, announcements_changed := true,
            stats := some [] } = .ok q
      ∧ q.reloads = 0
      ∧ ∃ n, q.notifications = [n] ∧ n.action = some ActionCallback.reload := by
  obtain ⟨q, h1, h2, h3, h4, _⟩ :=
    reload_notification_iff_page_flag (construct (freshBrowser "/admin/teachers/"))
      { has_updates := true, timetable_changed := false, teachers_changed := true,
        students_changed := false, stats_changed := false, announcements_changed := false,
        stats := none }
      { has_updates := true, timetable_changed := true, teachers_changed := true,
        students_changed := true, stats_changed := true, announcements_changed := true,
        stats := some [] }
      "teachers" (by decide) (by decide) rfl rfl (by decide)
  obtain ⟨n, hn, ha, _⟩ := (h4 (by decide)).1 (by decide)
  exact ⟨q, h1, h2, h3, n, hn, ha⟩

/-- C10 (counterexample): the witness payload of the spec, `timetable_changed`
set and no other field, dispatched on the timetable page: `has_updates` is
absent, `processUpdates` returns on its first line, no handler is entered and no
notification appears. -/
theorem witness_payload_surfaces_no_notification :
    (resultPage (processUpdates (construct (freshBrowser "/admin/timetable/"))
        { has_updates := false, timetable_changed := true, teachers_changed := false,
          students_changed := false, stats_changed := false, announcements_changed := false,
          stats := none })).notifications = []
      ∧ (resultPage (processUpdates (construct (freshBrowser "/admin/timetable/"))
        { has_updates := false, timetable_changed := true, teachers_changed := false,
          students_changed := false, stats_changed := false, announcements_changed := false,
          stats := none })).handlerCalls = [] := by
  decide

/-- C10 (amended): on the timetable page, dispatching a payload with
`has_updates` and `timetable_changed` set, while the stored preference
`disableUpdateNotifications` is not 'true', surfaces exactly one notification;
it offers reload and can be dismissed, and after the click on Dismiss it is gone
while the agent's fields, the live intervals and the reload count are as before
the dispatch. -/
theorem timetable_dispatch_one_dismissible_notification (p : Page) (u : UpdatePayload)
    (hcur : p.sync.currentPage = some "timetable") (hu : u.has_updates = true)
    (hflag : u.timetable_changed = true)
    (hpref : getItem p.localStorage "disableUpdateNotifications" ≠ some "true") :
    ∃ q n, processUpdates p u = .ok q
      ∧ q.notifications = p.notifications ++ [n]
      ∧ n.action = some ActionCallback.reload
      ∧ n ∉ (dismissClick q n.id).notifications
      ∧ (dismissClick q n.id).sync = p.sync
      ∧ (dismissClick q n.id).liveIntervals = p.liveIntervals
      ∧ (dismissClick q n.id).reloads = p.reloads := by
  obtain ⟨name, title, message, h⟩ :=
    processUpdates_notifying_page p "timetable" (by simp) hcur
  have hspec := notifyIf_spec p name title message (pageFlag "timetable" u)
  have hframe := notifyIf_frame p name title message (pageFlag "timetable" u)
  have hf : pageFlag "timetable" u = true := by simp [pageFlag, hflag]
  obtain ⟨n, hn, ha, _⟩ := (hspec.2.1 hpref).1 hf
  refine ⟨notifyIf p name title message (pageFlag "timetable" u), n, h u hu, hn, ha, ?_,
    hframe.1, hframe.2, hspec.1⟩
  simp [dismissClick, removeNotification]

/-- Witness of C10 (amended): an active admin agent on the timetable page. -/
theorem timetable_dispatch_one_dismissible_notification_witness :
    (construct (freshBrowser "/admin/timetable/")).sync.isActive = true
      ∧ ∃ q n, processUpdates (construct (freshBrowser "/admin/timetable/"))
          { has_updates := true, timetable_changed := true, teachers_changed := false,
            students_changed := false, stats_changed := false, announcements_changed := false,
            stats := none } = .ok q
        ∧ q.notifications = [n]
        ∧ n.action = some ActionCallback.reload
        ∧ (dismissClick q n.id).sync = (construct (freshBrowser "/admin/timetable/")).sync := by
  refine ⟨by decide, ?_⟩
  obtain ⟨q, n, h1, h2, h3, _, h5, _⟩ :=
    timetable_dispatch_one_dismissible_notification (construct (freshBrowser "/admin/timetable/"))
      { has_updates := true, timetable_changed := true, teachers_changed := false,
        students_changed := false, stats_changed := false, announcements_changed := false,
        stats := none }
      (by decide) rfl rfl (by decide)
  exact ⟨q, n, h1, h2, h3, h5⟩

/-! ## enable and disable: the claims -/

theorem removeItem_removeItem (store : List (String × String)) (key : String) :
    removeItem (removeItem store key) key = removeItem store key := by
  unfold removeItem
  rw [List.filter_filter]
  simp

theorem setItem_setItem (store : List (String × String)) (key value : String) :
    setItem (setItem store key value) key value = setItem store key value := by
  unfold setItem
  have h : removeItem ((key, value) :: removeItem store key) key = removeItem store key := by
    rw [← removeItem_removeItem store key]
    simp [removeItem]
  rw [h]

theorem getItem_removeItem (store : List (String × String)) (key : String) :
    getItem (removeItem store key) key = none := by
  unfold getItem removeItem
  simp [List.find?_eq_none]

theorem getItem_setItem (store : List (String × String)) (key value : String) :
    getItem (setItem store key value) key = some value := by
  simp [getItem, setItem]

theorem pauseSync_of_inactive (p : Page) (h : p.sync.isActive = false) : pauseSync p = p := by
  unfold pauseSync
  simp [h]

theorem startPolling_of_active (p : Page) (h : p.sync.isActive = true) : startPolling p = p := by
  unfold startPolling
  simp [h]

theorem startPolling_isActive (p : Page) : (startPolling p).sync.isActive = true := by
  by_cases h : p.sync.isActive = true
  · rw [startPolling_of_active p h]; exact h
  · exact (startPolling_arms p (by simpa using h)).1

theorem startPolling_localStorage (p : Page) : (startPolling p).localStorage = p.localStorage := by
  unfold startPolling showSyncIndicator setTimeout setInterval
  split <;> simp

theorem startPolling_frame (p : Page) :
    (startPolling p).sync.currentUser = p.sync.currentUser
      ∧ (startPolling p).requests = p.requests := by
  unfold startPolling setInterval
  split <;> simp

theorem enable_localStorage (p : Page) :
    (enable p).localStorage = removeItem p.localStorage "disableRealtimeSync" := by
  unfold enable
  simp only
  split
  · rw [startPolling_localStorage]
  · rfl

theorem enable_currentUser (p : Page) : (enable p).sync.currentUser = p.sync.currentUser := by
  unfold enable
  simp only
  split
  · rw [(startPolling_frame _).1]
  · rfl

theorem enable_isActive_of_should (p : Page) (h : shouldStartPolling p = true) :
    (enable p).sync.isActive = true := by
  unfold enable
  have h' : shouldStartPolling
      { p with localStorage := removeItem p.localStorage "disableRealtimeSync" } = true := h
  simp only [h', if_true]
  exact startPolling_isActive _

theorem enable_fixed (q : Page) (hact : shouldStartPolling q = true → q.sync.isActive = true)
    (hls : removeItem q.localStorage "disableRealtimeSync" = q.localStorage) : enable q = q := by
  have hq : ({ q with localStorage := removeItem q.localStorage "disableRealtimeSync" } : Page)
      = q := by
    rw [hls]
  unfold enable
  simp only [hq]
  split
  · rename_i hs
    exact startPolling_of_active q (hact hs)
  · rfl

theorem disable_of_inactive (p : Page) (h : p.sync.isActive = false) :
    disable p = { p with localStorage := setItem p.localStorage "disableRealtimeSync" "true" } := by
  unfold disable
  rw [pauseSync_of_inactive p h]

/-- C16: `disable()` and `enable()` are idempotent on the whole page - agent
fields, indicator, timers and storage: a second call changes nothing; and
`disable()` on a paused agent changes nothing but the stored flag. -/
theorem disable_enable_idempotent (p : Page) :
    disable (disable p) = disable p
      ∧ enable (enable p) = enable p
      ∧ (p.sync.isActive = false →
          disable p = { p with localStorage :=
                                 setItem p.localStorage "disableRealtimeSync" "true" }) := by
  refine ⟨?_, ?_, disable_of_inactive p⟩
  · have h1 : (disable p).sync.isActive = false := pauseSync_isActive p
    rw [disable_of_inactive (disable p) h1]
    have h2 : (disable p).localStorage
        = setItem (pauseSync p).localStorage "disableRealtimeSync" "true" := rfl
    rw [h2, setItem_setItem]
    rfl
  · apply enable_fixed
    · intro hs
      apply enable_isActive_of_should
      unfold shouldStartPolling at hs ⊢
      rw [enable_currentUser] at hs
      exact hs
    · rw [enable_localStorage, removeItem_removeItem]

/-- Witness of C16: an admin page paused by `blur`. -/
theorem disable_enable_idempotent_witness :
    (run (construct (freshBrowser "/admin/dashboard/")) [Event.blur]).sync.isActive = false
      ∧ disable (run (construct (freshBrowser "/admin/dashboard/")) [Event.blur])
          = { run (construct (freshBrowser "/admin/dashboard/")) [Event.blur] with
              localStorage := [("disableRealtimeSync", "true")] } :=
  ⟨by decide,
   (disable_enable_idempotent
      (run (construct (freshBrowser "/admin/dashboard/")) [Event.blur])).2.2 (by decide)⟩

/-- C17: `enable()` removes the stored flag `disableRealtimeSync`; afterwards an
admin or teacher agent is active, with its timer handle set whenever the agent
satisfied the timer invariant before; a student or unknown agent is left
exactly as it was, so a paused one stays paused with no timer. -/
theorem enable_clears_flag_and_starts_qualified (p : Page) :
    getItem (enable p).localStorage "disableRealtimeSync" = none
      ∧ (p.sync.currentUser = some "admin" ∨ p.sync.currentUser = some "teacher" →
          (enable p).sync.isActive = true
            ∧ (TimerInv p.sync → (enable p).sync.intervalId ≠ none))
      ∧ (p.sync.currentUser = some "student" ∨ p.sync.currentUser = none →
          (enable p).sync = p.sync ∧ (enable p).liveIntervals = p.liveIntervals
            ∧ (p.sync.isActive = false → p.sync.intervalId = none →
                (enable p).sync.isActive = false ∧ (enable p).sync.intervalId = none)) := by
  refine ⟨?_, ?_, ?_⟩
  · rw [enable_localStorage, getItem_removeItem]
  · intro hrole
    have hs : shouldStartPolling p = true := by
      unfold shouldStartPolling
      rcases hrole with h | h <;> simp [h]
    have hact := enable_isActive_of_should p hs
    refine ⟨hact, fun hinv => ?_⟩
    exact ((enable_timerInv p hinv).1).mp hact
  · intro hrole
    have hs : shouldStartPolling
        { p with localStorage := removeItem p.localStorage "disableRealtimeSync" } = false := by
      unfold shouldStartPolling
      rcases hrole with h | h <;> simp [h]
    have he : enable p
        = { p with localStorage := removeItem p.localStorage "disableRealtimeSync" } := by
      unfold enable
      simp [hs]
    rw [he]
    exact ⟨rfl, rfl, fun h1 h2 => ⟨h1, h2⟩⟩

/-- Witness of C17: a paused admin page with the flag stored, and a student
page. -/
theorem enable_clears_flag_and_starts_qualified_witness :
    (enable (disable (construct (freshBrowser "/admin/dashboard/")))).sync.isActive = true
      ∧ (enable (construct (freshBrowser "/student/dashboard/"))).sync
          = (construct (freshBrowser "/student/dashboard/")).sync :=
  ⟨((enable_clears_flag_and_starts_qualified
      (disable (construct (freshBrowser "/admin/dashboard/")))).2.1 (Or.inl (by decide))).1,
   ((enable_clears_flag_and_starts_qualified
      (construct (freshBrowser "/student/dashboard/"))).2.2 (Or.inl (by decide))).1⟩

/-! ## Pausing and resuming: the claims -/

theorem find_chained (id : Nat) (l : List PendingCheck) (h : ∃ c ∈ l, c.id = id) :
    ∃ c', (l.map (fun c => if c.id == id then { c with thenStartPolling := true } else c)).find?
        (fun d => d.id == id) = some c' ∧ c'.thenStartPolling = true := by
  induction l with
  | nil => simp at h
  | cons x xs ih =>
    by_cases hx : x.id = id
    · exact ⟨{ x with thenStartPolling := true }, by simp [hx], rfl⟩
    · obtain ⟨c, hc, hcid⟩ := h
      have hc' : c ∈ xs := by
        rcases List.mem_cons.mp hc with h1 | h1
        · exact absurd (h1 ▸ hcid) hx
        · exact h1
      obtain ⟨c', hfind, hthen⟩ := ih ⟨c, hc', hcid⟩
      exact ⟨c', by simpa [hx] using hfind, hthen⟩

theorem resumeSync_qualified (p : Page)
    (hrole : p.sync.currentUser = some "admin" ∨ p.sync.currentUser = some "teacher")
    (hpaused : p.sync.isActive = false) :
    (resumeSync p).requests = p.requests ++ [updatesRequest p]
      ∧ (resumeSync p).sync = p.sync
      ∧ (resumeSync p).liveIntervals = p.liveIntervals
      ∧ ∃ c, (resumeSync p).inflight.find? (fun d => d.id == p.nextRequestId) = some c
          ∧ c.thenStartPolling = true := by
  have hq := checkForUpdates_qualified p hrole
  have hr : resumeSync p = chainStartPolling (checkForUpdates p).1 p.nextRequestId := by
    unfold resumeSync
    simp [hpaused, hq]
  rw [hr, hq]
  refine ⟨rfl, rfl, rfl, ?_⟩
  exact find_chained p.nextRequestId _
    ⟨{ id := p.nextRequestId, thenStartPolling := false }, by simp, rfl⟩

/-- C12 (counterexample): a paused admin agent on which `enable()` is called
becomes active with its timer armed and no request sent. -/
theorem enable_arms_without_check :
    (run (construct (freshBrowser "/admin/dashboard/")) [Event.blur]).sync.isActive = false
      ∧ (run (construct (freshBrowser "/admin/dashboard/"))
          [Event.blur, Event.enable]).sync.isActive = true
      ∧ (run (construct (freshBrowser "/admin/dashboard/"))
          [Event.blur, Event.enable]).sync.intervalId = some 2
      ∧ (run (construct (freshBrowser "/admin/dashboard/"))
          [Event.blur, Event.enable]).requests = [] := by
  decide

/-- C12 (amended): on a paused admin or teacher agent, each resume trigger - the
tab becoming visible or the window gaining focus - sends exactly one immediate
update request and leaves the timer unarmed until that check completes, at
which point the timer is armed; `enable()` arms the timer at once and sends no
request. -/
theorem resume_checks_first_enable_arms_at_once (p : Page) (e : Event)
    (hrole : p.sync.currentUser = some "admin" ∨ p.sync.currentUser = some "teacher")
    (hpaused : p.sync.isActive = false)
    (he : e = Event.visibilitychange false ∨ e = Event.focus) :
    ((step p e).requests = p.requests ++ [updatesRequest p]
        ∧ (step p e).sync.isActive = false
        ∧ (step p e).liveIntervals = p.liveIntervals
        ∧ ∀ r, (settleCheck (step p e) p.nextRequestId r).sync.isActive = true)
      ∧ (step p Event.enable).requests = p.requests
      ∧ (step p Event.enable).sync.isActive = true := by
  have hres := resumeSync_qualified p hrole hpaused
  have hstep : step p e = resumeSync p := by
    rcases he with h | h <;> subst h <;> rfl
  obtain ⟨hreq, hsync, hlive, c, hfind, hthen⟩ := hres
  refine ⟨⟨by rw [hstep, hreq], by rw [hstep, hsync, hpaused], by rw [hstep, hlive], ?_⟩, ?_, ?_⟩
  · intro r
    rw [hstep]
    exact (settleCheck_chained_arms (resumeSync p) p.nextRequestId r c
      (by rw [hsync, hpaused]) hfind hthen).1
  · have hs : shouldStartPolling
        { p with localStorage := removeItem p.localStorage "disableRealtimeSync" } = true := by
      unfold shouldStartPolling
      rcases hrole with h | h <;> simp [h]
    show (enable p).requests = p.requests
    unfold enable
    simp only [hs, if_true]
    rw [(startPolling_frame _).2]
  · have hs : shouldStartPolling p = true := by
      unfold shouldStartPolling
      rcases hrole with h | h <;> simp [h]
    exact enable_isActive_of_should p hs

/-- Witness of C12 (amended): the admin page paused by `blur`, resumed by
`focus`. -/
theorem resume_checks_first_enable_arms_at_once_witness :
    (step (run (construct (freshBrowser "/admin/dashboard/")) [Event.blur]) Event.focus).requests
        = [updatesRequest (run (construct (freshBrowser "/admin/dashboard/")) [Event.blur])]
      ∧ (step (run (construct (freshBrowser "/admin/dashboard/")) [Event.blur])
          Event.focus).sync.isActive = false
      ∧ (step (run (construct (freshBrowser "/admin/dashboard/")) [Event.blur])
          Event.enable).requests = [] :=
  ⟨(resume_checks_first_enable_arms_at_once
      (run (construct (freshBrowser "/admin/dashboard/")) [Event.blur]) Event.focus
      (Or.inl (by decide)) (by decide) (Or.inr rfl)).1.1,
   (resume_checks_first_enable_arms_at_once
      (run (construct (freshBrowser "/admin/dashboard/")) [Event.blur]) Event.focus
      (Or.inl (by decide)) (by decide) (Or.inr rfl)).1.2.1,
   (resume_checks_first_enable_arms_at_once
      (run (construct (freshBrowser "/admin/dashboard/")) [Event.blur]) Event.focus
      (Or.inl (by decide)) (by decide) (Or.inr rfl)).2.1⟩

/-- C13: on a paused admin or teacher agent the return of visibility sends
exactly one update request, to the endpoint of the role, and leaves the agent
paused with no timer; the timer is armed when that check completes, whatever
its result: then `isActive` is true, `intervalId` is set and one interval is
live more than before. -/
theorem visibility_return_checks_then_arms (p : Page) (r : FetchResult)
    (hrole : p.sync.currentUser = some "admin" ∨ p.sync.currentUser = some "teacher")
    (hpaused : p.sync.isActive = false) (hnone : p.sync.intervalId = none) :
    (step p (Event.visibilitychange false)).requests = p.requests ++ [updatesRequest p]
      ∧ (step p (Event.visibilitychange false)).sync.isActive = false
      ∧ (step p (Event.visibilitychange false)).sync.intervalId = none
      ∧ (step p (Event.visibilitychange false)).liveIntervals = p.liveIntervals
      ∧ (step (step p (Event.visibilitychange false))
          (Event.checkSettles p.nextRequestId r)).sync.isActive = true
      ∧ (step (step p (Event.visibilitychange false))
          (Event.checkSettles p.nextRequestId r)).sync.intervalId ≠ none := by
  obtain ⟨hreq, hsync, hlive, c, hfind, hthen⟩ := resumeSync_qualified p hrole hpaused
  have hstep : step p (Event.visibilitychange false) = resumeSync p := rfl
  rw [hstep]
  refine ⟨hreq, by rw [hsync, hpaused], by rw [hsync, hnone], hlive, ?_, ?_⟩
  · exact (settleCheck_chained_arms (resumeSync p) p.nextRequestId r c
      (by rw [hsync, hpaused]) hfind hthen).1
  · exact (settleCheck_chained_arms (resumeSync p) p.nextRequestId r c
      (by rw [hsync, hpaused]) hfind hthen).2

/-- Witness of C13: a teacher page hidden and shown again, the check failing. -/
theorem visibility_return_checks_then_arms_witness :
    (step (run (construct (freshBrowser "/teacher/timetable/")) [Event.visibilitychange true])
        (Event.visibilitychange false)).requests.length = 1
      ∧ (step (run (construct (freshBrowser "/teacher/timetable/")) [Event.visibilitychange true])
        (Event.visibilitychange false)).sync.intervalId = none
      ∧ (step (step (run (construct (freshBrowser "/teacher/timetable/"))
          [Event.visibilitychange true]) (Event.visibilitychange false))
          (Event.checkSettles 0 FetchResult.rejected)).sync.isActive = true := by
  have h := visibility_return_checks_then_arms
    (run (construct (freshBrowser "/teacher/timetable/")) [Event.visibilitychange true])
    FetchResult.rejected (Or.inr (by decide)) (by decide) (by decide)
  refine ⟨?_, h.2.2.1, h.2.2.2.2.1⟩
  rw [h.1]
  decide

/-! ## What a dispatch leaves alone

Any observation `f` of the page that the four primitive effects of the handlers
do not change is not changed by the dispatch. -/

theorem handleDashboardUpdates_throws (p : Page) (u : UpdatePayload)
    (hs : u.stats_changed = true) (hnone : u.stats = none) :
    handleDashboardUpdates p u
      = .error ("TypeError", enterHandler p "handleDashboardUpdates") := by
  unfold handleDashboardUpdates
  simp [hs, hnone, updateDashboardStats]

theorem handleDashboardUpdates_patches (p : Page) (u : UpdatePayload)
    (kvs : List (String × String)) (hs : u.stats_changed = true) (hsome : u.stats = some kvs) :
    handleDashboardUpdates p u
      = match forEachStat (enterHandler p "handleDashboardUpdates") kvs with
        | .error e => .error e
        | .ok q => .ok (if u.announcements_changed then refreshAnnouncementsList q else q) := by
  unfold handleDashboardUpdates
  simp only [hs, hsome, updateDashboardStats, if_true]
  cases forEachStat (enterHandler p "handleDashboardUpdates") kvs with
  | error e => rfl
  | ok q =>
    simp only
    split <;> rfl

theorem handleDashboardUpdates_no_stats (p : Page) (u : UpdatePayload)
    (hs : u.stats_changed = false) :
    handleDashboardUpdates p u
      = .ok (if u.announcements_changed then
              refreshAnnouncementsList (enterHandler p "handleDashboardUpdates")
            else enterHandler p "handleDashboardUpdates") := by
  unfold handleDashboardUpdates
  simp only [hs, Bool.false_eq_true, if_false]
  split <;> rfl

theorem handleDashboardUpdates_invariant {α : Type} (f : Page → α)
    (h1 : ∀ p n, f (enterHandler p n) = f p)
    (h3 : ∀ p k v, f (patchStat p k v) = f p)
    (h4 : ∀ p, f (refreshAnnouncementsList p) = f p) (p : Page) (u : UpdatePayload) :
    f (resultPage (handleDashboardUpdates p u)) = f p := by
  cases hs : u.stats_changed with
  | false =>
    rw [handleDashboardUpdates_no_stats p u hs]
    simp only [resultPage]
    split
    · rw [h4, h1]
    · rw [h1]
  | true =>
    cases hst : u.stats with
    | none =>
      rw [handleDashboardUpdates_throws p u hs hst]
      exact h1 p _
    | some kvs =>
      have hfold := forEachStat_invariant f h3 kvs (enterHandler p "handleDashboardUpdates")
      rw [handleDashboardUpdates_patches p u kvs hs hst]
      cases hres : forEachStat (enterHandler p "handleDashboardUpdates") kvs with
      | error e =>
        rw [hres] at hfold
        simp only [resultPage] at hfold ⊢
        rw [hfold, h1]
      | ok q =>
        rw [hres] at hfold
        simp only [resultPage] at hfold ⊢
        split
        · rw [h4, hfold, h1]
        · rw [hfold, h1]

theorem notifyIf_invariant {α : Type} (f : Page → α)
    (h1 : ∀ p n, f (enterHandler p n) = f p)
    (h2 : ∀ p t m a, f (showUpdateNotification p t m a) = f p)
    (p : Page) (name title message : String) (flag : Bool) :
    f (notifyIf p name title message flag) = f p := by
  unfold notifyIf
  split
  · rw [h2, h1]
  · rw [h1]

/-- The dispatch as a case distinction: nothing happens, one of the four
notifying handlers runs, or the dashboard handler runs. -/
theorem processUpdates_cases (p : Page) (u : UpdatePayload) :
    processUpdates p u = .ok p
      ∨ (∃ name title message flag, processUpdates p u = .ok (notifyIf p name title message flag))
      ∨ (p.sync.currentPage = some "dashboard" ∧ u.has_updates = true
          ∧ processUpdates p u = handleDashboardUpdates p u) := by
  by_cases hu : u.has_updates = true
  · by_cases h1 : p.sync.currentPage = some "timetable"
    · exact Or.inr (Or.inl ⟨"handleTimetableUpdates", "Timetable Updated",
        "The timetable has been modified. Refresh to see changes.", u.timetable_changed,
        by simp [processUpdates, hu, h1, handleTimetableUpdates, notifyIf]⟩)
    by_cases h2 : p.sync.currentPage = some "teachers"
    · exact Or.inr (Or.inl ⟨"handleTeacherUpdates", "Teacher Data Updated",
        "Teacher information has been modified. Refresh to see changes.", u.teachers_changed,
        by simp [processUpdates, hu, h2, handleTeacherUpdates, notifyIf]⟩)
    by_cases h3 : p.sync.currentPage = some "students"
    · exact Or.inr (Or.inl ⟨"handleStudentUpdates", "Student Data Updated",
        "Student information has been modified. Refresh to see changes.", u.students_changed,
        by simp [processUpdates, hu, h3, handleStudentUpdates, notifyIf]⟩)
    by_cases h4 : p.sync.currentPage = some "dashboard"
    · exact Or.inr (Or.inr ⟨h4, hu, by simp [processUpdates, hu, h4]⟩)
    by_cases h5 : p.sync.currentPage = some "announcements"
    · exact Or.inr (Or.inl ⟨"handleAnnouncementUpdates", "New Announcements",
        "New announcements have been posted.", u.announcements_changed,
        by simp [processUpdates, hu, h5, handleAnnouncementUpdates, notifyIf]⟩)
    · exact Or.inl (by simp [processUpdates, hu, h1, h2, h3, h4, h5])
  · exact Or.inl (by simp [processUpdates, hu])

theorem processUpdates_invariant {α : Type} (f : Page → α)
    (h1 : ∀ p n, f (enterHandler p n) = f p)
    (h2 : ∀ p t m a, f (showUpdateNotification p t m a) = f p)
    (h3 : ∀ p k v, f (patchStat p k v) = f p)
    (h4 : ∀ p, f (refreshAnnouncementsList p) = f p) (p : Page) (u : UpdatePayload) :
    f (resultPage (processUpdates p u)) = f p := by
  rcases processUpdates_cases p u with h | ⟨n, t, m, fl, h⟩ | ⟨_, _, h⟩
  · rw [h]; rfl
  · rw [h]; exact notifyIf_invariant f h1 h2 p n t m fl
  · rw [h]; exact handleDashboardUpdates_invariant f h1 h3 h4 p u

theorem checkForUpdatesSettled_parsed (p : Page) (status : Nat) (data : UpdatePayload)
    (hstatus : responseOk status = true) :
    checkForUpdatesSettled p (FetchResult.response status (some data))
      = .ok (match processUpdates p data with
          | .ok p1 =>
            showSyncIndicator
              { p1 with sync := { p1.sync with lastUpdateCheck := some p1.now } } "active"
          | .error e => showSyncIndicator e.2 "error") := by
  unfold checkForUpdatesSettled checkForUpdatesTry
  simp only [hstatus, Bool.not_true, Bool.false_eq_true, if_false]
  cases processUpdates p data <;> rfl

theorem isFailure_or_parsed (r : FetchResult) :
    isFailure r = true
      ∨ ∃ status data, r = FetchResult.response status (some data) ∧ responseOk status = true := by
  cases r with
  | rejected => exact Or.inl rfl
  | response status body =>
    cases body with
    | none => exact Or.inl (by simp [isFailure])
    | some data =>
      by_cases hok : responseOk status = true
      · exact Or.inr ⟨status, data, rfl, hok⟩
      · exact Or.inl (by simp [isFailure, hok])

theorem showUpdateNotification_frame (p : Page) (t m : String) (a : Option ActionCallback) :
    (showUpdateNotification p t m a).indicatorCalls = p.indicatorCalls
      ∧ (showUpdateNotification p t m a).requests = p.requests
      ∧ (showUpdateNotification p t m a).inflight = p.inflight
      ∧ (showUpdateNotification p t m a).statElements = p.statElements := by
  unfold showUpdateNotification setTimeout
  split <;> simp

theorem patchStat_quiet (p : Page) (k v : String) :
    (patchStat p k v).indicatorCalls = p.indicatorCalls
      ∧ (patchStat p k v).requests = p.requests
      ∧ (patchStat p k v).inflight = p.inflight
      ∧ (patchStat p k v).liveIntervals = p.liveIntervals
      ∧ (patchStat p k v).notifications = p.notifications
      ∧ (patchStat p k v).reloads = p.reloads := by
  unfold patchStat setTimeout
  split <;> simp

theorem showUpdateNotification_at_most_one (p : Page) (t m : String)
    (a : Option ActionCallback) :
    ∃ l : List UpdateNotification, l.length ≤ 1
      ∧ (showUpdateNotification p t m a).notifications = p.notifications ++ l := by
  by_cases h : getItem p.localStorage "disableUpdateNotifications" = some "true"
  · exact ⟨[], by simp, by rw [showUpdateNotification_disabled p t m a h]; simp⟩
  · exact ⟨_, by simp, showUpdateNotification_enabled p t m a h⟩

theorem processUpdates_indicator_timers (p : Page) (u : UpdatePayload) :
    (resultPage (processUpdates p u)).indicatorCalls = p.indicatorCalls
      ∧ (resultPage (processUpdates p u)).liveIntervals = p.liveIntervals
      ∧ (resultPage (processUpdates p u)).inflight = p.inflight
      ∧ (resultPage (processUpdates p u)).reloads = p.reloads := by
  have h := processUpdates_invariant
    (fun q : Page => (q.indicatorCalls, q.liveIntervals, q.inflight, q.reloads))
    (fun _ _ => rfl)
    (fun q t m a => by
      simp [(showUpdateNotification_frame q t m a).1, (showUpdateNotification_frame q t m a).2.2.1])
    (fun q k v => by
      have hq := patchStat_quiet q k v
      simp [hq.1, hq.2.2.1, hq.2.2.2.1, hq.2.2.2.2.2])
    (fun _ => rfl) p u
  simp only [Prod.mk.injEq] at h
  exact h

theorem processUpdates_at_most_one_notification (p : Page) (u : UpdatePayload) :
    ∃ l : List UpdateNotification, l.length ≤ 1
      ∧ (resultPage (processUpdates p u)).notifications = p.notifications ++ l := by
  rcases processUpdates_cases p u with h | ⟨n, t, m, fl, h⟩ | ⟨_, _, h⟩
  · exact ⟨[], by simp, by rw [h]; simp [resultPage]⟩
  · rw [h]
    simp only [resultPage, notifyIf]
    split
    · exact showUpdateNotification_at_most_one (enterHandler p n) t m _
    · exact ⟨[], by simp, by simp [enterHandler]⟩
  · rw [h]
    refine ⟨[], by simp, ?_⟩
    rw [List.append_nil]
    exact handleDashboardUpdates_invariant (fun q : Page => q.notifications) (fun _ _ => rfl)
      (fun q k v => (patchStat_quiet q k v).2.2.2.2.1) (fun _ => rfl) p u

theorem processUpdates_requests (p : Page) (u : UpdatePayload)
    (h : ¬ (p.sync.currentPage = some "dashboard" ∧ u.has_updates = true
            ∧ u.announcements_changed = true)) :
    (resultPage (processUpdates p u)).requests = p.requests := by
  rcases processUpdates_cases p u with h0 | ⟨n, t, m, fl, h0⟩ | ⟨hd, hu, h0⟩
  · rw [h0]; rfl
  · rw [h0]
    exact notifyIf_invariant (fun q : Page => q.requests) (fun _ _ => rfl)
      (fun q t m a => (showUpdateNotification_frame q t m a).2.1) p n t m fl
  · have ha : u.announcements_changed = false := by
      cases hann : u.announcements_changed with
      | false => rfl
      | true => exact absurd ⟨hd, hu, hann⟩ h
    rw [h0]
    cases hs : u.stats_changed with
    | false =>
      rw [handleDashboardUpdates_no_stats p u hs]
      simp [ha, resultPage, enterHandler]
    | true =>
      cases hst : u.stats with
      | none =>
        rw [handleDashboardUpdates_throws p u hs hst]
        rfl
      | some kvs =>
        have hfold := forEachStat_invariant (fun q : Page => q.requests)
          (fun q k v => (patchStat_quiet q k v).2.1) kvs
          (enterHandler p "handleDashboardUpdates")
        rw [handleDashboardUpdates_patches p u kvs hs hst]
        cases hres : forEachStat (enterHandler p "handleDashboardUpdates") kvs with
        | error e =>
          rw [hres] at hfold
          exact hfold
        | ok q =>
          rw [hres] at hfold
          simp only [ha, Bool.false_eq_true, if_false, resultPage] at hfold ⊢
          exact hfold

theorem checkForUpdatesCall_unqualified (p : Page) (r : FetchResult)
    (hrole : p.sync.currentUser = some "student" ∨ p.sync.currentUser = none) :
    checkForUpdatesCall p r = .ok p := by
  have h : checkForUpdates p = (p, none) := by
    unfold checkForUpdates
    rcases hrole with h | h <;> simp [h]
  unfold checkForUpdatesCall
  rw [h]

/-- C18 (counterexample): a call of `checkForUpdates` on a student page changes
the indicator not at all: the list of indicator mutations is as before. -/
theorem student_call_mutates_no_indicator :
    (resultPage (checkForUpdatesCall (construct (freshBrowser "/student/dashboard/"))
        (FetchResult.response 200 none))).indicatorCalls
      = (construct (freshBrowser "/student/dashboard/")).indicatorCalls
      ∧ (resultPage (checkForUpdatesCall (construct (freshBrowser "/student/dashboard/"))
        (FetchResult.response 200 none))).indicator = none := by
  decide

/-- C18 (amended): every call of `checkForUpdates` by an admin or teacher agent
performs exactly one indicator mutation, with status 'active' or 'error', and
its dispatch raises at most one notification; a call by a student or unknown
agent returns at once and performs no indicator mutation at all. -/
theorem checkForUpdates_one_indicator_mutation (p : Page) (r : FetchResult) :
    (p.sync.currentUser = some "admin" ∨ p.sync.currentUser = some "teacher" →
        ∃ q, checkForUpdatesCall p r = .ok q
          ∧ (q.indicatorCalls = p.indicatorCalls ++ ["active"]
              ∨ q.indicatorCalls = p.indicatorCalls ++ ["error"])
          ∧ ∃ l : List UpdateNotification, l.length ≤ 1
              ∧ q.notifications = p.notifications ++ l)
      ∧ (p.sync.currentUser = some "student" ∨ p.sync.currentUser = none →
          checkForUpdatesCall p r = .ok p) := by
  refine ⟨fun hrole => ?_, checkForUpdatesCall_unqualified p r⟩
  obtain ⟨p1, hcall, _, _, _, _, hn, _, hic, _⟩ := checkForUpdatesCall_qualified p hrole
  rcases isFailure_or_parsed r with hf | ⟨status, data, hr, hok⟩
  · refine ⟨showSyncIndicator p1 "error", ?_, Or.inr (by simp [hic]), [], by simp, by simp [hn]⟩
    rw [hcall, checkForUpdatesSettled_failure p1 r hf]
  · subst hr
    have hind := (processUpdates_indicator_timers p1 data).1
    obtain ⟨l, hl, hnot⟩ := processUpdates_at_most_one_notification p1 data
    rw [hcall, checkForUpdatesSettled_parsed p1 status data hok]
    cases hres : processUpdates p1 data with
    | ok q1 =>
      rw [hres] at hind hnot
      simp only [resultPage] at hind hnot
      exact ⟨_, rfl, Or.inl (by simp [hind, hic]), l, hl, by simp [hnot, hn]⟩
    | error e =>
      rw [hres] at hind hnot
      simp only [resultPage] at hind hnot
      exact ⟨_, rfl, Or.inr (by simp [hind, hic]), l, hl, by simp [hnot, hn]⟩

/-- Witness of C18 (amended): an admin on the timetable page whose check brings
a changed timetable, and a student. -/
theorem checkForUpdates_one_indicator_mutation_witness :
    (∃ q, checkForUpdatesCall (construct (freshBrowser "/admin/timetable/"))
          (FetchResult.response 200
            (some { has_updates := true, timetable_changed := true, teachers_changed := false,
                    students_changed := false, stats_changed := false,
                    announcements_changed := false, stats := none })) = .ok q
        ∧ (q.indicatorCalls = ["active", "active"] ∨ q.indicatorCalls = ["active", "error"]))
      ∧ checkForUpdatesCall (construct (freshBrowser "/student/timetable/")) FetchResult.rejected
          = .ok (construct (freshBrowser "/student/timetable/")) := by
  refine ⟨?_, (checkForUpdates_one_indicator_mutation
    (construct (freshBrowser "/student/timetable/")) FetchResult.rejected).2 (Or.inl (by decide))⟩
  obtain ⟨q, h1, h2, _⟩ := (checkForUpdates_one_indicator_mutation
    (construct (freshBrowser "/admin/timetable/"))
    (FetchResult.response 200
      (some { has_updates := true, timetable_changed := true, teachers_changed := false,
              students_changed := false, stats_changed := false,
              announcements_changed := false, stats := none }))).1 (Or.inl (by decide))
  exact ⟨q, h1, h2⟩

/-- C19: for role teacher `checkForUpdates` sends exactly one request, a GET to
'/api/teacher/updates/', and for role admin exactly one, a GET to
'/api/admin/updates/'; the rest of the call sends nothing of its own: a failed
check ends with just that request, and after a parsed response the requests are
those the dispatch `processUpdates` leaves, which adds none unless the dashboard
handler refreshes the announcements. -/
theorem checkForUpdates_one_request_to_role_endpoint (p : Page) (r : FetchResult)
    (hrole : p.sync.currentUser = some "teacher" ∨ p.sync.currentUser = some "admin") :
    (p.sync.currentUser = some "teacher" → (updatesRequest p).url = "/api/teacher/updates/")
      ∧ (p.sync.currentUser = some "admin" → (updatesRequest p).url = "/api/admin/updates/")
      ∧ (updatesRequest p).method = "GET"
      ∧ (checkForUpdates p).1.requests = p.requests ++ [updatesRequest p]
      ∧ ∃ q, checkForUpdatesCall p r = .ok q
          ∧ (isFailure r = true → q.requests = p.requests ++ [updatesRequest p])
          ∧ (∀ status data, r = FetchResult.response status (some data) →
              responseOk status = true →
              (∃ p1 : Page, p1.requests = p.requests ++ [updatesRequest p]
                ∧ p1.sync = p.sync
                ∧ q.requests = (resultPage (processUpdates p1 data)).requests)
              ∧ (¬ (p.sync.currentPage = some "dashboard" ∧ data.has_updates = true
                    ∧ data.announcements_changed = true) →
                  q.requests = p.requests ++ [updatesRequest p])) := by
  have hrole' : p.sync.currentUser = some "admin" ∨ p.sync.currentUser = some "teacher" :=
    hrole.symm
  have hq := checkForUpdates_qualified p hrole'
  refine ⟨fun h => by simp [updatesRequest, updatesEndpoint, h],
    fun h => by simp [updatesRequest, updatesEndpoint, h], rfl, by rw [hq]; rfl, ?_⟩
  have hcall : ∀ r, checkForUpdatesCall p r = checkForUpdatesSettled
      { (checkForUpdates p).1 with
        inflight := (checkForUpdates p).1.inflight.filter (fun d => !(d.id == p.nextRequestId)) }
      r := by
    intro r
    unfold checkForUpdatesCall
    rw [hq]
  have hp1req : ({ (checkForUpdates p).1 with
        inflight := (checkForUpdates p).1.inflight.filter
          (fun d => !(d.id == p.nextRequestId)) } : Page).requests
      = p.requests ++ [updatesRequest p] := by
    rw [hq]; rfl
  have hp1sync : ({ (checkForUpdates p).1 with
        inflight := (checkForUpdates p).1.inflight.filter
          (fun d => !(d.id == p.nextRequestId)) } : Page).sync = p.sync := by
    rw [hq]
  generalize ({ (checkForUpdates p).1 with
        inflight := (checkForUpdates p).1.inflight.filter
          (fun d => !(d.id == p.nextRequestId)) } : Page) = p1 at hcall hp1req hp1sync
  rcases isFailure_or_parsed r with hf | ⟨status, data, hr, hok⟩
  · refine ⟨showSyncIndicator p1 "error", ?_, fun _ => by simp [hp1req], ?_⟩
    · rw [hcall, checkForUpdatesSettled_failure p1 r hf]
    · intro status data hr hok
      subst hr
      simp [isFailure, hok] at hf
  · subst hr
    have hsettled := checkForUpdatesSettled_parsed p1 status data hok
    have hreq : (match processUpdates p1 data with
          | .ok p2 =>
            showSyncIndicator
              { p2 with sync := { p2.sync with lastUpdateCheck := some p2.now } } "active"
          | .error e => showSyncIndicator e.2 "error").requests
        = (resultPage (processUpdates p1 data)).requests := by
      cases processUpdates p1 data <;> simp [resultPage]
    refine ⟨_, (hcall _).trans hsettled, fun hf => by simp [isFailure, hok] at hf, ?_⟩
    intro status' data' hr' hok'
    injection hr' with hs hb
    injection hb with hb
    subst hs hb
    refine ⟨⟨p1, hp1req, hp1sync, hreq⟩, fun hno => ?_⟩
    rw [hreq, processUpdates_requests p1 data (by rw [hp1sync]; exact hno), hp1req]

/-- Witness of C19: a teacher whose check is answered with status 503. -/
theorem checkForUpdates_one_request_to_role_endpoint_witness :
    (checkForUpdates (construct (freshBrowser "/teacher/timetable/"))).1.requests
        = [{ url := "/api/teacher/updates/", method := "GET", csrfToken := "",
             contentType := some "application/json" }]
      ∧ ∃ q, checkForUpdatesCall (construct (freshBrowser "/teacher/timetable/"))
            (FetchResult.response 503 none) = .ok q
          ∧ q.requests.length = 1 := by
  have h := checkForUpdates_one_request_to_role_endpoint
    (construct (freshBrowser "/teacher/timetable/")) (FetchResult.response 503 none)
    (Or.inl (by decide))
  obtain ⟨q, hq, hfail, _⟩ := h.2.2.2.2
  refine ⟨by rw [h.2.2.2.1]; decide, q, hq, ?_⟩
  rw [hfail (by decide)]
  decide

/-! ## Bootstrap and the health probe: the claims -/

/-- C15 (counterexample): after `disable()` on an admin page and a reload, the
bootstrap constructs no agent at all: there is nothing that starts paused and
nothing on which `enable()` could be called. -/
theorem reload_after_disable_no_agent_example :
    bootstrap (reloadBrowser (disable (construct (freshBrowser "/admin/dashboard/"))).toBrowser)
      = none := by
  decide

/-- C15 (amended): after `disable()` has stored the flag `disableRealtimeSync`,
the bootstrap of the reloaded page returns before constructing an agent, for
every page and role: no agent exists, hence no timer is armed and no request
is sent. -/
theorem reload_after_disable_constructs_no_agent (p : Page) :
    getItem (disable p).localStorage "disableRealtimeSync" = some "true"
      ∧ bootstrap (reloadBrowser (disable p).toBrowser) = none := by
  have h : getItem (disable p).localStorage "disableRealtimeSync" = some "true" :=
    getItem_setItem _ _ _
  refine ⟨h, ?_⟩
  unfold bootstrap
  have h' : getItem (reloadBrowser (disable p).toBrowser).localStorage "disableRealtimeSync"
      = some "true" := h
  simp [h']

/-- C20 (the code at the failing input): on an admin page the first health probe
is answered with status 200 and `ready` false. `checkDbHealth` leaves its `try`
block without touching the indicator and without a return value: the indicator
still shows 'active' (set by `startPolling`), not 'db_warming'; the next probe is
scheduled 15000 ms later all the same. -/
theorem probe_ready_false_leaves_indicator :
    bootstrap (freshBrowser "/admin/dashboard/")
        = some (pollDb (construct (freshBrowser "/admin/dashboard/")))
      ∧ showsStatus (settleHealth (pollDb (construct (freshBrowser "/admin/dashboard/"))) 0
          (HealthResult.response 200 (some false))) "db_warming" = false
      ∧ showsStatus (settleHealth (pollDb (construct (freshBrowser "/admin/dashboard/"))) 0
          (HealthResult.response 200 (some false))) "active" = true
      ∧ (settleHealth (pollDb (construct (freshBrowser "/admin/dashboard/"))) 0
          (HealthResult.response 200 (some false))).indicatorCalls = ["active"]
      ∧ (15000, TimeoutTask.pollDb) ∈
          (settleHealth (pollDb (construct (freshBrowser "/admin/dashboard/"))) 0
            (HealthResult.response 200 (some false))).timeouts
      ∧ showsStatus (settleHealth (pollDb (construct (freshBrowser "/admin/dashboard/"))) 0
          (HealthResult.response 503 none)) "db_warming" = true := by
  decide

/-! ## The hidden tab: the claims -/

theorem showSyncIndicator_inflight (p : Page) (status : String) :
    (showSyncIndicator p status).inflight = p.inflight := by
  unfold showSyncIndicator setTimeout
  split <;> simp

theorem checkForUpdatesSettled_quiet (p : Page) (r : FetchResult) :
    (resultPage (checkForUpdatesSettled p r)).sync.isActive = p.sync.isActive
      ∧ (resultPage (checkForUpdatesSettled p r)).liveIntervals = p.liveIntervals
      ∧ (resultPage (checkForUpdatesSettled p r)).inflight = p.inflight := by
  refine ⟨(checkForUpdatesSettled_timer p r).1, ?_⟩
  rcases isFailure_or_parsed r with hf | ⟨status, data, hr, hok⟩
  · rw [checkForUpdatesSettled_failure p r hf]
    simp [resultPage, showSyncIndicator_inflight]
  · subst hr
    have h := processUpdates_indicator_timers p data
    rw [checkForUpdatesSettled_parsed p status data hok]
    cases hres : processUpdates p data with
    | ok q =>
      rw [hres] at h
      simp only [resultPage] at h
      simp [resultPage, showSyncIndicator_inflight, h.2.1, h.2.2.1]
    | error e =>
      rw [hres] at h
      simp only [resultPage] at h
      simp [resultPage, showSyncIndicator_inflight, h.2.1, h.2.2.1]

theorem refreshAnnouncementsListSettled_quiet (p : Page) (r : AnnouncementsResult) :
    (refreshAnnouncementsListSettled p r).liveIntervals = p.liveIntervals
      ∧ (refreshAnnouncementsListSettled p r).inflight = p.inflight := by
  cases r with
  | rejected => exact ⟨rfl, rfl⟩
  | response status body =>
    unfold refreshAnnouncementsListSettled
    simp only
    split
    · cases body with
      | none => exact ⟨rfl, rfl⟩
      | some a =>
        simp only
        unfold updateAnnouncementsList
        cases p.announcementsList with
        | none => exact ⟨rfl, rfl⟩
        | some old =>
          cases a with
          | none => exact ⟨rfl, rfl⟩
          | some as =>
            simp only
            exact ⟨by rw [showUpdateNotification_liveIntervals],
              by rw [(showUpdateNotification_frame _ _ _ _).2.2.1]⟩
    · exact ⟨rfl, rfl⟩

theorem settleAnnouncements_quiet (p : Page) (id : Nat) (r : AnnouncementsResult) :
    (settleAnnouncements p id r).liveIntervals = p.liveIntervals
      ∧ (settleAnnouncements p id r).inflight = p.inflight := by
  unfold settleAnnouncements
  split
  · exact refreshAnnouncementsListSettled_quiet _ r
  · exact ⟨rfl, rfl⟩

theorem refreshClick_quiet (p : Page) (id : Nat) :
    (refreshClick p id).liveIntervals = p.liveIntervals
      ∧ (refreshClick p id).inflight = p.inflight := by
  unfold refreshClick
  split
  · exact ⟨rfl, rfl⟩
  · split <;> exact ⟨rfl, rfl⟩

theorem fireTimeout_quiet (p : Page) (i : Nat) :
    (fireTimeout p i).liveIntervals = p.liveIntervals
      ∧ (fireTimeout p i).inflight = p.inflight := by
  unfold fireTimeout
  split
  · exact ⟨rfl, rfl⟩
  · simp only
    split <;> exact ⟨rfl, rfl⟩

theorem settleHealth_quiet (p : Page) (id : Nat) (r : HealthResult) :
    (settleHealth p id r).liveIntervals = p.liveIntervals
      ∧ (settleHealth p id r).inflight = p.inflight := by
  have hc : ∀ q : Page, (checkDbHealthSettled q r).1.liveIntervals = q.liveIntervals
      ∧ (checkDbHealthSettled q r).1.inflight = q.inflight := by
    intro q
    cases r with
    | rejected => simp [checkDbHealthSettled, showSyncIndicator_inflight]
    | response status body =>
      unfold checkDbHealthSettled
      simp only
      split
      · simp [showSyncIndicator_inflight]
      · cases body with
        | none => simp [showSyncIndicator_inflight]
        | some ready => cases ready <;> simp [showSyncIndicator_inflight]
  unfold settleHealth pollDbSettled
  split
  · split
    · exact hc _
    · exact hc _
  · exact ⟨rfl, rfl⟩

theorem checkForUpdates_unchained (p : Page)
    (h : ∀ c ∈ p.inflight, c.thenStartPolling = false) :
    ∀ c ∈ (checkForUpdates p).1.inflight, c.thenStartPolling = false := by
  unfold checkForUpdates
  split
  · exact h
  · intro c hc
    simp only [List.mem_append, List.mem_singleton] at hc
    rcases hc with hc | hc
    · exact h c hc
    · rw [hc]

theorem settleCheck_pausedQuiet (p : Page) (id : Nat) (r : FetchResult) (h : PausedQuiet p) :
    PausedQuiet (settleCheck p id r) := by
  unfold settleCheck
  split
  · exact h
  · rename_i c hfind
    have hcmem : c ∈ p.inflight := List.mem_of_find?_eq_some hfind
    have hq := checkForUpdatesSettled_quiet
      { p with inflight := p.inflight.filter (fun d => !(d.id == id)) } r
    obtain ⟨q, hq'⟩ := checkForUpdatesSettled_ok
      { p with inflight := p.inflight.filter (fun d => !(d.id == id)) } r
    rw [hq'] at hq
    simp only [resultPage] at hq
    simp only [hq', h.2.2 c hcmem, Bool.false_eq_true, if_false]
    refine ⟨hq.1.trans h.1, hq.2.1.trans h.2.1, ?_⟩
    intro d hd
    rw [hq.2.2] at hd
    exact h.2.2 d (List.mem_of_mem_filter hd)

theorem step_pausedQuiet (p : Page) (e : Event) (hq : quietEvent e = true) (h : PausedQuiet p) :
    PausedQuiet (step p e) := by
  have hpause : pauseSync p = p := pauseSync_of_inactive p h.1
  cases e with
  | visibilitychange hidden =>
    cases hidden
    · simp [quietEvent] at hq
    · simpa [step, hpause] using h
  | focus => simp [quietEvent] at hq
  | blur => simpa [step, hpause] using h
  | enable => simp [quietEvent] at hq
  | disable =>
    show PausedQuiet (disable p)
    rw [disable_of_inactive p h.1]
    exact h
  | forceUpdate =>
    exact ⟨by simpa [step, forceUpdate] using h.1, by simpa [step, forceUpdate] using h.2.1,
      checkForUpdates_unchained p h.2.2⟩
  | startPolling => simp [quietEvent] at hq
  | pauseSync => simpa [step, hpause] using h
  | resumeSync => simp [quietEvent] at hq
  | checkForUpdates =>
    exact ⟨by simpa [step] using h.1, by simpa [step] using h.2.1,
      checkForUpdates_unchained p h.2.2⟩
  | intervalFires id =>
    have : intervalFires p id = p := by
      unfold intervalFires
      simp [h.2.1]
    simpa [step, this] using h
  | checkSettles id r => exact settleCheck_pausedQuiet p id r h
  | announcementsSettle id r =>
    have hs := settleAnnouncements_quiet p id r
    exact ⟨by simpa [step, settleAnnouncements_sync] using h.1, hs.1.trans h.2.1,
      by simpa [step, hs.2] using h.2.2⟩
  | dismissClick id => exact h
  | refreshClick id =>
    have hs := refreshClick_quiet p id
    exact ⟨by simpa [step, refreshClick_sync] using h.1, hs.1.trans h.2.1,
      by simpa [step, hs.2] using h.2.2⟩
  | timeoutFires i =>
    have hs := fireTimeout_quiet p i
    exact ⟨by simpa [step, fireTimeout_sync] using h.1, hs.1.trans h.2.1,
      by simpa [step, hs.2] using h.2.2⟩
  | elapse ms => exact h
  | healthSettles id r =>
    have hs := settleHealth_quiet p id r
    exact ⟨by simpa [step, settleHealth_sync] using h.1, hs.1.trans h.2.1,
      by simpa [step, hs.2] using h.2.2⟩

theorem run_pausedQuiet (events : List Event) (p : Page)
    (hq : ∀ e ∈ events, quietEvent e = true) (h : PausedQuiet p) : PausedQuiet (run p events) := by
  induction events generalizing p with
  | nil => exact h
  | cons e rest ih =>
    exact ih (step p e) (fun e' he' => hq e' (List.mem_cons_of_mem _ he'))
      (step_pausedQuiet p e (hq e (List.mem_cons_self _ _)) h)

theorem pauseSync_liveInv (p : Page) (h : LiveInv p) :
    (pauseSync p).sync.isActive = false ∧ (pauseSync p).sync.intervalId = none
      ∧ (pauseSync p).liveIntervals = [] := by
  have hact := pauseSync_isActive p
  have hinv := pauseSync_timerInv p h.1
  have hnone : (pauseSync p).sync.intervalId = none := by
    by_contra hne
    have := hinv.1.mpr hne
    rw [hact] at this
    exact absurd this (by simp)
  refine ⟨hact, hnone, ?_⟩
  by_cases ha : p.sync.isActive = true
  · cases hid : p.sync.intervalId with
    | none => exact absurd hid (h.1.1.mp ha)
    | some id =>
      have hne : id ≠ 0 := fun h0 => h.1.2 (by rw [hid, h0])
      have hl : p.liveIntervals = [id] := by rw [h.2, hid]; rfl
      unfold pauseSync
      simp [ha, hid, hne, clearInterval, hl]
  · have ha' : p.sync.isActive = false := by simpa using ha
    rw [pauseSync_of_inactive p ha']
    have hid : p.sync.intervalId = none := by
      by_contra hne
      exact ha (h.1.1.mpr hne)
    rw [h.2, hid]
    rfl

/-- C14 (counterexample): an admin page is blurred and focused again (the
immediate check 0 is in flight), then the tab is hidden: the agent is paused
with no timer. The check completes while the tab is hidden and arms interval 2,
which fires and sends a second, timer-driven request - with no return of
visibility in between. -/
theorem hidden_tab_polls_after_late_completion :
    (run (construct (freshBrowser "/admin/dashboard/"))
        [Event.blur, Event.focus, Event.visibilitychange true]).sync.isActive = false
      ∧ (run (construct (freshBrowser "/admin/dashboard/"))
        [Event.blur, Event.focus, Event.visibilitychange true]).sync.intervalId = none
      ∧ (run (construct (freshBrowser "/admin/dashboard/"))
        [Event.blur, Event.focus, Event.visibilitychange true]).requests.length = 1
      ∧ (run (construct (freshBrowser "/admin/dashboard/"))
        [Event.blur, Event.focus, Event.visibilitychange true,
         Event.checkSettles 0 (FetchResult.response 200 none)]).liveIntervals = [2]
      ∧ (run (construct (freshBrowser "/admin/dashboard/"))
        [Event.blur, Event.focus, Event.visibilitychange true,
         Event.checkSettles 0 (FetchResult.response 200 none),
         Event.intervalFires 2]).requests.length = 2 := by
  decide

/-- C14 (amended): a tab-hidden event cancels the timer in the same turn:
afterwards `isActive` is false, `intervalId` is null and no interval is live.
If no immediate check chained by an earlier resume is in flight, then along
every sequence of events that contains no return of visibility, no `focus` and
no call of `resumeSync`, `enable` or `startPolling`, the agent stays paused, no
interval is live, and an interval firing sends no request. -/
theorem hidden_cancels_timer_until_resume (p : Page) (events : List Event) (id : Nat)
    (hinv : LiveInv p) (hunchained : ∀ c ∈ p.inflight, c.thenStartPolling = false)
    (hquiet : ∀ e ∈ events, quietEvent e = true) :
    (step p (Event.visibilitychange true)).sync.isActive = false
      ∧ (step p (Event.visibilitychange true)).sync.intervalId = none
      ∧ (step p (Event.visibilitychange true)).liveIntervals = []
      ∧ (run (step p (Event.visibilitychange true)) events).sync.isActive = false
      ∧ (run (step p (Event.visibilitychange true)) events).liveIntervals = []
      ∧ step (run (step p (Event.visibilitychange true)) events) (Event.intervalFires id)
          = run (step p (Event.visibilitychange true)) events := by
  have hstep : step p (Event.visibilitychange true) = pauseSync p := rfl
  have hp := pauseSync_liveInv p hinv
  have hpq : PausedQuiet (pauseSync p) :=
    ⟨hp.1, hp.2.2, by rw [pauseSync_inflight]; exact hunchained⟩
  have hrun := run_pausedQuiet events (pauseSync p) hquiet hpq
  rw [hstep]
  refine ⟨hp.1, hp.2.1, hp.2.2, hrun.1, hrun.2.1, ?_⟩
  show intervalFires (run (pauseSync p) events) id = run (pauseSync p) events
  unfold intervalFires
  simp [hrun.2.1]

/-- Witness of C14 (amended): an active admin page is hidden; a forced update
and its failing answer follow, then interval 1 is asked to fire. -/
theorem hidden_cancels_timer_until_resume_witness :
    (step (construct (freshBrowser "/admin/dashboard/"))
        (Event.visibilitychange true)).liveIntervals = []
      ∧ (run (step (construct (freshBrowser "/admin/dashboard/")) (Event.visibilitychange true))
          [Event.forceUpdate, Event.checkSettles 0 FetchResult.rejected]).sync.isActive = false
      ∧ step (run (step (construct (freshBrowser "/admin/dashboard/"))
            (Event.visibilitychange true))
            [Event.forceUpdate, Event.checkSettles 0 FetchResult.rejected])
          (Event.intervalFires 1)
        = run (step (construct (freshBrowser "/admin/dashboard/")) (Event.visibilitychange true))
            [Event.forceUpdate, Event.checkSettles 0 FetchResult.rejected] := by
  have h := hidden_cancels_timer_until_resume (construct (freshBrowser "/admin/dashboard/"))
    [Event.forceUpdate, Event.checkSettles 0 FetchResult.rejected] 1
    ⟨construct_timerInv _, by decide⟩ (by decide) (by decide)
  exact ⟨h.2.2.1, h.2.2.2.1, h.2.2.2.2.2⟩

/-! ## Dashboard statistics: the claims -/

theorem updateFirst_map_key (k v : String) (l : List StatElement) :
    (updateFirst (fun e => e.key == k)
        (fun e => { e with textContent := v, animation := "highlight 1s ease-in-out" }) l).map
        (fun e => e.key)
      = l.map (fun e => e.key) := by
  induction l with
  | nil => rfl
  | cons x xs ih =>
    unfold updateFirst
    split
    · rfl
    · simp only [List.map_cons, ih]

theorem updateFirst_boundTo_same (k v : String) (l : List StatElement) :
    boundTo k (updateFirst (fun e => e.key == k)
        (fun e => { e with textContent := v, animation := "highlight 1s ease-in-out" }) l)
      = patchHead v (boundTo k l) := by
  induction l with
  | nil => rfl
  | cons x xs ih =>
    unfold updateFirst
    by_cases hx : (x.key == k) = true
    · simp [hx, boundTo, patchHead]
    · simp only [hx, Bool.false_eq_true, if_false]
      unfold boundTo at ih ⊢
      simp only [List.filter_cons, hx, Bool.false_eq_true, if_false]
      exact ih

theorem updateFirst_boundTo_other (k k' v : String) (hne : k' ≠ k) (l : List StatElement) :
    boundTo k' (updateFirst (fun e => e.key == k)
        (fun e => { e with textContent := v, animation := "highlight 1s ease-in-out" }) l)
      = boundTo k' l := by
  induction l with
  | nil => rfl
  | cons x xs ih =>
    unfold updateFirst
    by_cases hx : (x.key == k) = true
    · have hxk : x.key = k := by simpa using hx
      have hx' : ¬ x.key = k' := fun h => hne (h.symm.trans hxk)
      simp [hx, boundTo, hxk, hx', Ne.symm hne]
    · simp only [hx, Bool.false_eq_true, if_false]
      unfold boundTo at ih ⊢
      simp only [List.filter_cons]
      rw [ih]

theorem boundTo_nil_of_not_any (k : String) (l : List StatElement)
    (h : ¬ l.any (fun e => e.key == k) = true) : boundTo k l = [] := by
  unfold boundTo
  rw [List.filter_eq_nil_iff]
  intro e he hk
  exact h (List.any_eq_true.mpr ⟨e, he, hk⟩)

theorem patchStat_statElements (p : Page) (k v : String) :
    (patchStat p k v).statElements.map (fun e => e.key) = p.statElements.map (fun e => e.key)
      ∧ boundTo k (patchStat p k v).statElements = patchHead v (boundTo k p.statElements)
      ∧ ∀ k', k' ≠ k →
          boundTo k' (patchStat p k v).statElements = boundTo k' p.statElements := by
  unfold patchStat setTimeout
  split
  · exact ⟨updateFirst_map_key k v _, updateFirst_boundTo_same k v _,
      fun k' hne => updateFirst_boundTo_other k k' v hne _⟩
  · rename_i hany
    refine ⟨rfl, ?_, fun _ _ => rfl⟩
    rw [boundTo_nil_of_not_any k _ hany]
    rfl

theorem foldl_patchStat_statElements (kvs : List (String × String))
    (hnd : (kvs.map Prod.fst).Nodup) (p : Page) :
    (kvs.foldl (fun q kv => patchStat q kv.1 kv.2) p).statElements.map (fun e => e.key)
        = p.statElements.map (fun e => e.key)
      ∧ (∀ k v, (k, v) ∈ kvs →
          boundTo k (kvs.foldl (fun q kv => patchStat q kv.1 kv.2) p).statElements
            = patchHead v (boundTo k p.statElements))
      ∧ (∀ k, k ∉ kvs.map Prod.fst →
          boundTo k (kvs.foldl (fun q kv => patchStat q kv.1 kv.2) p).statElements
            = boundTo k p.statElements) := by
  induction kvs generalizing p with
  | nil => exact ⟨rfl, fun _ _ h => by simp at h, fun _ _ => rfl⟩
  | cons kv rest ih =>
    have hnd' : (rest.map Prod.fst).Nodup := (List.nodup_cons.mp hnd).2
    have hfresh : kv.1 ∉ rest.map Prod.fst := (List.nodup_cons.mp hnd).1
    have hu := patchStat_statElements p kv.1 kv.2
    have hih := ih hnd' (patchStat p kv.1 kv.2)
    simp only [List.foldl_cons]
    refine ⟨hih.1.trans hu.1, ?_, ?_⟩
    · intro k v hkv
      rcases List.mem_cons.mp hkv with heq | hmem
      · have hk : k = kv.1 := by rw [← heq]
        have hv : v = kv.2 := by rw [← heq]
        subst hk hv
        rw [hih.2.2 kv.1 hfresh, hu.2.1]
      · have hne : k ≠ kv.1 := by
          intro hk
          apply hfresh
          rw [← hk]
          exact List.mem_map.mpr ⟨(k, v), hmem, rfl⟩
        rw [hih.2.1 k v hmem, hu.2.2 k hne]
    · intro k hk
      have hne : k ≠ kv.1 := fun h => hk (by simp [h])
      have hk' : k ∉ rest.map Prod.fst := fun h => hk (by
        simp only [List.map_cons, List.mem_cons]
        exact Or.inr h)
      rw [hih.2.2 k hk', hu.2.2 k hne]

/-! ### Keys that stand for themselves in the selector -/

theorem preprocessAux_safe (cs : List Char) (b : Bool)
    (h : cs.all (fun c => !decide (c.toNat = 34 ∨ c.toNat = 92 ∨ c.toNat = 10
      ∨ c.toNat = 13 ∨ c.toNat = 12 ∨ c.toNat = 0)) = true) :
    preprocessAux b (cs ++ [Char.ofNat 34, Char.ofNat 93])
      = cs ++ [Char.ofNat 34, Char.ofNat 93] := by
  induction cs generalizing b with
  | nil => cases b <;> decide
  | cons c cs ih =>
    simp only [List.all_cons, Bool.and_eq_true, Bool.not_eq_true', decide_eq_false_iff_not,
      not_or] at h
    obtain ⟨⟨_, _, h3, h4, h5, h6⟩, hrest⟩ := h
    have hrec := ih false hrest
    rw [List.cons_append, preprocessAux]
    simp only [h3, h4, h5, h6, if_false]
    rw [hrec]

theorem consumeString_safe (cs acc : List Char)
    (h : cs.all (fun c => !decide (c.toNat = 34 ∨ c.toNat = 92 ∨ c.toNat = 10
      ∨ c.toNat = 13 ∨ c.toNat = 12 ∨ c.toNat = 0)) = true) :
    consumeString Scan.text acc (cs ++ [Char.ofNat 34, Char.ofNat 93])
      = StringToken.closed (acc.reverse ++ cs) [Char.ofNat 93] := by
  induction cs generalizing acc with
  | nil => simp [consumeString]
  | cons c cs ih =>
    simp only [List.all_cons, Bool.and_eq_true, Bool.not_eq_true', decide_eq_false_iff_not,
      not_or] at h
    obtain ⟨⟨h1, h2, h3, _⟩, hrest⟩ := h
    have hrec := ih (c :: acc) hrest
    rw [List.cons_append, consumeString]
    simp only [h1, h2, h3, if_false]
    rw [hrec]
    simp

/-- A key without double quote, backslash, line break or NUL yields the
attribute selector for the key itself. -/
theorem statSelector_of_safe (k : String) (h : selectorSafe k = true) :
    statSelector k = StatSelector.attr k := by
  unfold statSelector preprocess
  rw [preprocessAux_safe k.data false h, consumeString_safe k.data [] h]
  simp

theorem forEachStat_of_safe (kvs : List (String × String))
    (h : ∀ kv ∈ kvs, selectorSafe kv.1 = true) (p : Page) :
    forEachStat p kvs = .ok (kvs.foldl (fun q kv => patchStat q kv.1 kv.2) p) := by
  induction kvs generalizing p with
  | nil => rfl
  | cons kv rest ih =>
    have hk := statSelector_of_safe kv.1 (h kv (List.mem_cons_self _ _))
    unfold forEachStat updateStat
    simp only [hk, List.foldl_cons]
    exact ih (fun kv' hkv' => h kv' (List.mem_cons_of_mem _ hkv')) _

/-- C11 (counterexample): on a dashboard whose totalStudents element shows
"41", the witness payload of the spec, `stats_changed` set and `stats` mapping
totalStudents to "42" with no other field, patches nothing: `has_updates` is
absent and `processUpdates` returns on its first line. And with `has_updates`
set, the `stats` object with the keys `a"b` and totalStudents patches nothing
either: the selector text for the first key is `[data-stat="a"b"]`, on which
`querySelector` throws, and the `forEach` never reaches totalStudents. -/
theorem witness_payload_patches_no_stat :
    (resultPage (processUpdates (construct dashboardBrowser)
        { has_updates := false, timetable_changed := false, teachers_changed := false,
          students_changed := false, stats_changed := true, announcements_changed := false,
          stats := some [("totalStudents", "42")] })).statElements
      = [{ key := "totalStudents", textContent := "41", animation := "" },
         { key := "totalTeachers", textContent := "7", animation := "" }]
    ∧ (resultPage (processUpdates (construct dashboardBrowser)
        { has_updates := true, timetable_changed := false, teachers_changed := false,
          students_changed := false, stats_changed := true, announcements_changed := false,
          stats := some [("a\"b", "1"), ("totalStudents", "42")] })).statElements
      = [{ key := "totalStudents", textContent := "41", animation := "" },
         { key := "totalTeachers", textContent := "7", animation := "" }] := by
  decide

/-- C11 (amended): on the dashboard page, dispatching a payload with
`has_updates` and `stats_changed` set and a `stats` mapping none of whose keys
holds a double quote, backslash, line break or NUL sets, for each key of the
mapping, the stat element bound to the key (the first in document order if
several carry it) to the key's value and highlights it; the elements stay the
same in number, order and keys, every element bound to a key outside the
mapping is unchanged, and neither a reload nor a notification is triggered. A
payload without `has_updates`, whatever its other fields, is not dispatched and
changes nothing. -/
theorem dashboard_stats_patch_bound_elements (p : Page) (u : UpdatePayload)
    (kvs : List (String × String)) (hcur : p.sync.currentPage = some "dashboard")
    (hu : u.has_updates = true) (hs : u.stats_changed = true) (hst : u.stats = some kvs)
    (hnd : (kvs.map Prod.fst).Nodup) (hsafe : ∀ kv ∈ kvs, selectorSafe kv.1 = true) :
    (∃ q, processUpdates p u = .ok q
      ∧ q.statElements.map (fun e => e.key) = p.statElements.map (fun e => e.key)
      ∧ (∀ k v, (k, v) ∈ kvs →
          boundTo k q.statElements = patchHead v (boundTo k p.statElements))
      ∧ (∀ k, k ∉ kvs.map Prod.fst → boundTo k q.statElements = boundTo k p.statElements)
      ∧ q.reloads = p.reloads
      ∧ q.notifications = p.notifications)
    ∧ (∀ u0 : UpdatePayload, u0.has_updates = false → processUpdates p u0 = .ok p) := by
  refine ⟨?_, fun u0 h0 => by simp [processUpdates, h0]⟩
  have hpu : processUpdates p u = handleDashboardUpdates p u := by
    simp [processUpdates, hu, hcur]
  have hpatch := handleDashboardUpdates_patches p u kvs hs hst
  rw [forEachStat_of_safe kvs hsafe] at hpatch
  simp only at hpatch
  have hfold := foldl_patchStat_statElements kvs hnd (enterHandler p "handleDashboardUpdates")
  have hrel := (processUpdates_indicator_timers p u).2.2.2
  have hnot := handleDashboardUpdates_invariant (fun q : Page => q.notifications)
    (fun _ _ => rfl) (fun q k v => (patchStat_quiet q k v).2.2.2.2.1) (fun _ => rfl) p u
  rw [hpu, hpatch] at hrel
  rw [hpatch] at hnot
  simp only [resultPage] at hrel hnot
  refine ⟨_, hpu.trans hpatch, ?_, ?_, ?_, hrel, hnot⟩
  · split
    · exact hfold.1
    · exact hfold.1
  · intro k v hkv
    split
    · exact hfold.2.1 k v hkv
    · exact hfold.2.1 k v hkv
  · intro k hk
    split
    · exact hfold.2.2 k hk
    · exact hfold.2.2 k hk

/-- Witness of C11 (amended): the payload of the spec with `has_updates` added,
on a dashboard showing totalStudents "41" and totalTeachers "7". -/
theorem dashboard_stats_patch_bound_elements_witness :
    ∃ q, processUpdates (construct dashboardBrowser)
          { has_updates := true, timetable_changed := false, teachers_changed := false,
            students_changed := false, stats_changed := true, announcements_changed := false,
            stats := some [("totalStudents", "42")] } = .ok q
      ∧ boundTo "totalStudents" q.statElements
          = [{ key := "totalStudents", textContent := "42",
               animation := "highlight 1s ease-in-out" }]
      ∧ boundTo "totalTeachers" q.statElements
          = [{ key := "totalTeachers", textContent := "7", animation := "" }]
      ∧ q.reloads = 0 := by
  obtain ⟨⟨q, h1, _, h3, h4, h5, _⟩, _⟩ :=
    dashboard_stats_patch_bound_elements (construct dashboardBrowser)
      { has_updates := true, timetable_changed := false, teachers_changed := false,
        students_changed := false, stats_changed := true, announcements_changed := false,
        stats := some [("totalStudents", "42")] }
      [("totalStudents", "42")] (by decide) rfl rfl rfl (by decide) (by decide)
  refine ⟨q, h1, ?_, ?_, ?_⟩
  · rw [h3 "totalStudents" "42" (by simp)]
    decide
  · rw [h4 "totalTeachers" (by decide)]
    decide
  · rw [h5]
    decide

/-! ## One timer at most, the frame of a check, construction: the claims -/

theorem liveInv_of_eq {p q : Page} (ha : q.sync.isActive = p.sync.isActive)
    (hi : q.sync.intervalId = p.sync.intervalId) (hl : q.liveIntervals = p.liveIntervals)
    (h : LiveInv p) : LiveInv q := by
  refine ⟨timerInv_of_eq ha hi h.1, ?_⟩
  rw [hl, hi]
  exact h.2

theorem startPolling_liveInv (p : Page) (h : LiveInv p) : LiveInv (startPolling p) := by
  refine ⟨startPolling_timerInv p h.1, ?_⟩
  by_cases ha : p.sync.isActive = true
  · rw [startPolling_of_active p ha]
    exact h.2
  · have hid : p.sync.intervalId = none := by
      by_contra hne
      exact ha (h.1.1.mpr hne)
    have hl : p.liveIntervals = [] := by rw [h.2, hid]; rfl
    unfold startPolling
    simp [ha, setInterval, hl]

theorem pauseSync_liveInv_inv (p : Page) (h : LiveInv p) : LiveInv (pauseSync p) := by
  have hp := pauseSync_liveInv p h
  refine ⟨pauseSync_timerInv p h.1, ?_⟩
  rw [hp.2.2, hp.2.1]
  rfl

theorem checkForUpdates_liveInv (p : Page) (h : LiveInv p) : LiveInv (checkForUpdates p).1 :=
  liveInv_of_eq (by rw [checkForUpdates_sync]) (by rw [checkForUpdates_sync])
    (checkForUpdates_liveIntervals p) h

theorem resumeSync_liveInv (p : Page) (h : LiveInv p) : LiveInv (resumeSync p) := by
  have hc := checkForUpdates_liveInv p h
  unfold resumeSync
  split
  · exact h
  · split
    · exact startPolling_liveInv _ hc
    · exact liveInv_of_eq rfl rfl rfl hc

theorem settleCheck_liveInv (p : Page) (id : Nat) (r : FetchResult) (h : LiveInv p) :
    LiveInv (settleCheck p id r) := by
  unfold settleCheck
  split
  · exact h
  · rename_i c _
    have ht := checkForUpdatesSettled_timer
      { p with inflight := p.inflight.filter (fun d => !(d.id == id)) } r
    have hq := checkForUpdatesSettled_quiet
      { p with inflight := p.inflight.filter (fun d => !(d.id == id)) } r
    obtain ⟨q, hq'⟩ := checkForUpdatesSettled_ok
      { p with inflight := p.inflight.filter (fun d => !(d.id == id)) } r
    rw [hq'] at ht hq
    simp only [resultPage] at ht hq
    have hqi : LiveInv q := liveInv_of_eq ht.1 ht.2 hq.2.1 h
    simp only [hq']
    split
    · exact startPolling_liveInv q hqi
    · exact hqi

theorem intervalFires_liveIntervals (p : Page) (id : Nat) :
    (intervalFires p id).liveIntervals = p.liveIntervals := by
  unfold intervalFires
  split
  · simp
  · rfl

theorem step_liveInv (p : Page) (e : Event) (h : LiveInv p) : LiveInv (step p e) := by
  cases e with
  | visibilitychange hidden =>
    cases hidden
    · exact resumeSync_liveInv p h
    · exact pauseSync_liveInv_inv p h
  | focus => exact resumeSync_liveInv p h
  | blur => exact pauseSync_liveInv_inv p h
  | enable =>
    show LiveInv (enable p)
    unfold enable
    simp only
    split
    · exact startPolling_liveInv _ (liveInv_of_eq rfl rfl rfl h)
    · exact liveInv_of_eq rfl rfl rfl h
  | disable => exact liveInv_of_eq rfl rfl rfl (pauseSync_liveInv_inv p h)
  | forceUpdate => exact checkForUpdates_liveInv p h
  | startPolling => exact startPolling_liveInv p h
  | pauseSync => exact pauseSync_liveInv_inv p h
  | resumeSync => exact resumeSync_liveInv p h
  | checkForUpdates => exact checkForUpdates_liveInv p h
  | intervalFires id =>
    show LiveInv (intervalFires p id)
    exact liveInv_of_eq (by rw [intervalFires_sync]) (by rw [intervalFires_sync])
      (intervalFires_liveIntervals p id) h
  | checkSettles id r => exact settleCheck_liveInv p id r h
  | announcementsSettle id r =>
    show LiveInv (settleAnnouncements p id r)
    exact liveInv_of_eq (by rw [settleAnnouncements_sync]) (by rw [settleAnnouncements_sync])
      (settleAnnouncements_quiet p id r).1 h
  | dismissClick id => exact liveInv_of_eq rfl rfl rfl h
  | refreshClick id =>
    show LiveInv (refreshClick p id)
    exact liveInv_of_eq (by rw [refreshClick_sync]) (by rw [refreshClick_sync])
      (refreshClick_quiet p id).1 h
  | timeoutFires i =>
    show LiveInv (fireTimeout p i)
    exact liveInv_of_eq (by rw [fireTimeout_sync]) (by rw [fireTimeout_sync])
      (fireTimeout_quiet p i).1 h
  | elapse ms => exact liveInv_of_eq rfl rfl rfl h
  | healthSettles id r =>
    show LiveInv (settleHealth p id r)
    exact liveInv_of_eq (by rw [settleHealth_sync]) (by rw [settleHealth_sync])
      (settleHealth_quiet p id r).1 h

theorem run_liveInv (events : List Event) (p : Page) (h : LiveInv p) :
    LiveInv (run p events) := by
  induction events generalizing p with
  | nil => exact h
  | cons e rest ih => exact ih (step p e) (step_liveInv p e h)

theorem construct_liveInv (b : Browser) (hb : b.liveIntervals = []) : LiveInv (construct b) := by
  unfold construct initializeSync
  simp only
  split
  · apply startPolling_liveInv
    exact ⟨by simp [TimerInv, detectCurrentContext], by simp [detectCurrentContext, hb]⟩
  · exact ⟨by simp [TimerInv, detectCurrentContext], by simp [detectCurrentContext, hb]⟩

/-- C24: at most one polling timer is ever live. In a browser that starts with
no interval, after construction and any sequence of events - resume events
arriving before the first immediate check completes included - the intervals
created by `setInterval` and not yet cleared are at most one, that one is the
agent's `intervalId`, and `startPolling` does nothing while it is armed. -/
theorem at_most_one_live_interval (b : Browser) (events : List Event)
    (hb : b.liveIntervals = []) :
    (run (construct b) events).liveIntervals.length ≤ 1
      ∧ (run (construct b) events).liveIntervals
          = (run (construct b) events).sync.intervalId.toList
      ∧ ((run (construct b) events).sync.intervalId ≠ none →
          startPolling (run (construct b) events) = run (construct b) events) := by
  have h := run_liveInv events (construct b) (construct_liveInv b hb)
  refine ⟨?_, h.2, fun hne => startPolling_of_active _ (h.1.1.mpr hne)⟩
  rw [h.2]
  cases (run (construct b) events).sync.intervalId <;> simp

/-- Witness of C24: an admin page is blurred, then `visibilitychange` and
`focus` both arrive before either immediate check completes, then both
complete. -/
theorem at_most_one_live_interval_witness :
    (run (construct (freshBrowser "/admin/dashboard/"))
        [Event.blur, Event.visibilitychange false, Event.focus,
         Event.checkSettles 0 FetchResult.rejected,
         Event.checkSettles 1 FetchResult.rejected]).liveIntervals.length ≤ 1
      ∧ (run (construct (freshBrowser "/admin/dashboard/"))
        [Event.blur, Event.visibilitychange false, Event.focus]).requests.length = 2 :=
  ⟨(at_most_one_live_interval (freshBrowser "/admin/dashboard/")
      [Event.blur, Event.visibilitychange false, Event.focus,
       Event.checkSettles 0 FetchResult.rejected,
       Event.checkSettles 1 FetchResult.rejected] rfl).1,
   by decide⟩

theorem checkForUpdatesSettled_agent (p : Page) (r : FetchResult) :
    (resultPage (checkForUpdatesSettled p r)).sync.pollInterval = p.sync.pollInterval
      ∧ (resultPage (checkForUpdatesSettled p r)).sync.currentUser = p.sync.currentUser
      ∧ (resultPage (checkForUpdatesSettled p r)).sync.currentPage = p.sync.currentPage := by
  rcases isFailure_or_parsed r with hf | ⟨status, data, hr, hok⟩
  · rw [checkForUpdatesSettled_failure p r hf]
    simp [resultPage]
  · subst hr
    have h := (processUpdates_frame p data).1
    rw [checkForUpdatesSettled_parsed p status data hok]
    cases hres : processUpdates p data with
    | ok q =>
      rw [hres] at h
      simp only [resultPage] at h
      simp [resultPage, h]
    | error e =>
      rw [hres] at h
      simp only [resultPage] at h
      simp [resultPage, h]

/-- C25: among the agent's fields `checkForUpdates` can change `lastUpdateCheck`
only: for every role, every outcome of the request and every payload, the
fields `isActive`, `intervalId`, `pollInterval`, `currentUser` and `currentPage`
are after the call what they were before it. -/
theorem checkForUpdates_frame_of_agent (p : Page) (r : FetchResult) :
    (resultPage (checkForUpdatesCall p r)).sync.isActive = p.sync.isActive
      ∧ (resultPage (checkForUpdatesCall p r)).sync.intervalId = p.sync.intervalId
      ∧ (resultPage (checkForUpdatesCall p r)).sync.pollInterval = p.sync.pollInterval
      ∧ (resultPage (checkForUpdatesCall p r)).sync.currentUser = p.sync.currentUser
      ∧ (resultPage (checkForUpdatesCall p r)).sync.currentPage = p.sync.currentPage := by
  have hs := checkForUpdates_sync p
  unfold checkForUpdatesCall
  split
  · simp [resultPage, hs]
  · rename_i id _
    have ht := checkForUpdatesSettled_timer
      { (checkForUpdates p).1 with
        inflight := (checkForUpdates p).1.inflight.filter (fun d => !(d.id == id)) } r
    have ha := checkForUpdatesSettled_agent
      { (checkForUpdates p).1 with
        inflight := (checkForUpdates p).1.inflight.filter (fun d => !(d.id == id)) } r
    have e1 : (checkForUpdates p).1.sync.isActive = p.sync.isActive := by rw [hs]
    have e2 : (checkForUpdates p).1.sync.intervalId = p.sync.intervalId := by rw [hs]
    have e3 : (checkForUpdates p).1.sync.pollInterval = p.sync.pollInterval := by rw [hs]
    have e4 : (checkForUpdates p).1.sync.currentUser = p.sync.currentUser := by rw [hs]
    have e5 : (checkForUpdates p).1.sync.currentPage = p.sync.currentPage := by rw [hs]
    exact ⟨ht.1.trans e1, ht.2.trans e2, ha.1.trans e3, ha.2.1.trans e4, ha.2.2.trans e5⟩

theorem construct_isActive_iff (b : Browser) :
    (construct b).sync.isActive = true
      ↔ ((construct b).sync.currentUser = some "admin"
          ∨ (construct b).sync.currentUser = some "teacher") := by
  unfold construct initializeSync
  simp only
  split
  · rename_i hs
    rw [startPolling_isActive, (startPolling_frame _).1]
    refine ⟨fun _ => ?_, fun _ => rfl⟩
    simpa [shouldStartPolling] using hs
  · rename_i hs
    have hfalse : (detectCurrentContext
        { toBrowser := b,
          sync := { isActive := false, pollInterval := 10000, intervalId := none,
                    lastUpdateCheck := none, currentUser := none,
                    currentPage := none } }).sync.isActive = false := rfl
    rw [hfalse]
    refine ⟨fun h => by simp at h, fun h => ?_⟩
    exact absurd (by simpa [shouldStartPolling] using h) hs

theorem construct_fields (b : Browser) :
    (construct b).sync.pollInterval = 10000 ∧ (construct b).sync.lastUpdateCheck = none
      ∧ (construct b).requests = b.requests := by
  unfold construct initializeSync
  simp only
  split
  · refine ⟨?_, ?_, (startPolling_frame _).2⟩
    · unfold startPolling setInterval
      split <;> simp [detectCurrentContext]
    · unfold startPolling setInterval
      split <;> simp [detectCurrentContext]
  · exact ⟨rfl, rfl, rfl⟩

/-- C26: right after construction the agent has `pollInterval` 10000 and
`lastUpdateCheck` null; it is active exactly when the detected role is admin or
teacher, its timer handle is set exactly when it is active, and construction
has sent no request. -/
theorem construction_state (b : Browser) :
    (construct b).sync.pollInterval = 10000
      ∧ (construct b).sync.lastUpdateCheck = none
      ∧ ((construct b).sync.isActive = true
          ↔ ((construct b).sync.currentUser = some "admin"
              ∨ (construct b).sync.currentUser = some "teacher"))
      ∧ ((construct b).sync.intervalId ≠ none ↔ (construct b).sync.isActive = true)
      ∧ (construct b).requests = b.requests :=
  ⟨(construct_fields b).1, (construct_fields b).2.1, construct_isActive_iff b,
    (construct_timerInv b).1.symm, (construct_fields b).2.2⟩

/-- C22: `showUpdateNotification` leaves the whole page as it was - no
notification, no button, no timeout - when the stored preference
`disableUpdateNotifications` is 'true'; for every other stored value, and when
the key is absent, it appends exactly one notification, which has a Refresh
button if and only if an action callback was given. -/
theorem showUpdateNotification_preference (p : Page) (title message : String)
    (actionCallback : Option ActionCallback) :
    (getItem p.localStorage "disableUpdateNotifications" = some "true" →
        showUpdateNotification p title message actionCallback = p)
      ∧ (getItem p.localStorage "disableUpdateNotifications" ≠ some "true" →
          ∃ n, (showUpdateNotification p title message actionCallback).notifications
              = p.notifications ++ [n]
            ∧ n.title = title ∧ n.message = message
            ∧ (hasRefreshButton n = true ↔ actionCallback ≠ none)) := by
  refine ⟨showUpdateNotification_disabled p title message actionCallback, fun h => ?_⟩
  refine ⟨_, showUpdateNotification_enabled p title message actionCallback h, rfl, rfl, ?_⟩
  cases actionCallback <;> simp [hasRefreshButton]

/-- Witness of C22: a browser with the preference 'true', one with the
preference 'false', and one without the key. -/
theorem showUpdateNotification_preference_witness :
    showUpdateNotification (construct (mutedBrowser "/admin/timetable/")) "T" "m"
          (some ActionCallback.reload)
        = construct (mutedBrowser "/admin/timetable/")
      ∧ (∃ n, (showUpdateNotification
            (construct { freshBrowser "/admin/timetable/" with
                         localStorage := [("disableUpdateNotifications", "false")] })
            "T" "m" none).notifications = [n]
          ∧ hasRefreshButton n = false)
      ∧ (∃ n, (showUpdateNotification (construct (freshBrowser "/admin/timetable/")) "T" "m"
            (some ActionCallback.reload)).notifications = [n]
          ∧ hasRefreshButton n = true) := by
  refine ⟨(showUpdateNotification_preference (construct (mutedBrowser "/admin/timetable/"))
      "T" "m" (some ActionCallback.reload)).1 (by decide), ?_, ?_⟩
  · obtain ⟨n, hn, _, _, hb⟩ := (showUpdateNotification_preference
      (construct { freshBrowser "/admin/timetable/" with
                   localStorage := [("disableUpdateNotifications", "false")] })
      "T" "m" none).2 (by decide)
    refine ⟨n, hn, ?_⟩
    cases hr : hasRefreshButton n
    · rfl
    · exact absurd rfl (hb.mp hr)
  · obtain ⟨n, hn, _, _, hb⟩ := (showUpdateNotification_preference
      (construct (freshBrowser "/admin/timetable/")) "T" "m"
      (some ActionCallback.reload)).2 (by decide)
    exact ⟨n, hn, hb.mpr (by simp)⟩

/-! ## Context detection: the claims -/

theorem splitAux_ne_nil (sep : Char) (cs acc : List Char) : splitAux sep cs acc ≠ [] := by
  induction cs generalizing acc with
  | nil => simp [splitAux]
  | cons c cs ih =>
    unfold splitAux
    split
    · simp
    · exact ih _

theorem joinSegments_cons (sep : Char) (s : String) (l : List String) (h : l ≠ []) :
    joinSegments sep (s :: l) = s.data ++ sep :: joinSegments sep l := by
  cases l with
  | nil => exact absurd rfl h
  | cons t rest => rfl

theorem splitAux_join (sep : Char) (cs acc : List Char) :
    joinSegments sep (splitAux sep cs acc) = acc.reverse ++ cs := by
  induction cs generalizing acc with
  | nil => simp [splitAux, joinSegments]
  | cons c cs ih =>
    unfold splitAux
    split
    · rename_i hc
      rw [joinSegments_cons sep _ _ (splitAux_ne_nil sep cs []), ih []]
      simp [hc]
    · rw [ih (c :: acc)]
      simp

theorem splitAux_no_sep (sep : Char) (cs acc : List Char) (hacc : sep ∉ acc) :
    ∀ seg ∈ splitAux sep cs acc, sep ∉ seg.data := by
  induction cs generalizing acc with
  | nil =>
    intro seg hseg
    simp only [splitAux, List.mem_singleton] at hseg
    subst hseg
    simpa using hacc
  | cons c cs ih =>
    intro seg hseg
    unfold splitAux at hseg
    split at hseg
    · rcases List.mem_cons.mp hseg with h | h
      · subst h
        simpa using hacc
      · exact ih [] (by simp) seg h
    · rename_i hc
      refine ih (c :: acc) ?_ seg hseg
      intro hmem
      rcases List.mem_cons.mp hmem with h | h
      · exact hc h.symm
      · exact hacc h

/-- C27: `detectCurrentContext` decides by the segments of the path between
'/' characters - joined with '/' they give the path back and none contains a
'/' - compared for equality as whole segments, with fixed precedence: the role
is admin if some segment is 'admin', else teacher, else student, else it stays
null; the page is the first of timetable, teachers, students, dashboard,
announcements that is a segment, else it stays null. A segment 'students' does
not make the role student, and 'admin' wins over 'teacher' wherever they
stand. -/
theorem detectCurrentContext_by_segments (b : Browser) :
    joinSegments '/' (split b.pathname '/') = b.pathname.data
      ∧ (∀ seg ∈ split b.pathname '/', '/' ∉ seg.data)
      ∧ (detectCurrentContext (unconstructed b)).sync.currentUser
          = (if "admin" ∈ split b.pathname '/' then some "admin"
             else if "teacher" ∈ split b.pathname '/' then some "teacher"
             else if "student" ∈ split b.pathname '/' then some "student"
             else none)
      ∧ (detectCurrentContext (unconstructed b)).sync.currentPage
          = (if "timetable" ∈ split b.pathname '/' then some "timetable"
             else if "teachers" ∈ split b.pathname '/' then some "teachers"
             else if "students" ∈ split b.pathname '/' then some "students"
             else if "dashboard" ∈ split b.pathname '/' then some "dashboard"
             else if "announcements" ∈ split b.pathname '/' then some "announcements"
             else none)
      ∧ (detectCurrentContext (unconstructed (freshBrowser "/portal/students/"))).sync.currentUser
          = none
      ∧ (detectCurrentContext (unconstructed (freshBrowser "/teacher/admin/"))).sync.currentUser
          = some "admin" := by
  refine ⟨?_, ?_, ?_, ?_, by decide, by decide⟩
  · unfold split
    rw [splitAux_join]
    rfl
  · unfold split
    exact splitAux_no_sep '/' _ [] (by simp)
  · simp [detectCurrentContext, unconstructed]
  · simp [detectCurrentContext, unconstructed]

/-! ## sanitizeText: the claims -/

theorem escapeChar_cases (c : Char) :
    (c = '<' ∧ escapeChar c = ['&', 'l', 't', ';'])
      ∨ (c = '>' ∧ escapeChar c = ['&', 'g', 't', ';'])
      ∨ (c = '&' ∧ escapeChar c = ['&', 'a', 'm', 'p', ';'])
      ∨ (c = doubleQuote ∧ escapeChar c = ['&', 'q', 'u', 'o', 't', ';'])
      ∨ (c = apostrophe ∧ escapeChar c = ['&', '#', 'x', '2', '7', ';'])
      ∨ (isEscaped c = false ∧ escapeChar c = [c]) := by
  by_cases h1 : c = '<'
  · exact Or.inl ⟨h1, by subst h1; rfl⟩
  by_cases h2 : c = '>'
  · exact Or.inr (Or.inl ⟨h2, by subst h2; rfl⟩)
  by_cases h3 : c = '&'
  · exact Or.inr (Or.inr (Or.inl ⟨h3, by subst h3; rfl⟩))
  by_cases h4 : c = doubleQuote
  · exact Or.inr (Or.inr (Or.inr (Or.inl ⟨h4, by subst h4; rfl⟩)))
  by_cases h5 : c = apostrophe
  · exact Or.inr (Or.inr (Or.inr (Or.inr (Or.inl ⟨h5, by subst h5; rfl⟩))))
  · refine Or.inr (Or.inr (Or.inr (Or.inr (Or.inr ⟨?_, ?_⟩))))
    · simp [isEscaped, h1, h2, h3, h4, h5]
    · simp [escapeChar, h1, h2, h3, h4, h5]

theorem isEscaped_eq_false (c : Char) (h : isEscaped c = false) :
    c ≠ '<' ∧ c ≠ '>' ∧ c ≠ '&' ∧ c ≠ doubleQuote ∧ c ≠ apostrophe := by
  simp only [isEscaped, Bool.or_eq_false_iff, beq_eq_false_iff_ne, ne_eq] at h
  exact ⟨h.1.1.1.1, h.1.1.1.2, h.1.1.2, h.1.2, h.2⟩

theorem escapeChar_of_isEscaped (c : Char) (h : isEscaped c = true) :
    ∃ tail ∈ entityTails, escapeChar c = '&' :: tail := by
  rcases escapeChar_cases c with h1 | h1 | h1 | h1 | h1 | h1
  · exact ⟨_, by simp [entityTails], h1.2⟩
  · exact ⟨_, by simp [entityTails], h1.2⟩
  · exact ⟨_, by simp [entityTails], h1.2⟩
  · exact ⟨_, by simp [entityTails], h1.2⟩
  · exact ⟨_, by simp [entityTails], h1.2⟩
  · rw [h1.1] at h
    exact absurd h (by simp)

theorem entityTails_plain (tail : List Char) (h : tail ∈ entityTails) :
    ∀ x ∈ tail, isEscaped x = false := by
  simp only [entityTails, List.mem_cons, List.mem_singleton, List.not_mem_nil, or_false] at h
  rcases h with h | h | h | h | h <;> subst h <;> decide

theorem decodeFuel_replaceAll (cs : List Char) :
    ∀ n, (replaceAll cs).length ≤ n → decodeFuel n (replaceAll cs) = cs := by
  induction cs with
  | nil =>
    intro n _
    cases n <;> rfl
  | cons c cs ih =>
    intro n hn
    unfold replaceAll at hn ⊢
    rcases escapeChar_cases c with h | h | h | h | h | h
    · rw [h.2] at hn ⊢
      rw [h.1]
      obtain ⟨m, rfl⟩ : ∃ m, n = m + 1 := ⟨n - 1, by simp at hn; omega⟩
      have hm : (replaceAll cs).length ≤ m := by simp at hn; omega
      simp [decodeFuel, matchEntity, dropPrefix?, ih m hm]
    · rw [h.2] at hn ⊢
      rw [h.1]
      obtain ⟨m, rfl⟩ : ∃ m, n = m + 1 := ⟨n - 1, by simp at hn; omega⟩
      have hm : (replaceAll cs).length ≤ m := by simp at hn; omega
      simp [decodeFuel, matchEntity, dropPrefix?, ih m hm]
    · rw [h.2] at hn ⊢
      rw [h.1]
      obtain ⟨m, rfl⟩ : ∃ m, n = m + 1 := ⟨n - 1, by simp at hn; omega⟩
      have hm : (replaceAll cs).length ≤ m := by simp at hn; omega
      simp [decodeFuel, matchEntity, dropPrefix?, ih m hm]
    · rw [h.2] at hn ⊢
      rw [h.1]
      obtain ⟨m, rfl⟩ : ∃ m, n = m + 1 := ⟨n - 1, by simp at hn; omega⟩
      have hm : (replaceAll cs).length ≤ m := by simp at hn; omega
      simp [decodeFuel, matchEntity, dropPrefix?, ih m hm]
    · rw [h.2] at hn ⊢
      rw [h.1]
      obtain ⟨m, rfl⟩ : ∃ m, n = m + 1 := ⟨n - 1, by simp at hn; omega⟩
      have hm : (replaceAll cs).length ≤ m := by simp at hn; omega
      simp [decodeFuel, matchEntity, dropPrefix?, ih m hm]
    · rw [h.2] at hn ⊢
      obtain ⟨m, rfl⟩ : ∃ m, n = m + 1 := ⟨n - 1, by simp at hn; omega⟩
      have hm : (replaceAll cs).length ≤ m := by simp at hn; omega
      have hc := (isEscaped_eq_false c h.1).2.2.1
      simp [decodeFuel, hc, ih m hm]

theorem decodeEntities_replaceAll (cs : List Char) : decodeEntities (replaceAll cs) = cs :=
  decodeFuel_replaceAll cs _ (Nat.le_refl _)

theorem sanitizeText_data (s : String) : (sanitizeText (some s)).data = replaceAll s.data := by
  unfold sanitizeText
  by_cases h : s = ""
  · subst h
    rfl
  · simp [h]

theorem replaceAll_eq_flatMap (cs : List Char) : replaceAll cs = cs.flatMap escapeChar := by
  induction cs with
  | nil => rfl
  | cons c cs ih => simp [replaceAll, ih]

theorem escapeChar_mem (c x : Char) (h : x ∈ escapeChar c) : x = '&' ∨ isEscaped x = false := by
  rcases escapeChar_cases c with h1 | h1 | h1 | h1 | h1 | h1
  · rw [h1.2] at h
    rcases List.mem_cons.mp h with hx | hx
    · exact Or.inl hx
    · exact Or.inr (entityTails_plain _ (by simp [entityTails]) x hx)
  · rw [h1.2] at h
    rcases List.mem_cons.mp h with hx | hx
    · exact Or.inl hx
    · exact Or.inr (entityTails_plain _ (by simp [entityTails]) x hx)
  · rw [h1.2] at h
    rcases List.mem_cons.mp h with hx | hx
    · exact Or.inl hx
    · exact Or.inr (entityTails_plain _ (by simp [entityTails]) x hx)
  · rw [h1.2] at h
    rcases List.mem_cons.mp h with hx | hx
    · exact Or.inl hx
    · exact Or.inr (entityTails_plain _ (by simp [entityTails]) x hx)
  · rw [h1.2] at h
    rcases List.mem_cons.mp h with hx | hx
    · exact Or.inl hx
    · exact Or.inr (entityTails_plain _ (by simp [entityTails]) x hx)
  · rw [h1.2] at h
    rw [List.mem_singleton.mp h]
    exact Or.inr h1.1

theorem replaceAll_no_markup (cs : List Char) :
    ∀ x ∈ replaceAll cs, x ≠ '<' ∧ x ≠ '>' ∧ x ≠ doubleQuote ∧ x ≠ apostrophe := by
  induction cs with
  | nil => intro x hx; simp [replaceAll] at hx
  | cons c cs ih =>
    intro x hx
    unfold replaceAll at hx
    rcases List.mem_append.mp hx with h | h
    · rcases escapeChar_mem c x h with h1 | h1
      · subst h1
        decide
      · have := isEscaped_eq_false x h1
        exact ⟨this.1, this.2.1, this.2.2.2.1, this.2.2.2.2⟩
    · exact ih x h

theorem append_split_not_mem {α : Type} {a b c d : List α} {x : α}
    (h : a ++ b = c ++ x :: d) (hx : x ∉ a) : ∃ c', b = c' ++ x :: d := by
  rcases List.append_eq_append_iff.mp h with ⟨a', _, hb⟩ | ⟨c', ha, hd⟩
  · exact ⟨a', hb⟩
  · cases c' with
    | nil => exact ⟨[], by simpa using hd.symm⟩
    | cons y c'' =>
      have hy : y = x := by
        have := congrArg List.head? hd
        simpa using this.symm
      exact absurd (by rw [ha, hy]; simp) hx

theorem replaceAll_ampersand (cs : List Char) :
    ∀ pre post, replaceAll cs = pre ++ '&' :: post → ∃ tail ∈ entityTails, tail <+: post := by
  induction cs with
  | nil =>
    intro pre post h
    simp [replaceAll] at h
  | cons c cs ih =>
    intro pre post h
    unfold replaceAll at h
    by_cases hesc : isEscaped c = true
    · obtain ⟨tail, htail, he⟩ := escapeChar_of_isEscaped c hesc
      rw [he] at h
      cases pre with
      | nil =>
        simp only [List.nil_append, List.cons_append, List.cons.injEq, true_and] at h
        exact ⟨tail, htail, ⟨replaceAll cs, h⟩⟩
      | cons y pre' =>
        simp only [List.cons_append, List.cons.injEq] at h
        have hnot : '&' ∉ tail := by
          intro hmem
          have := entityTails_plain tail htail '&' hmem
          exact absurd this (by decide)
        obtain ⟨c', hc'⟩ := append_split_not_mem h.2 hnot
        exact ih c' post hc'
    · have hplain : isEscaped c = false := by simpa using hesc
      have he : escapeChar c = [c] := by
        rcases escapeChar_cases c with h1 | h1 | h1 | h1 | h1 | h1
        · rw [h1.1] at hplain; exact absurd hplain (by decide)
        · rw [h1.1] at hplain; exact absurd hplain (by decide)
        · rw [h1.1] at hplain; exact absurd hplain (by decide)
        · rw [h1.1] at hplain; exact absurd hplain (by decide)
        · rw [h1.1] at hplain; exact absurd hplain (by decide)
        · exact h1.2
      rw [he] at h
      have hnot : '&' ∉ [c] := by
        intro hmem
        have hc : c = '&' := (List.mem_singleton.mp hmem).symm
        exact (isEscaped_eq_false c hplain).2.2.1 hc
      obtain ⟨c', hc'⟩ := append_split_not_mem h hnot
      exact ih c' post hc'

/-- C21: for every input string the result of `sanitizeText` contains none of
'<', '>', the double quote and the apostrophe; every '&' of the result is
followed by the rest of one of the five entities; the result is the input with
every character replaced by what the callback gives for it - the entity for
each of the five characters, the character itself for any other; and a falsy
input (null, undefined, the empty string) gives the empty string. -/
theorem sanitizeText_escapes_markup (s : String) :
    (∀ x ∈ (sanitizeText (some s)).data,
        x ≠ '<' ∧ x ≠ '>' ∧ x ≠ doubleQuote ∧ x ≠ apostrophe)
      ∧ (∀ pre post, (sanitizeText (some s)).data = pre ++ '&' :: post →
          ∃ tail ∈ entityTails, tail <+: post)
      ∧ (sanitizeText (some s)).data = s.data.flatMap escapeChar
      ∧ (escapeChar '<' = "&lt;".data ∧ escapeChar '>' = "&gt;".data
          ∧ escapeChar '&' = "&amp;".data ∧ escapeChar doubleQuote = "&quot;".data
          ∧ escapeChar apostrophe = "&#x27;".data
          ∧ ∀ c, isEscaped c = false → escapeChar c = [c])
      ∧ sanitizeText none = "" ∧ sanitizeText (some "") = "" := by
  refine ⟨?_, ?_, ?_, ⟨rfl, rfl, rfl, rfl, rfl, ?_⟩, rfl, rfl⟩
  · rw [sanitizeText_data]
    exact replaceAll_no_markup s.data
  · rw [sanitizeText_data]
    exact replaceAll_ampersand s.data
  · rw [sanitizeText_data, replaceAll_eq_flatMap]
  · intro c hc
    rcases escapeChar_cases c with h1 | h1 | h1 | h1 | h1 | h1
    · rw [h1.1] at hc; exact absurd hc (by decide)
    · rw [h1.1] at hc; exact absurd hc (by decide)
    · rw [h1.1] at hc; exact absurd hc (by decide)
    · rw [h1.1] at hc; exact absurd hc (by decide)
    · rw [h1.1] at hc; exact absurd hc (by decide)
    · exact h1.2

/-- Witness of C21: a text with all five characters. -/
theorem sanitizeText_escapes_markup_witness :
    sanitizeText (some "a<b & 'c' > \"d\"")
        = "a&lt;b &amp; &#x27;c&#x27; &gt; &quot;d&quot;"
      ∧ ∀ x ∈ (sanitizeText (some "a<b & 'c' > \"d\"")).data,
          x ≠ '<' ∧ x ≠ '>' ∧ x ≠ doubleQuote ∧ x ≠ apostrophe :=
  ⟨by decide, (sanitizeText_escapes_markup "a<b & 'c' > \"d\"").1⟩

theorem escapeChar_length (c : Char) :
    1 ≤ (escapeChar c).length ∧ (isEscaped c = true → 1 < (escapeChar c).length) := by
  rcases escapeChar_cases c with h | h | h | h | h | h
  · rw [h.2]; simp
  · rw [h.2]; simp
  · rw [h.2]; simp
  · rw [h.2]; simp
  · rw [h.2]; simp
  · rw [h.2, h.1]; simp

theorem replaceAll_length (cs : List Char) :
    cs.length ≤ (replaceAll cs).length
      ∧ ((∃ c ∈ cs, isEscaped c = true) → cs.length < (replaceAll cs).length) := by
  induction cs with
  | nil => simp [replaceAll]
  | cons c cs ih =>
    have hc := escapeChar_length c
    unfold replaceAll
    simp only [List.length_cons, List.length_append]
    refine ⟨by omega, ?_⟩
    rintro ⟨x, hx, hesc⟩
    rcases List.mem_cons.mp hx with h | h
    · subst h
      have := hc.2 hesc
      omega
    · have := ih.2 ⟨x, h, hesc⟩
      omega

theorem replaceAll_of_plain (cs : List Char) (h : ∀ c ∈ cs, isEscaped c = false) :
    replaceAll cs = cs := by
  induction cs with
  | nil => rfl
  | cons c cs ih =>
    have hc : escapeChar c = [c] := by
      rcases escapeChar_cases c with h1 | h1 | h1 | h1 | h1 | h1
      · exact absurd (h c (List.mem_cons_self _ _)) (by rw [h1.1]; decide)
      · exact absurd (h c (List.mem_cons_self _ _)) (by rw [h1.1]; decide)
      · exact absurd (h c (List.mem_cons_self _ _)) (by rw [h1.1]; decide)
      · exact absurd (h c (List.mem_cons_self _ _)) (by rw [h1.1]; decide)
      · exact absurd (h c (List.mem_cons_self _ _)) (by rw [h1.1]; decide)
      · exact h1.2
    unfold replaceAll
    rw [hc, ih (fun x hx => h x (List.mem_cons_of_mem _ hx))]
    rfl

theorem replaceAll_eq_self_iff (cs : List Char) :
    replaceAll cs = cs ↔ ∀ c ∈ cs, isEscaped c = false := by
  constructor
  · intro h c hc
    by_contra hne
    have hesc : isEscaped c = true := by simpa using hne
    have := (replaceAll_length cs).2 ⟨c, hc, hesc⟩
    rw [h] at this
    exact absurd this (Nat.lt_irrefl _)
  · exact replaceAll_of_plain cs

theorem replaceAll_has_ampersand (cs : List Char) (h : ∃ c ∈ cs, isEscaped c = true) :
    '&' ∈ replaceAll cs := by
  induction cs with
  | nil => simp at h
  | cons c cs ih =>
    obtain ⟨x, hx, hesc⟩ := h
    unfold replaceAll
    rcases List.mem_cons.mp hx with hxc | hxc
    · subst hxc
      obtain ⟨tail, _, he⟩ := escapeChar_of_isEscaped x hesc
      rw [he]
      simp
    · exact List.mem_append_right _ (ih ⟨x, hxc, hesc⟩)

/-- C29: decoding the five entities in `sanitizeText(s)` gives `s` back, so
`sanitizeText` is injective on strings; `sanitizeText(s)` is `s` exactly when
`s` contains none of the five escaped characters, and on a string that contains
one of them a second application changes the result again. -/
theorem sanitizeText_left_inverse (s t : String) :
    decodeEntities (sanitizeText (some s)).data = s.data
      ∧ (sanitizeText (some s) = sanitizeText (some t) → s = t)
      ∧ (sanitizeText (some s) = s ↔ ∀ c ∈ s.data, isEscaped c = false)
      ∧ ((∃ c ∈ s.data, isEscaped c = true) →
          sanitizeText (some (sanitizeText (some s))) ≠ sanitizeText (some s)) := by
  have hdec : ∀ u : String, decodeEntities (sanitizeText (some u)).data = u.data := by
    intro u
    rw [sanitizeText_data]
    exact decodeEntities_replaceAll u.data
  refine ⟨hdec s, ?_, ?_, ?_⟩
  · intro h
    have h1 := hdec s
    rw [h, hdec t] at h1
    exact String.ext h1.symm
  · rw [← replaceAll_eq_self_iff, ← sanitizeText_data]
    constructor
    · intro h
      rw [h]
    · intro h
      exact String.ext h
  · intro hex heq
    have hamp : '&' ∈ (sanitizeText (some s)).data := by
      rw [sanitizeText_data]
      exact replaceAll_has_ampersand s.data hex
    have hdata := congrArg String.data heq
    rw [sanitizeText_data (sanitizeText (some s))] at hdata
    have := (replaceAll_eq_self_iff _).mp hdata '&' hamp
    exact absurd this (by decide)

/-- Witness of C29: a text containing '<' and '&'. -/
theorem sanitizeText_left_inverse_witness :
    (∃ c ∈ "x<y&z".data, isEscaped c = true)
      ∧ decodeEntities (sanitizeText (some "x<y&z")).data = "x<y&z".data
      ∧ sanitizeText (some (sanitizeText (some "x<y&z"))) ≠ sanitizeText (some "x<y&z") :=
  ⟨⟨'<', by decide, by decide⟩,
   (sanitizeText_left_inverse "x<y&z" "x<y&z").1,
   (sanitizeText_left_inverse "x<y&z" "x<y&z").2.2.2 ⟨'<', by decide, by decide⟩⟩

/-! ## Table search: the claims -/

/-- C23 (the code at the failing input): a table with the data rows 'Alice
Smith' and 'Bob Jones'. The search 'zzz' matches no row and inserts the 'No
results found' row, shown. The next search, 'found', matches no data row
either, but it matches the text of the inserted row, which the callback counts
among the visible rows: the 'No results found' row is hidden and the table
shows nothing. -/
theorem search_matching_no_results_text_hides_message :
    noResultsVisible (tableSearch
        [{ textContent := "Alice Smith", hidden := false, noResults := false },
         { textContent := "Bob Jones", hidden := false, noResults := false }] "zzz") = true
      ∧ someDataRowMatches (tableSearch
        [{ textContent := "Alice Smith", hidden := false, noResults := false },
         { textContent := "Bob Jones", hidden := false, noResults := false }] "zzz") "found"
          = false
      ∧ tableSearch (tableSearch
        [{ textContent := "Alice Smith", hidden := false, noResults := false },
         { textContent := "Bob Jones", hidden := false, noResults := false }] "zzz") "found"
          = [{ textContent := "Alice Smith", hidden := true, noResults := false },
             { textContent := "Bob Jones", hidden := true, noResults := false },
             { textContent := "No results found", hidden := true, noResults := true }]
      ∧ noResultsVisible (tableSearch (tableSearch
        [{ textContent := "Alice Smith", hidden := false, noResults := false },
         { textContent := "Bob Jones", hidden := false, noResults := false }] "zzz") "found")
          = false := by
  decide

/-! ## The suggestion grid: the claims -/

theorem addPeriod_mem (l : List Nat) (n x : Nat) : x ∈ addPeriod l n ↔ x ∈ l ∨ x = n := by
  unfold addPeriod
  split
  · rename_i h
    have hn : n ∈ l := by simpa using h
    constructor
    · exact Or.inl
    · rintro (h1 | h1)
      · exact h1
      · rw [h1]; exact hn
  · simp

theorem addPeriod_nodup (l : List Nat) (n : Nat) (h : l.Nodup) : (addPeriod l n).Nodup := by
  unfold addPeriod
  split
  · exact h
  · rename_i hn
    have hn' : n ∉ l := by simpa using hn
    rw [List.nodup_append]
    refine ⟨h, List.nodup_singleton n, ?_⟩
    intro a ha hb
    rw [List.mem_singleton.mp hb] at ha
    exact hn' ha

theorem foldl_addPeriod (slots : List Slot) (acc : List Nat) :
    (∀ x, x ∈ slots.foldl (fun acc2 r => addPeriod acc2 r.period_number) acc
        ↔ x ∈ acc ∨ ∃ s ∈ slots, s.period_number = x)
      ∧ (acc.Nodup →
          (slots.foldl (fun acc2 r => addPeriod acc2 r.period_number) acc).Nodup) := by
  induction slots generalizing acc with
  | nil => simp
  | cons s rest ih =>
    simp only [List.foldl_cons]
    have h := ih (addPeriod acc s.period_number)
    refine ⟨fun x => ?_, fun hnd => h.2 (addPeriod_nodup acc _ hnd)⟩
    rw [h.1 x, addPeriod_mem]
    constructor
    · rintro ((h1 | h1) | ⟨t, ht, hx⟩)
      · exact Or.inl h1
      · exact Or.inr ⟨s, List.mem_cons_self _ _, h1.symm⟩
      · exact Or.inr ⟨t, List.mem_cons_of_mem _ ht, hx⟩
    · rintro (h1 | ⟨t, ht, hx⟩)
      · exact Or.inl (Or.inl h1)
      · rcases List.mem_cons.mp ht with h2 | h2
        · exact Or.inl (Or.inr (by rw [← hx, h2]))
        · exact Or.inr ⟨t, h2, hx⟩

theorem foldl_days (grid : List (String × List Slot)) (acc : List Nat) :
    (∀ x, x ∈ grid.foldl
          (fun acc day => day.2.foldl (fun acc2 r => addPeriod acc2 r.period_number) acc) acc
        ↔ x ∈ acc ∨ ∃ day ∈ grid, ∃ s ∈ day.2, s.period_number = x)
      ∧ (acc.Nodup →
          (grid.foldl
            (fun acc day => day.2.foldl (fun acc2 r => addPeriod acc2 r.period_number) acc)
            acc).Nodup) := by
  induction grid generalizing acc with
  | nil => simp
  | cons d rest ih =>
    simp only [List.foldl_cons]
    have hin := foldl_addPeriod d.2 acc
    have h := ih (d.2.foldl (fun acc2 r => addPeriod acc2 r.period_number) acc)
    refine ⟨fun x => ?_, fun hnd => h.2 (hin.2 hnd)⟩
    rw [h.1 x, hin.1 x]
    constructor
    · rintro ((h1 | ⟨s, hs, hx⟩) | ⟨day, hday, s, hs, hx⟩)
      · exact Or.inl h1
      · exact Or.inr ⟨d, List.mem_cons_self _ _, s, hs, hx⟩
      · exact Or.inr ⟨day, List.mem_cons_of_mem _ hday, s, hs, hx⟩
    · rintro (h1 | ⟨day, hday, s, hs, hx⟩)
      · exact Or.inl (Or.inl h1)
      · rcases List.mem_cons.mp hday with h2 | h2
        · subst h2
          exact Or.inl (Or.inr ⟨s, hs, hx⟩)
        · exact Or.inr ⟨day, h2, s, hs, hx⟩

theorem sortedPeriods_spec (grid : List (String × List Slot)) :
    (sortedPeriods grid).Sorted (fun a b => a < b)
      ∧ ∀ n, n ∈ sortedPeriods grid ↔ ∃ day ∈ grid, ∃ s ∈ day.2, s.period_number = n := by
  have hperm := List.perm_insertionSort (fun a b : Nat => a ≤ b) (collectPeriods grid)
  have hfold := foldl_days grid []
  have hnd : (collectPeriods grid).Nodup := hfold.2 List.nodup_nil
  refine ⟨List.Sorted.lt_of_le (List.sorted_insertionSort _ _) (hperm.nodup_iff.mpr hnd), ?_⟩
  intro n
  unfold sortedPeriods
  rw [hperm.mem_iff]
  have := hfold.1 n
  simpa [collectPeriods] using this

theorem gridCell_dash_iff (rowSlots : List Slot) (p : Nat) :
    gridCell rowSlots p = GridCell.dash ↔ ∀ s ∈ rowSlots, s.period_number ≠ p := by
  unfold gridCell rowMapLookup
  cases h : rowSlots.reverse.find? (fun s => s.period_number == p) with
  | none =>
    simp only [true_iff]
    intro s hs
    have := List.find?_eq_none.mp h s (List.mem_reverse.mpr hs)
    simpa using this
  | some s =>
    simp only [reduceCtorEq, false_iff]
    intro hall
    have hmem := List.mem_reverse.mp (List.mem_of_find?_eq_some h)
    have hp := List.find?_some h
    exact hall s hmem (by simpa using hp)

theorem char_valid (c : Char) : c.toNat < 55296 ∨ (57343 < c.toNat ∧ c.toNat < 1114112) := by
  have h := c.valid
  simpa [UInt32.isValidChar, Nat.isValidChar, Char.toNat] using h

theorem char_eq_of_toNat (a b : Char) (h : a.toNat = b.toNat) : a = b := by
  apply Char.ext
  apply UInt32.ext
  exact h

theorem utf16Units_append_inj (a b : Char) (xs ys : List Nat)
    (h : utf16Units a ++ xs = utf16Units b ++ ys) : a = b ∧ xs = ys := by
  have ha := char_valid a
  have hb := char_valid b
  unfold utf16Units at h
  by_cases h1 : a.toNat < 65536 <;> by_cases h2 : b.toNat < 65536 <;>
    simp only [h1, h2, if_true, if_false, List.cons_append, List.nil_append,
      List.cons.injEq] at h
  · exact ⟨char_eq_of_toNat a b h.1, h.2⟩
  · exfalso; omega
  · exfalso; omega
  · exact ⟨char_eq_of_toNat a b (by omega), h.2.2⟩

theorem flatMap_utf16Units_inj (as bs : List Char)
    (h : as.flatMap utf16Units = bs.flatMap utf16Units) : as = bs := by
  induction as generalizing bs with
  | nil =>
    cases bs with
    | nil => rfl
    | cons b bs =>
      exfalso
      simp only [List.flatMap_nil, List.flatMap_cons] at h
      unfold utf16Units at h
      split at h <;> simp at h
  | cons a as ih =>
    cases bs with
    | nil =>
      exfalso
      simp only [List.flatMap_nil, List.flatMap_cons] at h
      unfold utf16Units at h
      split at h <;> simp at h
    | cons b bs =>
      simp only [List.flatMap_cons] at h
      obtain ⟨hab, hrest⟩ := utf16Units_append_inj a b _ _ h
      rw [hab, ih bs hrest]

/-- Two strings with the same UTF-16 code units are the same string. -/
theorem toUTF16_inj (a b : String) (h : toUTF16 a = toUTF16 b) : a = b :=
  String.ext (flatMap_utf16Units_inj a.data b.data h)

theorem sortedDays_spec (grid : List (String × List Slot)) :
    (sortedDays grid).Perm (grid.map (fun day => day.1))
      ∧ (sortedDays grid).Sorted (fun a b => toUTF16 a ≤ toUTF16 b) := by
  haveI : IsTotal String (fun a b => toUTF16 a ≤ toUTF16 b) :=
    ⟨fun a b => le_total (toUTF16 a) (toUTF16 b)⟩
  haveI : IsTrans String (fun a b => toUTF16 a ≤ toUTF16 b) :=
    ⟨fun _ _ _ h1 h2 => le_trans h1 h2⟩
  exact ⟨List.perm_insertionSort _ _, List.sorted_insertionSort _ _⟩

/-- With distinct keys the sorted keys ascend strictly. -/
theorem sortedDays_strict (grid : List (String × List Slot))
    (hkeys : (grid.map (fun day => day.1)).Nodup) :
    (sortedDays grid).Sorted (fun a b => toUTF16 a < toUTF16 b) := by
  have hspec := sortedDays_spec grid
  have hnd : (sortedDays grid).Nodup := hspec.1.nodup_iff.mpr hkeys
  have hboth := List.Pairwise.and hspec.2 hnd
  exact hboth.imp (fun h => lt_of_le_of_ne h.1 (fun heq => h.2 (toUTF16_inj _ _ heq)))

/-- With distinct keys `grid[day]` is the value stored under `day`. -/
theorem gridSlots_of_mem (grid : List (String × List Slot))
    (hkeys : (grid.map (fun day => day.1)).Nodup) (day : String) (slots : List Slot)
    (hmem : (day, slots) ∈ grid) : gridSlots grid day = slots := by
  induction grid with
  | nil => cases hmem
  | cons d rest ih =>
    have hnd := List.nodup_cons.mp hkeys
    unfold gridSlots
    rcases List.mem_cons.mp hmem with heq | hrest
    · subst heq
      simp
    · have hne : (d.1 == day) = false := by
        rw [beq_eq_false_iff_ne]
        intro hd
        apply hnd.1
        exact List.mem_map.mpr ⟨(day, slots), hrest, hd.symm⟩
      have hih := ih hnd.2 hrest
      unfold gridSlots at hih
      rw [List.find?_cons, hne]
      exact hih

/-- C28: `renderSuggestionGrid` renders the alert exactly when the grid is null
or has no day key. Otherwise (the keys of an object being distinct) it renders
the table whose header lists the period numbers occurring in the grid, each
once, in strictly ascending order, and whose body has one row per day key, in
the strictly ascending order `sort` gives the keys (by UTF-16 code units): the
row at the place of the key `day` carries the label of `day` and, for the slots
stored under `day` in the grid, one cell per period of the header; every row is
the row of an entry of the grid; and the cell of a period is '-' exactly when
the day's slots contain none with that period number. -/
theorem renderSuggestionGrid_structure (grid : Option (List (String × List Slot)))
    (g : List (String × List Slot)) (hg : g ≠ [])
    (hkeys : (g.map (fun day => day.1)).Nodup) :
    (renderSuggestionGrid grid = Rendered.alert ↔ grid = none ∨ grid = some [])
      ∧ renderSuggestionGrid (some g) = Rendered.table (sortedPeriods g) (gridRows g)
      ∧ (sortedPeriods g).Sorted (fun a b => a < b)
      ∧ (∀ n, n ∈ sortedPeriods g ↔ ∃ day ∈ g, ∃ s ∈ day.2, s.period_number = n)
      ∧ (gridRows g).length = g.length
      ∧ (gridRows g).map (fun row => row.label) = (sortedDays g).map dayLabel
      ∧ (sortedDays g).Perm (g.map (fun day => day.1))
      ∧ (sortedDays g).Sorted (fun a b => toUTF16 a < toUTF16 b)
      ∧ (∀ (i : Nat) (day : String) (slots : List Slot),
          (sortedDays g)[i]? = some day → (day, slots) ∈ g →
          (gridRows g)[i]? = some (GridRow.mk (dayLabel day)
                                    ((sortedPeriods g).map (gridCell slots))))
      ∧ (∀ row ∈ gridRows g, row.cells.length = (sortedPeriods g).length
          ∧ ∃ day slots, (day, slots) ∈ g ∧ row.label = dayLabel day
              ∧ row.cells = (sortedPeriods g).map (gridCell slots))
      ∧ (∀ rowSlots p, gridCell rowSlots p = GridCell.dash
          ↔ ∀ s ∈ rowSlots, s.period_number ≠ p) := by
  have hdays := sortedDays_spec g
  have hper := sortedPeriods_spec g
  refine ⟨?_, ?_, hper.1, hper.2, ?_, ?_, hdays.1, sortedDays_strict g hkeys, ?_, ?_,
    gridCell_dash_iff⟩
  · cases grid with
    | none => simp [renderSuggestionGrid]
    | some g' =>
      cases g' with
      | nil => simp [renderSuggestionGrid]
      | cons d rest => simp [renderSuggestionGrid]
  · unfold renderSuggestionGrid
    have : g.length ≠ 0 := fun h => hg (List.length_eq_zero.mp h)
    simp [this]
  · unfold gridRows
    rw [List.length_map, hdays.1.length_eq, List.length_map]
  · unfold gridRows
    simp [List.map_map, Function.comp_def]
  · intro i day slots hi hmem
    unfold gridRows
    rw [List.getElem?_map, hi, Option.map_some', gridSlots_of_mem g hkeys day slots hmem]
  · intro row hrow
    unfold gridRows at hrow
    obtain ⟨day, hday, hrw⟩ := List.mem_map.mp hrow
    subst hrw
    obtain ⟨d, hd, hd1⟩ := List.mem_map.mp (hdays.1.mem_iff.mp hday)
    have hmem : (day, d.2) ∈ g := by
      rw [← hd1]
      exact hd
    exact ⟨by simp, day, d.2, hmem, rfl, by rw [gridSlots_of_mem g hkeys day d.2 hmem]⟩

/-- Witness of C28: the sample grid. Its rows come in the order of the keys
'1', '2', 'constructor', U+1F600, U+FF5E; the row of 'constructor' is labelled
with the inherited property of `dayMap`. -/
theorem renderSuggestionGrid_structure_witness :
    renderSuggestionGrid (some sampleGrid)
        = Rendered.table [1, 2, 3]
            [{ label := DayLabel.text "Monday",
               cells := [GridCell.slot { period_number := 1, subject_code := "EN",
                                         subject_name := "English", teacher_name := "" },
                         GridCell.slot { period_number := 2, subject_code := "MA",
                                         subject_name := "Maths", teacher_name := "Rao" },
                         GridCell.dash] },
             { label := DayLabel.text "Tuesday",
               cells := [GridCell.dash, GridCell.dash,
                         GridCell.slot { period_number := 3, subject_code := "PH",
                                         subject_name := "Physics", teacher_name := "" }] },
             { label := DayLabel.inherited "constructor",
               cells := [GridCell.dash, GridCell.dash, GridCell.dash] },
             { label := DayLabel.text "😀",
               cells := [GridCell.dash,
                         GridCell.slot { period_number := 2, subject_code := "CH",
                                         subject_name := "Chemistry", teacher_name := "" },
                         GridCell.dash] },
             { label := DayLabel.text "～",
               cells := [GridCell.dash, GridCell.dash, GridCell.dash] }]
      ∧ (renderSuggestionGrid none = Rendered.alert ↔ (none : Option (List (String × List Slot)))
            = none ∨ (none : Option (List (String × List Slot))) = some []) := by
  have h := renderSuggestionGrid_structure none sampleGrid (by decide) (by decide)
  refine ⟨?_, h.1⟩
  rw [h.2.1]
  decide

end StudentTracking
